import Mathlib

/-!
Shallow embedding of the sudoku repository's core (grid.rs, checker.rs,
game.rs, solver.rs), with theorems settling the specification claims.

Modelling conventions:
* Rust's `usize` is modelled as `Nat` (all arithmetic in the source stays far
  below overflow).
* `Vec`-based stacks (`push` at the end, `pop` from the end) are modelled as
  Lean lists with the top at the head: `push` is cons, `pop` takes the head.
  Where the source builds a `Vec` in scan order and pops from the end, the
  embedding reverses the scanned list once so the head is the first popped
  element.
* Fallible operations return `Except GridError`; a Rust `unwrap`/`expect`
  panic (process abort) is modelled as `Option.none` around the result.
* `(n as f64).sqrt()` followed by the floor/exactness test in `square_root`
  is modelled by the exact integer square root, which agrees with the `f64`
  computation on every length a `Vec` can have here (below 2^52).
* Rust's `HashSet<usize>` in the checker is used only through `clear`,
  `contains` and `insert`; it is modelled as a duplicate-free list with
  `List.insert` (which is the identity when the element is present, exactly
  like `HashSet::insert`). The checker's set is cleared at the start of each
  `check_subsection` call, so it carries no state between calls and is not a
  field of the embedded `Game`.
-/

deriving instance DecidableEq for Except

/-- A board cell: `value = 0` means empty; `readonly` marks an original clue
(grid.rs `struct Cell`). -/
structure Cell where
  value : Nat
  readonly : Bool
deriving DecidableEq

/-- grid.rs `type GridPosition = (usize, usize)`: `(x, y)`. -/
def GridPosition : Type := Nat × Nat

instance : DecidableEq GridPosition := instDecidableEqProd

/-- grid.rs `enum GridError`. -/
inductive GridError where
  | InvalidGridSize
  | CellOutOfBounds
  | InvalidCellValue (i : Nat)
  | ReadonlyCellMutation
  | InvalidRowNumber
  | InvalidColumnNumber
  | InvalidSquareNumber
deriving DecidableEq

/-- grid.rs `struct Grid`. -/
structure Grid where
  cells : List Cell
  side_size : Nat
  sub_square_size : Nat
deriving DecidableEq

/-- grid.rs `fn square_root`: returns the root when `n` is a perfect square and
`none` otherwise. The source computes it with `f64::sqrt` and a floor
comparison; on every relevant `n` (far below `2 ^ 52`) that is exactly the
exact-integer-square-root test modelled here by direct search. -/
def square_root (n : Nat) : Option Nat :=
  (List.range (n + 1)).find? fun r => r * r == n

/-- The cell-construction loop inside `Grid::new`: each value is bounds-checked
against `side_size` and becomes a cell that is readonly iff the value is
nonzero; the first failure index is reported (`collect::<Result<_, _>>`). -/
def mkCells (side_size : Nat) : List Nat → Nat → Except GridError (List Cell)
  | [], _ => .ok []
  | v :: rest, i =>
    if v > side_size then .error (.InvalidCellValue i)
    else
      match mkCells side_size rest (i + 1) with
      | .error e => .error e
      | .ok tail => .ok (⟨v, v != 0⟩ :: tail)

/-- grid.rs `Grid::new`. -/
def Grid.new (cells : List Nat) : Except GridError Grid :=
  if cells.length = 1 then .error .InvalidGridSize
  else
    match square_root cells.length with
    | none => .error .InvalidGridSize
    | some side_size =>
      match square_root side_size with
      | none => .error .InvalidGridSize
      | some sub_square_size =>
        match mkCells side_size cells 0 with
        | .error e => .error e
        | .ok cs => .ok ⟨cs, side_size, sub_square_size⟩

/-- grid.rs `Grid::size`. -/
def Grid.size (g : Grid) : Nat := g.side_size

/-- grid.rs `Grid::get_cell_index`. -/
def Grid.get_cell_index (g : Grid) (position : GridPosition) : Except GridError Nat :=
  if position.1 ≥ g.side_size ∨ position.2 ≥ g.side_size then .error .CellOutOfBounds
  else .ok (position.2 * g.side_size + position.1)

/-- grid.rs `Grid::get_cell`. Indexing `self.cells[i]` is modelled with `getD`;
for every grid produced by `Grid::new` the index is in range. -/
def Grid.get_cell (g : Grid) (position : GridPosition) : Except GridError Nat :=
  match g.get_cell_index position with
  | .error e => .error e
  | .ok i => .ok (g.cells.getD i ⟨0, false⟩).value

/-- grid.rs `Grid::set_cell`: refuses readonly cells, otherwise writes the value
and returns the previous value together with the updated grid. -/
def Grid.set_cell (g : Grid) (position : GridPosition) (value : Nat) :
    Except GridError (Nat × Grid) :=
  match g.get_cell_index position with
  | .error e => .error e
  | .ok i =>
    if (g.cells.getD i ⟨0, false⟩).readonly then .error .ReadonlyCellMutation
    else
      .ok ((g.cells.getD i ⟨0, false⟩).value,
        { g with cells := g.cells.set i ⟨value, (g.cells.getD i ⟨0, false⟩).readonly⟩ })

/-- grid.rs `Grid::reset`: zero every non-readonly cell. -/
def Grid.reset (g : Grid) : Grid :=
  { g with cells := g.cells.map fun c => if c.readonly then c else ⟨0, c.readonly⟩ }

/-- grid.rs `enum GridSubsectionType`. -/
inductive GridSubsectionType where
  | Row (i : Nat)
  | Column (i : Nat)
  | Square (i j : Nat)
deriving DecidableEq

/-- grid.rs `struct GridSubsection` (the coordinate iterator state). -/
structure GridSubsection where
  subsection_type : GridSubsectionType
  grid_size : Nat
  current : Nat
deriving DecidableEq

/-- grid.rs `impl Iterator for GridSubsection`: note the hard-coded bound
`current > 8` and the hard-coded stride `3` for squares, independent of the
grid's actual `side_size`. -/
def GridSubsection.step (s : GridSubsection) : Option (GridPosition × GridSubsection) :=
  if s.current > 8 then none
  else
    let p : GridPosition :=
      match s.subsection_type with
      | .Row j => (s.current, j)
      | .Column i => (i, s.current)
      | .Square i j => (i * 3 + s.current % 3, j * 3 + s.current / 3)
    some (p, { s with current := s.current + 1 })

/-- Runs the `GridSubsection` iterator to exhaustion, collecting the yielded
positions. The iterator stops as soon as `current > 8`, so any fuel of at
least 10 collects the whole sequence. -/
def GridSubsection.collect : Nat → GridSubsection → List GridPosition
  | 0, _ => []
  | fuel + 1, s =>
    match s.step with
    | none => []
    | some (p, s') => p :: GridSubsection.collect fuel s'

/-- grid.rs `Grid::get_subsection_values` consumed to a list: every yielded
position is read with `get_cell(...).unwrap()`, so an out-of-bounds position
aborts the process, modelled as `none`. -/
def Grid.get_subsection_values (g : Grid) (subsection_type : GridSubsectionType) :
    Option (List Nat) :=
  (GridSubsection.collect 10 ⟨subsection_type, g.side_size, 0⟩).mapM
    fun p => (g.get_cell p).toOption

/-- grid.rs `Grid::get_row_values`, consumed to lists of values. -/
def Grid.get_row_values (g : Grid) : Option (List (List Nat)) :=
  (List.range g.side_size).mapM fun i => g.get_subsection_values (.Row i)

/-- The subsection types enumerated by grid.rs `Grid::get_all_subsection_values`:
for each `i` below `side_size`, the row `i`, the column `i`, and the square
`(i % sub_square_size, i / sub_square_size)`, in that order. -/
def Grid.all_subsection_types (g : Grid) : List GridSubsectionType :=
  (List.range g.side_size).flatMap fun i =>
    [.Row i, .Column i, .Square (i % g.sub_square_size) (i / g.sub_square_size)]

/-- checker.rs `struct CheckerResult`. -/
structure CheckerResult where
  complete : Bool
  valid : Bool
deriving DecidableEq

/-- The fold inside checker.rs `Checker::check_subsection`, threading the
accumulator `acc` and the seen-set: a nonzero value already seen flips the
accumulator to `false` (and, being present, the skipped `insert` makes no
difference); otherwise the value is inserted and the accumulator kept. -/
def checkFold : List Nat → Bool × List Nat → Bool × List Nat
  | [], st => st
  | curr :: rest, (acc, seen) =>
    if curr != 0 && seen.contains curr then checkFold rest (false, seen)
    else checkFold rest (acc, seen.insert curr)

/-- checker.rs `Checker::check_subsection` on an already-collected value list:
`valid` is the fold result, `complete` holds iff `0` never entered the set. -/
def Checker.check_subsection (values : List Nat) : CheckerResult :=
  { complete := !(checkFold values (true, [])).2.contains 0
    valid := (checkFold values (true, [])).1 }

/-- checker.rs `Checker::check_subsections` over a grid's full subsection list
(grid.rs `get_all_subsection_values` composed with the checker): pairs each
subsection type with its result, in order; `none` models the panic of the
value iterator's internal `unwrap` on an out-of-bounds read. -/
def Grid.check_all (g : Grid) : Option (List (GridSubsectionType × CheckerResult)) :=
  g.all_subsection_types.mapM fun t =>
    (g.get_subsection_values t).map fun vs => (t, Checker.check_subsection vs)

/-- game.rs `struct Entry`. -/
structure Entry where
  position : GridPosition
  value : Nat
  previous_value : Nat
deriving DecidableEq

/-- game.rs `struct Game`. The `checker` field is omitted: its set is cleared
at the start of every use, so it carries no observable state. -/
structure Game where
  selected : GridPosition
  invalid_subsections : List GridSubsectionType
  is_complete : Bool
  grid : Grid
  entries : List Entry
deriving DecidableEq

/-- game.rs `Game::from_grid`: note that the validity caches start as
`([], false)` without consulting the checker. -/
def Game.from_grid (grid : Grid) : Game :=
  { grid := grid
    selected := (0, 0)
    entries := []
    invalid_subsections := []
    is_complete := false }

/-- game.rs `Game::new`: the source computes `Grid::new(cells).unwrap()`, so an
invalid cell sequence aborts the process (modelled as `none`) instead of
surfacing the `GridError` that the return type promises. On success the
source wraps the game in `Ok`. -/
def Game.new (cells : List Nat) : Option Game :=
  match Grid.new cells with
  | .error _ => none
  | .ok grid => some (Game.from_grid grid)

/-- The accumulation loop of game.rs `Game::apply_checker`, starting from a
fresh `invalid_subsections` and `is_complete = true`: invalid subsection types
are appended in encounter order, and any incomplete subsection clears the
completeness flag. -/
def applyCheckerLoop : List (GridSubsectionType × CheckerResult) →
    List GridSubsectionType → Bool → List GridSubsectionType × Bool
  | [], inv, comp => (inv, comp)
  | (t, r) :: rest, inv, comp =>
    applyCheckerLoop rest (if r.valid then inv else inv ++ [t])
      (if r.complete then comp else false)

/-- game.rs `Game::apply_checker`: recomputes both caches from the current grid
by running the checker over all subsections; `none` models the panic of an
out-of-bounds subsection read. -/
def Game.apply_checker (g : Game) : Option Game :=
  match g.grid.check_all with
  | none => none
  | some results =>
    some { g with
           invalid_subsections := (applyCheckerLoop results [] true).1
           is_complete := (applyCheckerLoop results [] true).2 }

/-- game.rs `Game::add_entry`: capture the previous value, write through the
grid, push the entry, then fully recompute the caches. Errors from `get_cell`
or `set_cell` propagate with the game unchanged. -/
def Game.add_entry (g : Game) (position : GridPosition) (value : Nat) :
    Option (Except GridError Entry × Game) :=
  match g.grid.get_cell position with
  | .error e => some (.error e, g)
  | .ok previous_value =>
    match g.grid.set_cell position value with
    | .error e => some (.error e, g)
    | .ok (_, grid') =>
      match Game.apply_checker
          { g with grid := grid', entries := ⟨position, value, previous_value⟩ :: g.entries } with
      | none => none
      | some g' => some (.ok ⟨position, value, previous_value⟩, g')

/-- game.rs `Game::undo_entry`: pop the newest entry (`none` popped on empty
history leaves the game untouched), restore its previous value through
`set_cell(...).unwrap()` (a failure there aborts, modelled as the outer
`none`), recompute the caches, and move the selection. -/
def Game.undo_entry (g : Game) : Option (Option Entry × Game) :=
  match g.entries with
  | [] => some (none, g)
  | entry :: rest =>
    match g.grid.set_cell entry.position entry.previous_value with
    | .error _ => none
    | .ok (_, grid') =>
      match Game.apply_checker { g with grid := grid', entries := rest } with
      | none => none
      | some g' => some (some entry, { g' with selected := entry.position })

/-- game.rs `Game::unset_cell`: write zero through the grid; record an entry
only when the previous value was nonzero; never recompute the caches. -/
def Game.unset_cell (g : Game) (position : GridPosition) :
    Except GridError Unit × Game :=
  match g.grid.set_cell position 0 with
  | .error e => (.error e, g)
  | .ok (previous_value, grid') =>
    if previous_value = 0 then (.ok (), { g with grid := grid' })
    else
      (.ok (),
        { g with
          grid := grid'
          entries := ⟨position, 0, previous_value⟩ :: g.entries })

/-- game.rs `Game::size`. -/
def Game.size (g : Game) : Nat := g.grid.size

/-- game.rs `Game::is_correct`. -/
def Game.is_correct (g : Game) : Bool :=
  g.is_complete && g.invalid_subsections.isEmpty

/-- game.rs `Game::reset`: reset the grid, clear the history, recompute. -/
def Game.reset (g : Game) : Option Game :=
  Game.apply_checker { g with grid := g.grid.reset, is_complete := false, entries := [] }

/-- solver.rs `struct Solver`: the game, the still-empty positions (frontier),
and the entries the solver itself placed (trial stack). Both stacks have their
top at the list head. -/
structure Solver where
  game : Game
  empty_positions : List GridPosition
  entries_added : List Entry
deriving DecidableEq

/-- The row scan in solver.rs `Solver::new`: positions of zero-valued cells,
rows top to bottom and left to right within each row. -/
def emptyPositionsScan (rows : List (List Nat)) : List GridPosition :=
  (rows.enum.map fun (y, row) =>
      row.enum.filterMap fun (x, value) =>
        if value = 0 then some ((x, y) : GridPosition) else none).flatten

/-- solver.rs `Solver::new`: seeds the frontier by scanning the rows; the
source stores the scan order in a `Vec` popped from the end, so the embedded
head-of-list stack is the reversed scan. Reading the rows can in principle
panic (out-of-bounds subsection read), modelled as `none`. -/
def Solver.new (game : Game) : Option Solver :=
  match game.grid.get_row_values with
  | none => none
  | some rows =>
    some { game := game
           empty_positions := (emptyPositionsScan rows).reverse
           entries_added := [] }

/-- solver.rs `Solver::next`. The control flow is exactly the source's: after
an early return on `is_correct`, the forward/expand block (guarded only by
`invalid_subsections.len() == 0`) falls through into the unconditional
pop-and-retry block; there is no `else` between them. The `unwrap`/`expect`
panics (empty frontier, failed `add_entry`, empty trial stack) are `none`. -/
def Solver.next (s : Solver) : Option Solver :=
  if s.game.is_correct then some s
  else
    let forward : Option Solver :=
      if s.game.invalid_subsections.length = 0 then
        match s.empty_positions with
        | [] => none
        | p :: rest =>
          match s.game.add_entry p 1 with
          | none => none
          | some (.error _, _) => none
          | some (.ok e, game') =>
            some { game := game'
                   empty_positions := rest
                   entries_added := e :: s.entries_added }
      else some s
    match forward with
    | none => none
    | some s' =>
      match s'.entries_added with
      | [] => none
      | e :: rest =>
        let (next_value, empties) :=
          if e.value + 1 ≤ s'.game.size then (e.value + 1, s'.empty_positions)
          else (0, e.position :: s'.empty_positions)
        match s'.game.add_entry e.position next_value with
        | none => none
        | some (.error _, _) => none
        | some (.ok e', game') =>
          some { game := game'
                 empty_positions := empties
                 entries_added := e' :: rest }

/-- The `while !is_correct { next() }` loop of solver.rs `Solver::solve`, with
explicit fuel: `some` means the loop terminated within the given number of
iterations and returned the game. -/
def Solver.solveLoop : Nat → Solver → Option Game
  | 0, _ => none
  | fuel + 1, s =>
    if s.game.is_correct then some s.game
    else
      match s.next with
      | none => none
      | some s' => Solver.solveLoop fuel s'

/-- solver.rs `Solver::solve` with explicit fuel for the driver loop. -/
def Solver.solve (fuel : Nat) (game : Game) : Option Game :=
  match Solver.new game with
  | none => none
  | some s => Solver.solveLoop fuel s

/-- Iterates `next()` a fixed number of times, stopping with `none` on a
panic: the micro-step view of the solver used to stage the concrete run. -/
def Solver.nextN : Nat → Solver → Option Solver
  | 0, s => some s
  | n + 1, s =>
    match s.next with
    | none => none
    | some s' => Solver.nextN n s'

/-- Row-major cell values of a solved game, read exactly as the repository's
`solves_a_valid_game` test does: `get_rows()` flattened. -/
def Game.row_major_values (g : Game) : Option (List Nat) :=
  (Grid.get_row_values g.grid).map List.flatten

/-- A single externally driven mutation, for stating properties about
arbitrary sequences of `add_entry` and `undo_entry` calls. -/
inductive SolveOp where
  | add (p : GridPosition) (v : Nat)
  | undo
deriving DecidableEq

/-- Runs a sequence of `add_entry`/`undo_entry` calls on a game, stopping with
`none` if any call panics; an error-returning `add_entry` keeps the game
unchanged (the caller ignores the error), exactly as the source's mutators
report errors without mutating. -/
def Game.runOps (g : Game) : List SolveOp → Option Game
  | [] => some g
  | .add p v :: rest =>
    match g.add_entry p v with
    | none => none
    | some (_, g') => g'.runOps rest
  | .undo :: rest =>
    match g.undo_entry with
    | none => none
    | some (_, g') => g'.runOps rest

/-- The checker-recomputation of the validity caches from a grid alone: the
invalid subsection types in encounter order and the completeness flag, or
`none` when reading the subsections panics. This is the specification-side
description of what game.rs `apply_checker` caches. -/
def cacheRecompute (g : Grid) : Option (List GridSubsectionType × Bool) :=
  g.check_all.map fun results =>
    ((results.filter fun r => !r.2.valid).map Prod.fst,
      results.all fun r => r.2.complete)

/-- A game whose cached `invalid_subsections`/`is_complete` agree with
rerunning the Checker over all subsections of its current grid. -/
def CacheConsistent (g : Game) : Prop :=
  cacheRecompute g.grid = some (g.invalid_subsections, g.is_complete)

instance (g : Game) : Decidable (CacheConsistent g) :=
  inferInstanceAs (Decidable (_ = _))

/-- The per-value validity scan of `check_subsection`, starting from a given
seen-set: a specification-side recursion used to characterise `checkFold`. -/
def validFrom (seen : List Nat) : List Nat → Bool
  | [] => true
  | v :: rest => !(v != 0 && seen.contains v) && validFrom (seen.insert v) rest

/-- Modelled from the claim's words for C4: the coordinate order the claim
asserts, instantiated at `side_size = 9`, `box_size = 3`: a row left to right,
a column top to bottom, a square in raster order within its block. -/
def claimCoords : GridSubsectionType → List GridPosition
  | .Row i => (List.range 9).map fun x => (x, i)
  | .Column i => (List.range 9).map fun y => (i, y)
  | .Square i j => (List.range 9).map fun c => (i * 3 + c % 3, j * 3 + c / 3)

/-- In-range subsection indices for a `side_size = 9` grid. -/
def inRange9 : GridSubsectionType → Bool
  | .Row i => i < 9
  | .Column i => i < 9
  | .Square i j => i < 3 && j < 3

/-- The concrete puzzle of the repository's `solves_a_valid_game` test. -/
def c3Input : List Nat :=
  [4,6,7,1,0,0,8,0,5, 9,1,2,8,3,5,6,0,7, 0,8,5,6,4,7,1,9,2,
   2,9,6,3,5,1,4,7,0, 7,0,8,9,2,0,3,5,1, 5,3,1,4,0,8,9,2,6,
   0,7,3,0,6,4,5,1,0, 6,2,4,5,1,9,7,8,3, 1,5,9,7,8,3,0,6,4]

/-- The expected solved board of the repository's `solves_a_valid_game` test. -/
def c3Expected : List Nat :=
  [4,6,7,1,9,2,8,3,5, 9,1,2,8,3,5,6,4,7, 3,8,5,6,4,7,1,9,2,
   2,9,6,3,5,1,4,7,8, 7,4,8,9,2,6,3,5,1, 5,3,1,4,7,8,9,2,6,
   8,7,3,2,6,4,5,1,9, 6,2,4,5,1,9,7,8,3, 1,5,9,7,8,3,2,6,4]

/-- A placeholder game used as the default of `Option.getD` in concrete
constructions; every extraction below is proved to hit the `some` case. -/
def defaultGame : Game := Game.from_grid ⟨[], 0, 0⟩

/-- The solver freshly built on the C3 puzzle. -/
def c1Solver : Solver :=
  ((Game.new c3Input).bind Solver.new).getD ⟨defaultGame, [], []⟩

/-- The result of the forward placement of value 1 at the first popped empty
position of `c1Solver`. -/
def c1Add1 : Option (Except GridError Entry × Game) :=
  c1Solver.game.add_entry (6, 8) 1

/-- The entry produced by the forward placement in `c1Add1`. -/
def c1E1 : Entry :=
  match c1Add1 with
  | some (.ok e, _) => e
  | _ => ⟨(0, 0), 0, 0⟩

/-- The game state after the forward placement in `c1Add1`. -/
def c1G1 : Game :=
  match c1Add1 with
  | some (.ok _, g) => g
  | _ => defaultGame

/-- The empty-position stack of `c1Solver` below its top element. -/
def c1Rest : List GridPosition := c1Solver.empty_positions.tail

/-- An 81-cell board whose only clue is a 9 at `(0, 0)`. -/
def c2Input : List Nat := 9 :: List.replicate 80 0

/-- The game on `c2Input` after placing a conflicting 9 at `(1, 0)`:
its board is invalid (row 0 and square `(0, 0)` each hold two 9s). -/
def c2Game : Game :=
  match ((Game.new c2Input).getD defaultGame).add_entry (1, 0) 9 with
  | some (.ok _, g) => g
  | _ => defaultGame

/-- A solver state whose board is invalid and whose top trial entry has
value 9, so that `value + 1 > side_size`: the backtrack rule applies. -/
def c2Solver : Solver := ⟨c2Game, [], [⟨(1, 0), 9, 0⟩]⟩

/-- The result of resetting position `(1, 0)` of `c2Game` to zero. -/
def c2Add0 : Option (Except GridError Entry × Game) :=
  c2Game.add_entry (1, 0) 0

/-- The zero entry produced by `c2Add0`. -/
def c2E0 : Entry :=
  match c2Add0 with
  | some (.ok e, _) => e
  | _ => ⟨(0, 0), 0, 0⟩

/-- The game state after `c2Add0`. -/
def c2G0 : Game :=
  match c2Add0 with
  | some (.ok _, g) => g
  | _ => defaultGame

/-- A 16x16 all-zero cell sequence, accepted by `Grid::new` with
`side_size = 16`. -/
def c4Cells : List Nat := List.replicate 256 0

/-- A concrete 81-cell grid for instantiating the C4 theorem. -/
def c4Grid : Grid := (Grid.new (List.replicate 81 0)).toOption.getD ⟨[], 0, 0⟩

/-- The game freshly constructed on the C3 puzzle. -/
def c6Game0 : Game := (Game.new c3Input).getD defaultGame

/-- The result of placing 9 at the empty position `(4, 0)` of `c6Game0`. -/
def c6Add : Option (Except GridError Entry × Game) := c6Game0.add_entry (4, 0) 9

/-- The entry produced by `c6Add`. -/
def c6E : Entry :=
  match c6Add with
  | some (.ok e, _) => e
  | _ => ⟨(0, 0), 0, 0⟩

/-- The game state after `c6Add`. -/
def c6G1 : Game :=
  match c6Add with
  | some (.ok _, g) => g
  | _ => defaultGame

/-- The solved C3 board with the cell at `(0, 0)` (solution value 4) cleared:
one writable hole, everything else readonly. -/
def c8Input : List Nat :=
  [0,6,7,1,9,2,8,3,5, 9,1,2,8,3,5,6,4,7, 3,8,5,6,4,7,1,9,2,
   2,9,6,3,5,1,4,7,8, 7,4,8,9,2,6,3,5,1, 5,3,1,4,7,8,9,2,6,
   8,7,3,2,6,4,5,1,9, 6,2,4,5,1,9,7,8,3, 1,5,9,7,8,3,2,6,4]

/-- The game freshly constructed on `c8Input`. -/
def c8G0 : Game := (Game.new c8Input).getD defaultGame

/-- The game after filling the hole with its solution value 4: the board is
fully solved and the caches are freshly recomputed to `([], true)`. -/
def c8G1 : Game :=
  match c8G0.add_entry (0, 0) 4 with
  | some (.ok _, g) => g
  | _ => defaultGame

/-- The game after `unset_cell (0, 0)` on `c8G1`: the board has a hole again,
but the caches still read `([], true)` because `unset_cell` never
recomputes them. -/
def c8G2 : Game := (c8G1.unset_cell (0, 0)).2

/-- The game after re-adding 4 at the hole of `c8G2`. -/
def c8G3 : Game :=
  match c8G2.add_entry (0, 0) 4 with
  | some (.ok _, g) => g
  | _ => defaultGame

/-- The game after undoing the `add_entry` that produced `c8G3`. -/
def c8G4 : Game :=
  match c8G3.undo_entry with
  | some (_, g) => g
  | _ => defaultGame

/-- The result of overwriting the sole writable cell of `c8G1` with 7. -/
def c8WAdd : Option (Except GridError Entry × Game) := c8G1.add_entry (0, 0) 7

/-- The entry produced by `c8WAdd`. -/
def c8WE : Entry :=
  match c8WAdd with
  | some (.ok e, _) => e
  | _ => ⟨(0, 0), 0, 0⟩

/-- The game state after `c8WAdd`. -/
def c8WG2 : Game :=
  match c8WAdd with
  | some (.ok _, g) => g
  | _ => defaultGame

/-- The result of undoing `c8WAdd`. -/
def c8WUndo : Option (Option Entry × Game) := c8WG2.undo_entry

/-- The popped entry of `c8WUndo`. -/
def c8WOE : Option Entry :=
  match c8WUndo with
  | some (oe, _) => oe
  | _ => none

/-- The game state after `c8WUndo`. -/
def c8WG3 : Game :=
  match c8WUndo with
  | some (_, g) => g
  | _ => defaultGame

/-- The game freshly constructed on the C3 puzzle, for the C9 witness. -/
def c9G0 : Game := (Game.new c3Input).getD defaultGame

/-- A concrete mutation sequence: place, undo, place again. -/
def c9Ops : List SolveOp := [.add (4, 0) 9, .undo, .add (4, 0) 2]

/-- The game after running `c9Ops` on `c9G0`. -/
def c9GF : Game := (c9G0.runOps c9Ops).getD defaultGame

/-- The game freshly constructed on the C3 puzzle, for the C10 witness. -/
def c10G : Game := (Game.new c3Input).getD defaultGame

/-- The game returned alongside the `ReadonlyCellMutation` error when writing
the clue cell `(0, 0)` of `c10G`. -/
def c10G1 : Game :=
  match c10G.add_entry (0, 0) 5 with
  | some (_, g) => g
  | none => defaultGame
/-- The solver freshly built on the C3 puzzle, as an explicit state. -/
def c3S0 : Solver :=
  Solver.mk
    (Game.mk (0, 0) [] false
      (Grid.mk [Cell.mk 4 true, Cell.mk 6 true, Cell.mk 7 true, Cell.mk 1 true, Cell.mk 0 false, Cell.mk 0 false, Cell.mk 8 true, Cell.mk 0 false, Cell.mk 5 true, Cell.mk 9 true, Cell.mk 1 true, Cell.mk 2 true, Cell.mk 8 true, Cell.mk 3 true, Cell.mk 5 true, Cell.mk 6 true, Cell.mk 0 false, Cell.mk 7 true, Cell.mk 0 false, Cell.mk 8 true, Cell.mk 5 true, Cell.mk 6 true, Cell.mk 4 true, Cell.mk 7 true, Cell.mk 1 true, Cell.mk 9 true, Cell.mk 2 true, Cell.mk 2 true, Cell.mk 9 true, Cell.mk 6 true, Cell.mk 3 true, Cell.mk 5 true, Cell.mk 1 true, Cell.mk 4 true, Cell.mk 7 true, Cell.mk 0 false, Cell.mk 7 true, Cell.mk 0 false, Cell.mk 8 true, Cell.mk 9 true, Cell.mk 2 true, Cell.mk 0 false, Cell.mk 3 true, Cell.mk 5 true, Cell.mk 1 true, Cell.mk 5 true, Cell.mk 3 true, Cell.mk 1 true, Cell.mk 4 true, Cell.mk 0 false, Cell.mk 8 true, Cell.mk 9 true, Cell.mk 2 true, Cell.mk 6 true, Cell.mk 0 false, Cell.mk 7 true, Cell.mk 3 true, Cell.mk 0 false, Cell.mk 6 true, Cell.mk 4 true, Cell.mk 5 true, Cell.mk 1 true, Cell.mk 0 false, Cell.mk 6 true, Cell.mk 2 true, Cell.mk 4 true, Cell.mk 5 true, Cell.mk 1 true, Cell.mk 9 true, Cell.mk 7 true, Cell.mk 8 true, Cell.mk 3 true, Cell.mk 1 true, Cell.mk 5 true, Cell.mk 9 true, Cell.mk 7 true, Cell.mk 8 true, Cell.mk 3 true, Cell.mk 0 false, Cell.mk 6 true, Cell.mk 4 true] 9 3)
      [])
    [(6, 8), (8, 6), (3, 6), (0, 6), (4, 5), (5, 4), (1, 4), (8, 3), (0, 2), (7, 1), (7, 0), (5, 0), (4, 0)]
    []

/-- The C3 solver state after 1 calls to `next()`. -/
def c3S1 : Solver :=
  Solver.mk
    (Game.mk (0, 0) [] false
      (Grid.mk [Cell.mk 4 true, Cell.mk 6 true, Cell.mk 7 true, Cell.mk 1 true, Cell.mk 0 false, Cell.mk 0 false, Cell.mk 8 true, Cell.mk 0 false, Cell.mk 5 true, Cell.mk 9 true, Cell.mk 1 true, Cell.mk 2 true, Cell.mk 8 true, Cell.mk 3 true, Cell.mk 5 true, Cell.mk 6 true, Cell.mk 0 false, Cell.mk 7 true, Cell.mk 0 false, Cell.mk 8 true, Cell.mk 5 true, Cell.mk 6 true, Cell.mk 4 true, Cell.mk 7 true, Cell.mk 1 true, Cell.mk 9 true, Cell.mk 2 true, Cell.mk 2 true, Cell.mk 9 true, Cell.mk 6 true, Cell.mk 3 true, Cell.mk 5 true, Cell.mk 1 true, Cell.mk 4 true, Cell.mk 7 true, Cell.mk 0 false, Cell.mk 7 true, Cell.mk 0 false, Cell.mk 8 true, Cell.mk 9 true, Cell.mk 2 true, Cell.mk 0 false, Cell.mk 3 true, Cell.mk 5 true, Cell.mk 1 true, Cell.mk 5 true, Cell.mk 3 true, Cell.mk 1 true, Cell.mk 4 true, Cell.mk 0 false, Cell.mk 8 true, Cell.mk 9 true, Cell.mk 2 true, Cell.mk 6 true, Cell.mk 0 false, Cell.mk 7 true, Cell.mk 3 true, Cell.mk 0 false, Cell.mk 6 true, Cell.mk 4 true, Cell.mk 5 true, Cell.mk 1 true, Cell.mk 0 false, Cell.mk 6 true, Cell.mk 2 true, Cell.mk 4 true, Cell.mk 5 true, Cell.mk 1 true, Cell.mk 9 true, Cell.mk 7 true, Cell.mk 8 true, Cell.mk 3 true, Cell.mk 1 true, Cell.mk 5 true, Cell.mk 9 true, Cell.mk 7 true, Cell.mk 8 true, Cell.mk 3 true, Cell.mk 2 false, Cell.mk 6 true, Cell.mk 4 true] 9 3)
      [Entry.mk (6, 8) 2 1, Entry.mk (6, 8) 1 0])
    [(8, 6), (3, 6), (0, 6), (4, 5), (5, 4), (1, 4), (8, 3), (0, 2), (7, 1), (7, 0), (5, 0), (4, 0)]
    [Entry.mk (6, 8) 2 1]

/-- The C3 solver state after 2 calls to `next()`. -/
def c3S2 : Solver :=
  Solver.mk
    (Game.mk (0, 0) [.Column 8, .Square 2 2] false
      (Grid.mk [Cell.mk 4 true, Cell.mk 6 true, Cell.mk 7 true, Cell.mk 1 true, Cell.mk 0 false, Cell.mk 0 false, Cell.mk 8 true, Cell.mk 0 false, Cell.mk 5 true, Cell.mk 9 true, Cell.mk 1 true, Cell.mk 2 true, Cell.mk 8 true, Cell.mk 3 true, Cell.mk 5 true, Cell.mk 6 true, Cell.mk 0 false, Cell.mk 7 true, Cell.mk 0 false, Cell.mk 8 true, Cell.mk 5 true, Cell.mk 6 true, Cell.mk 4 true, Cell.mk 7 true, Cell.mk 1 true, Cell.mk 9 true, Cell.mk 2 true, Cell.mk 2 true, Cell.mk 9 true, Cell.mk 6 true, Cell.mk 3 true, Cell.mk 5 true, Cell.mk 1 true, Cell.mk 4 true, Cell.mk 7 true, Cell.mk 0 false, Cell.mk 7 true, Cell.mk 0 false, Cell.mk 8 true, Cell.mk 9 true, Cell.mk 2 true, Cell.mk 0 false, Cell.mk 3 true, Cell.mk 5 true, Cell.mk 1 true, Cell.mk 5 true, Cell.mk 3 true, Cell.mk 1 true, Cell.mk 4 true, Cell.mk 0 false, Cell.mk 8 true, Cell.mk 9 true, Cell.mk 2 true, Cell.mk 6 true, Cell.mk 0 false, Cell.mk 7 true, Cell.mk 3 true, Cell.mk 0 false, Cell.mk 6 true, Cell.mk 4 true, Cell.mk 5 true, Cell.mk 1 true, Cell.mk 2 false, Cell.mk 6 true, Cell.mk 2 true, Cell.mk 4 true, Cell.mk 5 true, Cell.mk 1 true, Cell.mk 9 true, Cell.mk 7 true, Cell.mk 8 true, Cell.mk 3 true, Cell.mk 1 true, Cell.mk 5 true, Cell.mk 9 true, Cell.mk 7 true, Cell.mk 8 true, Cell.mk 3 true, Cell.mk 2 false, Cell.mk 6 true, Cell.mk 4 true] 9 3)
      [Entry.mk (8, 6) 2 1, Entry.mk (8, 6) 1 0, Entry.mk (6, 8) 2 1, Entry.mk (6, 8) 1 0])
    [(3, 6), (0, 6), (4, 5), (5, 4), (1, 4), (8, 3), (0, 2), (7, 1), (7, 0), (5, 0), (4, 0)]
    [Entry.mk (8, 6) 2 1, Entry.mk (6, 8) 2 1]

/-- The C3 solver state after 3 calls to `next()`. -/
def c3S3 : Solver :=
  Solver.mk
    (Game.mk (0, 0) [.Row 6, .Column 8, .Square 2 2] false
      (Grid.mk [Cell.mk 4 true, Cell.mk 6 true, Cell.mk 7 true, Cell.mk 1 true, Cell.mk 0 false, Cell.mk 0 false, Cell.mk 8 true, Cell.mk 0 false, Cell.mk 5 true, Cell.mk 9 true, Cell.mk 1 true, Cell.mk 2 true, Cell.mk 8 true, Cell.mk 3 true, Cell.mk 5 true, Cell.mk 6 true, Cell.mk 0 false, Cell.mk 7 true, Cell.mk 0 false, Cell.mk 8 true, Cell.mk 5 true, Cell.mk 6 true, Cell.mk 4 true, Cell.mk 7 true, Cell.mk 1 true, Cell.mk 9 true, Cell.mk 2 true, Cell.mk 2 true, Cell.mk 9 true, Cell.mk 6 true, Cell.mk 3 true, Cell.mk 5 true, Cell.mk 1 true, Cell.mk 4 true, Cell.mk 7 true, Cell.mk 0 false, Cell.mk 7 true, Cell.mk 0 false, Cell.mk 8 true, Cell.mk 9 true, Cell.mk 2 true, Cell.mk 0 false, Cell.mk 3 true, Cell.mk 5 true, Cell.mk 1 true, Cell.mk 5 true, Cell.mk 3 true, Cell.mk 1 true, Cell.mk 4 true, Cell.mk 0 false, Cell.mk 8 true, Cell.mk 9 true, Cell.mk 2 true, Cell.mk 6 true, Cell.mk 0 false, Cell.mk 7 true, Cell.mk 3 true, Cell.mk 0 false, Cell.mk 6 true, Cell.mk 4 true, Cell.mk 5 true, Cell.mk 1 true, Cell.mk 3 false, Cell.mk 6 true, Cell.mk 2 true, Cell.mk 4 true, Cell.mk 5 true, Cell.mk 1 true, Cell.mk 9 true, Cell.mk 7 true, Cell.mk 8 true, Cell.mk 3 true, Cell.mk 1 true, Cell.mk 5 true, Cell.mk 9 true, Cell.mk 7 true, Cell.mk 8 true, Cell.mk 3 true, Cell.mk 2 false, Cell.mk 6 true, Cell.mk 4 true] 9 3)
      [Entry.mk (8, 6) 3 2, Entry.mk (8, 6) 2 1, Entry.mk (8, 6) 1 0, Entry.mk (6, 8) 2 1, Entry.mk (6, 8) 1 0])
    [(3, 6), (0, 6), (4, 5), (5, 4), (1, 4), (8, 3), (0, 2), (7, 1), (7, 0), (5, 0), (4, 0)]
    [Entry.mk (8, 6) 3 2, Entry.mk (6, 8) 2 1]

/-- The C3 solver state after 4 calls to `next()`. -/
def c3S4 : Solver :=
  Solver.mk
    (Game.mk (0, 0) [.Row 6, .Column 8, .Square 2 2] false
      (Grid.mk [Cell.mk 4 true, Cell.mk 6 true, Cell.mk 7 true, Cell.mk 1 true, Cell.mk 0 false, Cell.mk 0 false, Cell.mk 8 true, Cell.mk 0 false, Cell.mk 5 true, Cell.mk 9 true, Cell.mk 1 true, Cell.mk 2 true, Cell.mk 8 true, Cell.mk 3 true, Cell.mk 5 true, Cell.mk 6 true, Cell.mk 0 false, Cell.mk 7 true, Cell.mk 0 false, Cell.mk 8 true, Cell.mk 5 true, Cell.mk 6 true, Cell.mk 4 true, Cell.mk 7 true, Cell.mk 1 true, Cell.mk 9 true, Cell.mk 2 true, Cell.mk 2 true, Cell.mk 9 true, Cell.mk 6 true, Cell.mk 3 true, Cell.mk 5 true, Cell.mk 1 true, Cell.mk 4 true, Cell.mk 7 true, Cell.mk 0 false, Cell.mk 7 true, Cell.mk 0 false, Cell.mk 8 true, Cell.mk 9 true, Cell.mk 2 true, Cell.mk 0 false, Cell.mk 3 true, Cell.mk 5 true, Cell.mk 1 true, Cell.mk 5 true, Cell.mk 3 true, Cell.mk 1 true, Cell.mk 4 true, Cell.mk 0 false, Cell.mk 8 true, Cell.mk 9 true, Cell.mk 2 true, Cell.mk 6 true, Cell.mk 0 false, Cell.mk 7 true, Cell.mk 3 true, Cell.mk 0 false, Cell.mk 6 true, Cell.mk 4 true, Cell.mk 5 true, Cell.mk 1 true, Cell.mk 4 false, Cell.mk 6 true, Cell.mk 2 true, Cell.mk 4 true, Cell.mk 5 true, Cell.mk 1 true, Cell.mk 9 true, Cell.mk 7 true, Cell.mk 8 true, Cell.mk 3 true, Cell.mk 1 true, Cell.mk 5 true, Cell.mk 9 true, Cell.mk 7 true, Cell.mk 8 true, Cell.mk 3 true, Cell.mk 2 false, Cell.mk 6 true, Cell.mk 4 true] 9 3)
      [Entry.mk (8, 6) 4 3, Entry.mk (8, 6) 3 2, Entry.mk (8, 6) 2 1, Entry.mk (8, 6) 1 0, Entry.mk (6, 8) 2 1, Entry.mk (6, 8) 1 0])
    [(3, 6), (0, 6), (4, 5), (5, 4), (1, 4), (8, 3), (0, 2), (7, 1), (7, 0), (5, 0), (4, 0)]
    [Entry.mk (8, 6) 4 3, Entry.mk (6, 8) 2 1]

/-- The C3 solver state after 5 calls to `next()`. -/
def c3S5 : Solver :=
  Solver.mk
    (Game.mk (0, 0) [.Row 6, .Column 8, .Square 2 2] false
      (Grid.mk [Cell.mk 4 true, Cell.mk 6 true, Cell.mk 7 true, Cell.mk 1 true, Cell.mk 0 false, Cell.mk 0 false, Cell.mk 8 true, Cell.mk 0 false, Cell.mk 5 true, Cell.mk 9 true, Cell.mk 1 true, Cell.mk 2 true, Cell.mk 8 true, Cell.mk 3 true, Cell.mk 5 true, Cell.mk 6 true, Cell.mk 0 false, Cell.mk 7 true, Cell.mk 0 false, Cell.mk 8 true, Cell.mk 5 true, Cell.mk 6 true, Cell.mk 4 true, Cell.mk 7 true, Cell.mk 1 true, Cell.mk 9 true, Cell.mk 2 true, Cell.mk 2 true, Cell.mk 9 true, Cell.mk 6 true, Cell.mk 3 true, Cell.mk 5 true, Cell.mk 1 true, Cell.mk 4 true, Cell.mk 7 true, Cell.mk 0 false, Cell.mk 7 true, Cell.mk 0 false, Cell.mk 8 true, Cell.mk 9 true, Cell.mk 2 true, Cell.mk 0 false, Cell.mk 3 true, Cell.mk 5 true, Cell.mk 1 true, Cell.mk 5 true, Cell.mk 3 true, Cell.mk 1 true, Cell.mk 4 true, Cell.mk 0 false, Cell.mk 8 true, Cell.mk 9 true, Cell.mk 2 true, Cell.mk 6 true, Cell.mk 0 false, Cell.mk 7 true, Cell.mk 3 true, Cell.mk 0 false, Cell.mk 6 true, Cell.mk 4 true, Cell.mk 5 true, Cell.mk 1 true, Cell.mk 5 false, Cell.mk 6 true, Cell.mk 2 true, Cell.mk 4 true, Cell.mk 5 true, Cell.mk 1 true, Cell.mk 9 true, Cell.mk 7 true, Cell.mk 8 true, Cell.mk 3 true, Cell.mk 1 true, Cell.mk 5 true, Cell.mk 9 true, Cell.mk 7 true, Cell.mk 8 true, Cell.mk 3 true, Cell.mk 2 false, Cell.mk 6 true, Cell.mk 4 true] 9 3)
      [Entry.mk (8, 6) 5 4, Entry.mk (8, 6) 4 3, Entry.mk (8, 6) 3 2, Entry.mk (8, 6) 2 1, Entry.mk (8, 6) 1 0, Entry.mk (6, 8) 2 1, Entry.mk (6, 8) 1 0])
    [(3, 6), (0, 6), (4, 5), (5, 4), (1, 4), (8, 3), (0, 2), (7, 1), (7, 0), (5, 0), (4, 0)]
    [Entry.mk (8, 6) 5 4, Entry.mk (6, 8) 2 1]

/-- The C3 solver state after 6 calls to `next()`. -/
def c3S6 : Solver :=
  Solver.mk
    (Game.mk (0, 0) [.Row 6, .Column 8, .Square 2 2] false
      (Grid.mk [Cell.mk 4 true, Cell.mk 6 true, Cell.mk 7 true, Cell.mk 1 true, Cell.mk 0 false, Cell.mk 0 false, Cell.mk 8 true, Cell.mk 0 false, Cell.mk 5 true, Cell.mk 9 true, Cell.mk 1 true, Cell.mk 2 true, Cell.mk 8 true, Cell.mk 3 true, Cell.mk 5 true, Cell.mk 6 true, Cell.mk 0 false, Cell.mk 7 true, Cell.mk 0 false, Cell.mk 8 true, Cell.mk 5 true, Cell.mk 6 true, Cell.mk 4 true, Cell.mk 7 true, Cell.mk 1 true, Cell.mk 9 true, Cell.mk 2 true, Cell.mk 2 true, Cell.mk 9 true, Cell.mk 6 true, Cell.mk 3 true, Cell.mk 5 true, Cell.mk 1 true, Cell.mk 4 true, Cell.mk 7 true, Cell.mk 0 false, Cell.mk 7 true, Cell.mk 0 false, Cell.mk 8 true, Cell.mk 9 true, Cell.mk 2 true, Cell.mk 0 false, Cell.mk 3 true, Cell.mk 5 true, Cell.mk 1 true, Cell.mk 5 true, Cell.mk 3 true, Cell.mk 1 true, Cell.mk 4 true, Cell.mk 0 false, Cell.mk 8 true, Cell.mk 9 true, Cell.mk 2 true, Cell.mk 6 true, Cell.mk 0 false, Cell.mk 7 true, Cell.mk 3 true, Cell.mk 0 false, Cell.mk 6 true, Cell.mk 4 true, Cell.mk 5 true, Cell.mk 1 true, Cell.mk 6 false, Cell.mk 6 true, Cell.mk 2 true, Cell.mk 4 true, Cell.mk 5 true, Cell.mk 1 true, Cell.mk 9 true, Cell.mk 7 true, Cell.mk 8 true, Cell.mk 3 true, Cell.mk 1 true, Cell.mk 5 true, Cell.mk 9 true, Cell.mk 7 true, Cell.mk 8 true, Cell.mk 3 true, Cell.mk 2 false, Cell.mk 6 true, Cell.mk 4 true] 9 3)
      [Entry.mk (8, 6) 6 5, Entry.mk (8, 6) 5 4, Entry.mk (8, 6) 4 3, Entry.mk (8, 6) 3 2, Entry.mk (8, 6) 2 1, Entry.mk (8, 6) 1 0, Entry.mk (6, 8) 2 1, Entry.mk (6, 8) 1 0])
    [(3, 6), (0, 6), (4, 5), (5, 4), (1, 4), (8, 3), (0, 2), (7, 1), (7, 0), (5, 0), (4, 0)]
    [Entry.mk (8, 6) 6 5, Entry.mk (6, 8) 2 1]

/-- The C3 solver state after 7 calls to `next()`. -/
def c3S7 : Solver :=
  Solver.mk
    (Game.mk (0, 0) [.Row 6, .Column 8, .Square 2 2] false
      (Grid.mk [Cell.mk 4 true, Cell.mk 6 true, Cell.mk 7 true, Cell.mk 1 true, Cell.mk 0 false, Cell.mk 0 false, Cell.mk 8 true, Cell.mk 0 false, Cell.mk 5 true, Cell.mk 9 true, Cell.mk 1 true, Cell.mk 2 true, Cell.mk 8 true, Cell.mk 3 true, Cell.mk 5 true, Cell.mk 6 true, Cell.mk 0 false, Cell.mk 7 true, Cell.mk 0 false, Cell.mk 8 true, Cell.mk 5 true, Cell.mk 6 true, Cell.mk 4 true, Cell.mk 7 true, Cell.mk 1 true, Cell.mk 9 true, Cell.mk 2 true, Cell.mk 2 true, Cell.mk 9 true, Cell.mk 6 true, Cell.mk 3 true, Cell.mk 5 true, Cell.mk 1 true, Cell.mk 4 true, Cell.mk 7 true, Cell.mk 0 false, Cell.mk 7 true, Cell.mk 0 false, Cell.mk 8 true, Cell.mk 9 true, Cell.mk 2 true, Cell.mk 0 false, Cell.mk 3 true, Cell.mk 5 true, Cell.mk 1 true, Cell.mk 5 true, Cell.mk 3 true, Cell.mk 1 true, Cell.mk 4 true, Cell.mk 0 false, Cell.mk 8 true, Cell.mk 9 true, Cell.mk 2 true, Cell.mk 6 true, Cell.mk 0 false, Cell.mk 7 true, Cell.mk 3 true, Cell.mk 0 false, Cell.mk 6 true, Cell.mk 4 true, Cell.mk 5 true, Cell.mk 1 true, Cell.mk 7 false, Cell.mk 6 true, Cell.mk 2 true, Cell.mk 4 true, Cell.mk 5 true, Cell.mk 1 true, Cell.mk 9 true, Cell.mk 7 true, Cell.mk 8 true, Cell.mk 3 true, Cell.mk 1 true, Cell.mk 5 true, Cell.mk 9 true, Cell.mk 7 true, Cell.mk 8 true, Cell.mk 3 true, Cell.mk 2 false, Cell.mk 6 true, Cell.mk 4 true] 9 3)
      [Entry.mk (8, 6) 7 6, Entry.mk (8, 6) 6 5, Entry.mk (8, 6) 5 4, Entry.mk (8, 6) 4 3, Entry.mk (8, 6) 3 2, Entry.mk (8, 6) 2 1, Entry.mk (8, 6) 1 0, Entry.mk (6, 8) 2 1, Entry.mk (6, 8) 1 0])
    [(3, 6), (0, 6), (4, 5), (5, 4), (1, 4), (8, 3), (0, 2), (7, 1), (7, 0), (5, 0), (4, 0)]
    [Entry.mk (8, 6) 7 6, Entry.mk (6, 8) 2 1]

/-- The C3 solver state after 8 calls to `next()`. -/
def c3S8 : Solver :=
  Solver.mk
    (Game.mk (0, 0) [.Square 2 2] false
      (Grid.mk [Cell.mk 4 true, Cell.mk 6 true, Cell.mk 7 true, Cell.mk 1 true, Cell.mk 0 false, Cell.mk 0 false, Cell.mk 8 true, Cell.mk 0 false, Cell.mk 5 true, Cell.mk 9 true, Cell.mk 1 true, Cell.mk 2 true, Cell.mk 8 true, Cell.mk 3 true, Cell.mk 5 true, Cell.mk 6 true, Cell.mk 0 false, Cell.mk 7 true, Cell.mk 0 false, Cell.mk 8 true, Cell.mk 5 true, Cell.mk 6 true, Cell.mk 4 true, Cell.mk 7 true, Cell.mk 1 true, Cell.mk 9 true, Cell.mk 2 true, Cell.mk 2 true, Cell.mk 9 true, Cell.mk 6 true, Cell.mk 3 true, Cell.mk 5 true, Cell.mk 1 true, Cell.mk 4 true, Cell.mk 7 true, Cell.mk 0 false, Cell.mk 7 true, Cell.mk 0 false, Cell.mk 8 true, Cell.mk 9 true, Cell.mk 2 true, Cell.mk 0 false, Cell.mk 3 true, Cell.mk 5 true, Cell.mk 1 true, Cell.mk 5 true, Cell.mk 3 true, Cell.mk 1 true, Cell.mk 4 true, Cell.mk 0 false, Cell.mk 8 true, Cell.mk 9 true, Cell.mk 2 true, Cell.mk 6 true, Cell.mk 0 false, Cell.mk 7 true, Cell.mk 3 true, Cell.mk 0 false, Cell.mk 6 true, Cell.mk 4 true, Cell.mk 5 true, Cell.mk 1 true, Cell.mk 8 false, Cell.mk 6 true, Cell.mk 2 true, Cell.mk 4 true, Cell.mk 5 true, Cell.mk 1 true, Cell.mk 9 true, Cell.mk 7 true, Cell.mk 8 true, Cell.mk 3 true, Cell.mk 1 true, Cell.mk 5 true, Cell.mk 9 true, Cell.mk 7 true, Cell.mk 8 true, Cell.mk 3 true, Cell.mk 2 false, Cell.mk 6 true, Cell.mk 4 true] 9 3)
      [Entry.mk (8, 6) 8 7, Entry.mk (8, 6) 7 6, Entry.mk (8, 6) 6 5, Entry.mk (8, 6) 5 4, Entry.mk (8, 6) 4 3, Entry.mk (8, 6) 3 2, Entry.mk (8, 6) 2 1, Entry.mk (8, 6) 1 0, Entry.mk (6, 8) 2 1, Entry.mk (6, 8) 1 0])
    [(3, 6), (0, 6), (4, 5), (5, 4), (1, 4), (8, 3), (0, 2), (7, 1), (7, 0), (5, 0), (4, 0)]
    [Entry.mk (8, 6) 8 7, Entry.mk (6, 8) 2 1]

/-- The C3 solver state after 9 calls to `next()`. -/
def c3S9 : Solver :=
  Solver.mk
    (Game.mk (0, 0) [] false
      (Grid.mk [Cell.mk 4 true, Cell.mk 6 true, Cell.mk 7 true, Cell.mk 1 true, Cell.mk 0 false, Cell.mk 0 false, Cell.mk 8 true, Cell.mk 0 false, Cell.mk 5 true, Cell.mk 9 true, Cell.mk 1 true, Cell.mk 2 true, Cell.mk 8 true, Cell.mk 3 true, Cell.mk 5 true, Cell.mk 6 true, Cell.mk 0 false, Cell.mk 7 true, Cell.mk 0 false, Cell.mk 8 true, Cell.mk 5 true, Cell.mk 6 true, Cell.mk 4 true, Cell.mk 7 true, Cell.mk 1 true, Cell.mk 9 true, Cell.mk 2 true, Cell.mk 2 true, Cell.mk 9 true, Cell.mk 6 true, Cell.mk 3 true, Cell.mk 5 true, Cell.mk 1 true, Cell.mk 4 true, Cell.mk 7 true, Cell.mk 0 false, Cell.mk 7 true, Cell.mk 0 false, Cell.mk 8 true, Cell.mk 9 true, Cell.mk 2 true, Cell.mk 0 false, Cell.mk 3 true, Cell.mk 5 true, Cell.mk 1 true, Cell.mk 5 true, Cell.mk 3 true, Cell.mk 1 true, Cell.mk 4 true, Cell.mk 0 false, Cell.mk 8 true, Cell.mk 9 true, Cell.mk 2 true, Cell.mk 6 true, Cell.mk 0 false, Cell.mk 7 true, Cell.mk 3 true, Cell.mk 0 false, Cell.mk 6 true, Cell.mk 4 true, Cell.mk 5 true, Cell.mk 1 true, Cell.mk 9 false, Cell.mk 6 true, Cell.mk 2 true, Cell.mk 4 true, Cell.mk 5 true, Cell.mk 1 true, Cell.mk 9 true, Cell.mk 7 true, Cell.mk 8 true, Cell.mk 3 true, Cell.mk 1 true, Cell.mk 5 true, Cell.mk 9 true, Cell.mk 7 true, Cell.mk 8 true, Cell.mk 3 true, Cell.mk 2 false, Cell.mk 6 true, Cell.mk 4 true] 9 3)
      [Entry.mk (8, 6) 9 8, Entry.mk (8, 6) 8 7, Entry.mk (8, 6) 7 6, Entry.mk (8, 6) 6 5, Entry.mk (8, 6) 5 4, Entry.mk (8, 6) 4 3, Entry.mk (8, 6) 3 2, Entry.mk (8, 6) 2 1, Entry.mk (8, 6) 1 0, Entry.mk (6, 8) 2 1, Entry.mk (6, 8) 1 0])
    [(3, 6), (0, 6), (4, 5), (5, 4), (1, 4), (8, 3), (0, 2), (7, 1), (7, 0), (5, 0), (4, 0)]
    [Entry.mk (8, 6) 9 8, Entry.mk (6, 8) 2 1]

/-- The C3 solver state after 10 calls to `next()`. -/
def c3S10 : Solver :=
  Solver.mk
    (Game.mk (0, 0) [] false
      (Grid.mk [Cell.mk 4 true, Cell.mk 6 true, Cell.mk 7 true, Cell.mk 1 true, Cell.mk 0 false, Cell.mk 0 false, Cell.mk 8 true, Cell.mk 0 false, Cell.mk 5 true, Cell.mk 9 true, Cell.mk 1 true, Cell.mk 2 true, Cell.mk 8 true, Cell.mk 3 true, Cell.mk 5 true, Cell.mk 6 true, Cell.mk 0 false, Cell.mk 7 true, Cell.mk 0 false, Cell.mk 8 true, Cell.mk 5 true, Cell.mk 6 true, Cell.mk 4 true, Cell.mk 7 true, Cell.mk 1 true, Cell.mk 9 true, Cell.mk 2 true, Cell.mk 2 true, Cell.mk 9 true, Cell.mk 6 true, Cell.mk 3 true, Cell.mk 5 true, Cell.mk 1 true, Cell.mk 4 true, Cell.mk 7 true, Cell.mk 0 false, Cell.mk 7 true, Cell.mk 0 false, Cell.mk 8 true, Cell.mk 9 true, Cell.mk 2 true, Cell.mk 0 false, Cell.mk 3 true, Cell.mk 5 true, Cell.mk 1 true, Cell.mk 5 true, Cell.mk 3 true, Cell.mk 1 true, Cell.mk 4 true, Cell.mk 0 false, Cell.mk 8 true, Cell.mk 9 true, Cell.mk 2 true, Cell.mk 6 true, Cell.mk 0 false, Cell.mk 7 true, Cell.mk 3 true, Cell.mk 2 false, Cell.mk 6 true, Cell.mk 4 true, Cell.mk 5 true, Cell.mk 1 true, Cell.mk 9 false, Cell.mk 6 true, Cell.mk 2 true, Cell.mk 4 true, Cell.mk 5 true, Cell.mk 1 true, Cell.mk 9 true, Cell.mk 7 true, Cell.mk 8 true, Cell.mk 3 true, Cell.mk 1 true, Cell.mk 5 true, Cell.mk 9 true, Cell.mk 7 true, Cell.mk 8 true, Cell.mk 3 true, Cell.mk 2 false, Cell.mk 6 true, Cell.mk 4 true] 9 3)
      [Entry.mk (3, 6) 2 1, Entry.mk (3, 6) 1 0, Entry.mk (8, 6) 9 8, Entry.mk (8, 6) 8 7, Entry.mk (8, 6) 7 6, Entry.mk (8, 6) 6 5, Entry.mk (8, 6) 5 4, Entry.mk (8, 6) 4 3, Entry.mk (8, 6) 3 2, Entry.mk (8, 6) 2 1, Entry.mk (8, 6) 1 0, Entry.mk (6, 8) 2 1, Entry.mk (6, 8) 1 0])
    [(0, 6), (4, 5), (5, 4), (1, 4), (8, 3), (0, 2), (7, 1), (7, 0), (5, 0), (4, 0)]
    [Entry.mk (3, 6) 2 1, Entry.mk (8, 6) 9 8, Entry.mk (6, 8) 2 1]

/-- The C3 solver state after 11 calls to `next()`. -/
def c3S11 : Solver :=
  Solver.mk
    (Game.mk (0, 0) [.Column 0, .Row 6, .Square 0 2] false
      (Grid.mk [Cell.mk 4 true, Cell.mk 6 true, Cell.mk 7 true, Cell.mk 1 true, Cell.mk 0 false, Cell.mk 0 false, Cell.mk 8 true, Cell.mk 0 false, Cell.mk 5 true, Cell.mk 9 true, Cell.mk 1 true, Cell.mk 2 true, Cell.mk 8 true, Cell.mk 3 true, Cell.mk 5 true, Cell.mk 6 true, Cell.mk 0 false, Cell.mk 7 true, Cell.mk 0 false, Cell.mk 8 true, Cell.mk 5 true, Cell.mk 6 true, Cell.mk 4 true, Cell.mk 7 true, Cell.mk 1 true, Cell.mk 9 true, Cell.mk 2 true, Cell.mk 2 true, Cell.mk 9 true, Cell.mk 6 true, Cell.mk 3 true, Cell.mk 5 true, Cell.mk 1 true, Cell.mk 4 true, Cell.mk 7 true, Cell.mk 0 false, Cell.mk 7 true, Cell.mk 0 false, Cell.mk 8 true, Cell.mk 9 true, Cell.mk 2 true, Cell.mk 0 false, Cell.mk 3 true, Cell.mk 5 true, Cell.mk 1 true, Cell.mk 5 true, Cell.mk 3 true, Cell.mk 1 true, Cell.mk 4 true, Cell.mk 0 false, Cell.mk 8 true, Cell.mk 9 true, Cell.mk 2 true, Cell.mk 6 true, Cell.mk 2 false, Cell.mk 7 true, Cell.mk 3 true, Cell.mk 2 false, Cell.mk 6 true, Cell.mk 4 true, Cell.mk 5 true, Cell.mk 1 true, Cell.mk 9 false, Cell.mk 6 true, Cell.mk 2 true, Cell.mk 4 true, Cell.mk 5 true, Cell.mk 1 true, Cell.mk 9 true, Cell.mk 7 true, Cell.mk 8 true, Cell.mk 3 true, Cell.mk 1 true, Cell.mk 5 true, Cell.mk 9 true, Cell.mk 7 true, Cell.mk 8 true, Cell.mk 3 true, Cell.mk 2 false, Cell.mk 6 true, Cell.mk 4 true] 9 3)
      [Entry.mk (0, 6) 2 1, Entry.mk (0, 6) 1 0, Entry.mk (3, 6) 2 1, Entry.mk (3, 6) 1 0, Entry.mk (8, 6) 9 8, Entry.mk (8, 6) 8 7, Entry.mk (8, 6) 7 6, Entry.mk (8, 6) 6 5, Entry.mk (8, 6) 5 4, Entry.mk (8, 6) 4 3, Entry.mk (8, 6) 3 2, Entry.mk (8, 6) 2 1, Entry.mk (8, 6) 1 0, Entry.mk (6, 8) 2 1, Entry.mk (6, 8) 1 0])
    [(4, 5), (5, 4), (1, 4), (8, 3), (0, 2), (7, 1), (7, 0), (5, 0), (4, 0)]
    [Entry.mk (0, 6) 2 1, Entry.mk (3, 6) 2 1, Entry.mk (8, 6) 9 8, Entry.mk (6, 8) 2 1]

/-- The C3 solver state after 12 calls to `next()`. -/
def c3S12 : Solver :=
  Solver.mk
    (Game.mk (0, 0) [.Row 6, .Square 0 2] false
      (Grid.mk [Cell.mk 4 true, Cell.mk 6 true, Cell.mk 7 true, Cell.mk 1 true, Cell.mk 0 false, Cell.mk 0 false, Cell.mk 8 true, Cell.mk 0 false, Cell.mk 5 true, Cell.mk 9 true, Cell.mk 1 true, Cell.mk 2 true, Cell.mk 8 true, Cell.mk 3 true, Cell.mk 5 true, Cell.mk 6 true, Cell.mk 0 false, Cell.mk 7 true, Cell.mk 0 false, Cell.mk 8 true, Cell.mk 5 true, Cell.mk 6 true, Cell.mk 4 true, Cell.mk 7 true, Cell.mk 1 true, Cell.mk 9 true, Cell.mk 2 true, Cell.mk 2 true, Cell.mk 9 true, Cell.mk 6 true, Cell.mk 3 true, Cell.mk 5 true, Cell.mk 1 true, Cell.mk 4 true, Cell.mk 7 true, Cell.mk 0 false, Cell.mk 7 true, Cell.mk 0 false, Cell.mk 8 true, Cell.mk 9 true, Cell.mk 2 true, Cell.mk 0 false, Cell.mk 3 true, Cell.mk 5 true, Cell.mk 1 true, Cell.mk 5 true, Cell.mk 3 true, Cell.mk 1 true, Cell.mk 4 true, Cell.mk 0 false, Cell.mk 8 true, Cell.mk 9 true, Cell.mk 2 true, Cell.mk 6 true, Cell.mk 3 false, Cell.mk 7 true, Cell.mk 3 true, Cell.mk 2 false, Cell.mk 6 true, Cell.mk 4 true, Cell.mk 5 true, Cell.mk 1 true, Cell.mk 9 false, Cell.mk 6 true, Cell.mk 2 true, Cell.mk 4 true, Cell.mk 5 true, Cell.mk 1 true, Cell.mk 9 true, Cell.mk 7 true, Cell.mk 8 true, Cell.mk 3 true, Cell.mk 1 true, Cell.mk 5 true, Cell.mk 9 true, Cell.mk 7 true, Cell.mk 8 true, Cell.mk 3 true, Cell.mk 2 false, Cell.mk 6 true, Cell.mk 4 true] 9 3)
      [Entry.mk (0, 6) 3 2, Entry.mk (0, 6) 2 1, Entry.mk (0, 6) 1 0, Entry.mk (3, 6) 2 1, Entry.mk (3, 6) 1 0, Entry.mk (8, 6) 9 8, Entry.mk (8, 6) 8 7, Entry.mk (8, 6) 7 6, Entry.mk (8, 6) 6 5, Entry.mk (8, 6) 5 4, Entry.mk (8, 6) 4 3, Entry.mk (8, 6) 3 2, Entry.mk (8, 6) 2 1, Entry.mk (8, 6) 1 0, Entry.mk (6, 8) 2 1, Entry.mk (6, 8) 1 0])
    [(4, 5), (5, 4), (1, 4), (8, 3), (0, 2), (7, 1), (7, 0), (5, 0), (4, 0)]
    [Entry.mk (0, 6) 3 2, Entry.mk (3, 6) 2 1, Entry.mk (8, 6) 9 8, Entry.mk (6, 8) 2 1]

/-- The C3 solver state after 13 calls to `next()`. -/
def c3S13 : Solver :=
  Solver.mk
    (Game.mk (0, 0) [.Column 0, .Row 6, .Square 0 2] false
      (Grid.mk [Cell.mk 4 true, Cell.mk 6 true, Cell.mk 7 true, Cell.mk 1 true, Cell.mk 0 false, Cell.mk 0 false, Cell.mk 8 true, Cell.mk 0 false, Cell.mk 5 true, Cell.mk 9 true, Cell.mk 1 true, Cell.mk 2 true, Cell.mk 8 true, Cell.mk 3 true, Cell.mk 5 true, Cell.mk 6 true, Cell.mk 0 false, Cell.mk 7 true, Cell.mk 0 false, Cell.mk 8 true, Cell.mk 5 true, Cell.mk 6 true, Cell.mk 4 true, Cell.mk 7 true, Cell.mk 1 true, Cell.mk 9 true, Cell.mk 2 true, Cell.mk 2 true, Cell.mk 9 true, Cell.mk 6 true, Cell.mk 3 true, Cell.mk 5 true, Cell.mk 1 true, Cell.mk 4 true, Cell.mk 7 true, Cell.mk 0 false, Cell.mk 7 true, Cell.mk 0 false, Cell.mk 8 true, Cell.mk 9 true, Cell.mk 2 true, Cell.mk 0 false, Cell.mk 3 true, Cell.mk 5 true, Cell.mk 1 true, Cell.mk 5 true, Cell.mk 3 true, Cell.mk 1 true, Cell.mk 4 true, Cell.mk 0 false, Cell.mk 8 true, Cell.mk 9 true, Cell.mk 2 true, Cell.mk 6 true, Cell.mk 4 false, Cell.mk 7 true, Cell.mk 3 true, Cell.mk 2 false, Cell.mk 6 true, Cell.mk 4 true, Cell.mk 5 true, Cell.mk 1 true, Cell.mk 9 false, Cell.mk 6 true, Cell.mk 2 true, Cell.mk 4 true, Cell.mk 5 true, Cell.mk 1 true, Cell.mk 9 true, Cell.mk 7 true, Cell.mk 8 true, Cell.mk 3 true, Cell.mk 1 true, Cell.mk 5 true, Cell.mk 9 true, Cell.mk 7 true, Cell.mk 8 true, Cell.mk 3 true, Cell.mk 2 false, Cell.mk 6 true, Cell.mk 4 true] 9 3)
      [Entry.mk (0, 6) 4 3, Entry.mk (0, 6) 3 2, Entry.mk (0, 6) 2 1, Entry.mk (0, 6) 1 0, Entry.mk (3, 6) 2 1, Entry.mk (3, 6) 1 0, Entry.mk (8, 6) 9 8, Entry.mk (8, 6) 8 7, Entry.mk (8, 6) 7 6, Entry.mk (8, 6) 6 5, Entry.mk (8, 6) 5 4, Entry.mk (8, 6) 4 3, Entry.mk (8, 6) 3 2, Entry.mk (8, 6) 2 1, Entry.mk (8, 6) 1 0, Entry.mk (6, 8) 2 1, Entry.mk (6, 8) 1 0])
    [(4, 5), (5, 4), (1, 4), (8, 3), (0, 2), (7, 1), (7, 0), (5, 0), (4, 0)]
    [Entry.mk (0, 6) 4 3, Entry.mk (3, 6) 2 1, Entry.mk (8, 6) 9 8, Entry.mk (6, 8) 2 1]

/-- The C3 solver state after 14 calls to `next()`. -/
def c3S14 : Solver :=
  Solver.mk
    (Game.mk (0, 0) [.Column 0, .Row 6, .Square 0 2] false
      (Grid.mk [Cell.mk 4 true, Cell.mk 6 true, Cell.mk 7 true, Cell.mk 1 true, Cell.mk 0 false, Cell.mk 0 false, Cell.mk 8 true, Cell.mk 0 false, Cell.mk 5 true, Cell.mk 9 true, Cell.mk 1 true, Cell.mk 2 true, Cell.mk 8 true, Cell.mk 3 true, Cell.mk 5 true, Cell.mk 6 true, Cell.mk 0 false, Cell.mk 7 true, Cell.mk 0 false, Cell.mk 8 true, Cell.mk 5 true, Cell.mk 6 true, Cell.mk 4 true, Cell.mk 7 true, Cell.mk 1 true, Cell.mk 9 true, Cell.mk 2 true, Cell.mk 2 true, Cell.mk 9 true, Cell.mk 6 true, Cell.mk 3 true, Cell.mk 5 true, Cell.mk 1 true, Cell.mk 4 true, Cell.mk 7 true, Cell.mk 0 false, Cell.mk 7 true, Cell.mk 0 false, Cell.mk 8 true, Cell.mk 9 true, Cell.mk 2 true, Cell.mk 0 false, Cell.mk 3 true, Cell.mk 5 true, Cell.mk 1 true, Cell.mk 5 true, Cell.mk 3 true, Cell.mk 1 true, Cell.mk 4 true, Cell.mk 0 false, Cell.mk 8 true, Cell.mk 9 true, Cell.mk 2 true, Cell.mk 6 true, Cell.mk 5 false, Cell.mk 7 true, Cell.mk 3 true, Cell.mk 2 false, Cell.mk 6 true, Cell.mk 4 true, Cell.mk 5 true, Cell.mk 1 true, Cell.mk 9 false, Cell.mk 6 true, Cell.mk 2 true, Cell.mk 4 true, Cell.mk 5 true, Cell.mk 1 true, Cell.mk 9 true, Cell.mk 7 true, Cell.mk 8 true, Cell.mk 3 true, Cell.mk 1 true, Cell.mk 5 true, Cell.mk 9 true, Cell.mk 7 true, Cell.mk 8 true, Cell.mk 3 true, Cell.mk 2 false, Cell.mk 6 true, Cell.mk 4 true] 9 3)
      [Entry.mk (0, 6) 5 4, Entry.mk (0, 6) 4 3, Entry.mk (0, 6) 3 2, Entry.mk (0, 6) 2 1, Entry.mk (0, 6) 1 0, Entry.mk (3, 6) 2 1, Entry.mk (3, 6) 1 0, Entry.mk (8, 6) 9 8, Entry.mk (8, 6) 8 7, Entry.mk (8, 6) 7 6, Entry.mk (8, 6) 6 5, Entry.mk (8, 6) 5 4, Entry.mk (8, 6) 4 3, Entry.mk (8, 6) 3 2, Entry.mk (8, 6) 2 1, Entry.mk (8, 6) 1 0, Entry.mk (6, 8) 2 1, Entry.mk (6, 8) 1 0])
    [(4, 5), (5, 4), (1, 4), (8, 3), (0, 2), (7, 1), (7, 0), (5, 0), (4, 0)]
    [Entry.mk (0, 6) 5 4, Entry.mk (3, 6) 2 1, Entry.mk (8, 6) 9 8, Entry.mk (6, 8) 2 1]

/-- The C3 solver state after 15 calls to `next()`. -/
def c3S15 : Solver :=
  Solver.mk
    (Game.mk (0, 0) [.Column 0, .Row 6, .Square 0 2] false
      (Grid.mk [Cell.mk 4 true, Cell.mk 6 true, Cell.mk 7 true, Cell.mk 1 true, Cell.mk 0 false, Cell.mk 0 false, Cell.mk 8 true, Cell.mk 0 false, Cell.mk 5 true, Cell.mk 9 true, Cell.mk 1 true, Cell.mk 2 true, Cell.mk 8 true, Cell.mk 3 true, Cell.mk 5 true, Cell.mk 6 true, Cell.mk 0 false, Cell.mk 7 true, Cell.mk 0 false, Cell.mk 8 true, Cell.mk 5 true, Cell.mk 6 true, Cell.mk 4 true, Cell.mk 7 true, Cell.mk 1 true, Cell.mk 9 true, Cell.mk 2 true, Cell.mk 2 true, Cell.mk 9 true, Cell.mk 6 true, Cell.mk 3 true, Cell.mk 5 true, Cell.mk 1 true, Cell.mk 4 true, Cell.mk 7 true, Cell.mk 0 false, Cell.mk 7 true, Cell.mk 0 false, Cell.mk 8 true, Cell.mk 9 true, Cell.mk 2 true, Cell.mk 0 false, Cell.mk 3 true, Cell.mk 5 true, Cell.mk 1 true, Cell.mk 5 true, Cell.mk 3 true, Cell.mk 1 true, Cell.mk 4 true, Cell.mk 0 false, Cell.mk 8 true, Cell.mk 9 true, Cell.mk 2 true, Cell.mk 6 true, Cell.mk 6 false, Cell.mk 7 true, Cell.mk 3 true, Cell.mk 2 false, Cell.mk 6 true, Cell.mk 4 true, Cell.mk 5 true, Cell.mk 1 true, Cell.mk 9 false, Cell.mk 6 true, Cell.mk 2 true, Cell.mk 4 true, Cell.mk 5 true, Cell.mk 1 true, Cell.mk 9 true, Cell.mk 7 true, Cell.mk 8 true, Cell.mk 3 true, Cell.mk 1 true, Cell.mk 5 true, Cell.mk 9 true, Cell.mk 7 true, Cell.mk 8 true, Cell.mk 3 true, Cell.mk 2 false, Cell.mk 6 true, Cell.mk 4 true] 9 3)
      [Entry.mk (0, 6) 6 5, Entry.mk (0, 6) 5 4, Entry.mk (0, 6) 4 3, Entry.mk (0, 6) 3 2, Entry.mk (0, 6) 2 1, Entry.mk (0, 6) 1 0, Entry.mk (3, 6) 2 1, Entry.mk (3, 6) 1 0, Entry.mk (8, 6) 9 8, Entry.mk (8, 6) 8 7, Entry.mk (8, 6) 7 6, Entry.mk (8, 6) 6 5, Entry.mk (8, 6) 5 4, Entry.mk (8, 6) 4 3, Entry.mk (8, 6) 3 2, Entry.mk (8, 6) 2 1, Entry.mk (8, 6) 1 0, Entry.mk (6, 8) 2 1, Entry.mk (6, 8) 1 0])
    [(4, 5), (5, 4), (1, 4), (8, 3), (0, 2), (7, 1), (7, 0), (5, 0), (4, 0)]
    [Entry.mk (0, 6) 6 5, Entry.mk (3, 6) 2 1, Entry.mk (8, 6) 9 8, Entry.mk (6, 8) 2 1]

/-- The C3 solver state after 16 calls to `next()`. -/
def c3S16 : Solver :=
  Solver.mk
    (Game.mk (0, 0) [.Column 0, .Row 6, .Square 0 2] false
      (Grid.mk [Cell.mk 4 true, Cell.mk 6 true, Cell.mk 7 true, Cell.mk 1 true, Cell.mk 0 false, Cell.mk 0 false, Cell.mk 8 true, Cell.mk 0 false, Cell.mk 5 true, Cell.mk 9 true, Cell.mk 1 true, Cell.mk 2 true, Cell.mk 8 true, Cell.mk 3 true, Cell.mk 5 true, Cell.mk 6 true, Cell.mk 0 false, Cell.mk 7 true, Cell.mk 0 false, Cell.mk 8 true, Cell.mk 5 true, Cell.mk 6 true, Cell.mk 4 true, Cell.mk 7 true, Cell.mk 1 true, Cell.mk 9 true, Cell.mk 2 true, Cell.mk 2 true, Cell.mk 9 true, Cell.mk 6 true, Cell.mk 3 true, Cell.mk 5 true, Cell.mk 1 true, Cell.mk 4 true, Cell.mk 7 true, Cell.mk 0 false, Cell.mk 7 true, Cell.mk 0 false, Cell.mk 8 true, Cell.mk 9 true, Cell.mk 2 true, Cell.mk 0 false, Cell.mk 3 true, Cell.mk 5 true, Cell.mk 1 true, Cell.mk 5 true, Cell.mk 3 true, Cell.mk 1 true, Cell.mk 4 true, Cell.mk 0 false, Cell.mk 8 true, Cell.mk 9 true, Cell.mk 2 true, Cell.mk 6 true, Cell.mk 7 false, Cell.mk 7 true, Cell.mk 3 true, Cell.mk 2 false, Cell.mk 6 true, Cell.mk 4 true, Cell.mk 5 true, Cell.mk 1 true, Cell.mk 9 false, Cell.mk 6 true, Cell.mk 2 true, Cell.mk 4 true, Cell.mk 5 true, Cell.mk 1 true, Cell.mk 9 true, Cell.mk 7 true, Cell.mk 8 true, Cell.mk 3 true, Cell.mk 1 true, Cell.mk 5 true, Cell.mk 9 true, Cell.mk 7 true, Cell.mk 8 true, Cell.mk 3 true, Cell.mk 2 false, Cell.mk 6 true, Cell.mk 4 true] 9 3)
      [Entry.mk (0, 6) 7 6, Entry.mk (0, 6) 6 5, Entry.mk (0, 6) 5 4, Entry.mk (0, 6) 4 3, Entry.mk (0, 6) 3 2, Entry.mk (0, 6) 2 1, Entry.mk (0, 6) 1 0, Entry.mk (3, 6) 2 1, Entry.mk (3, 6) 1 0, Entry.mk (8, 6) 9 8, Entry.mk (8, 6) 8 7, Entry.mk (8, 6) 7 6, Entry.mk (8, 6) 6 5, Entry.mk (8, 6) 5 4, Entry.mk (8, 6) 4 3, Entry.mk (8, 6) 3 2, Entry.mk (8, 6) 2 1, Entry.mk (8, 6) 1 0, Entry.mk (6, 8) 2 1, Entry.mk (6, 8) 1 0])
    [(4, 5), (5, 4), (1, 4), (8, 3), (0, 2), (7, 1), (7, 0), (5, 0), (4, 0)]
    [Entry.mk (0, 6) 7 6, Entry.mk (3, 6) 2 1, Entry.mk (8, 6) 9 8, Entry.mk (6, 8) 2 1]

/-- The C3 solver state after 17 calls to `next()`. -/
def c3S17 : Solver :=
  Solver.mk
    (Game.mk (0, 0) [] false
      (Grid.mk [Cell.mk 4 true, Cell.mk 6 true, Cell.mk 7 true, Cell.mk 1 true, Cell.mk 0 false, Cell.mk 0 false, Cell.mk 8 true, Cell.mk 0 false, Cell.mk 5 true, Cell.mk 9 true, Cell.mk 1 true, Cell.mk 2 true, Cell.mk 8 true, Cell.mk 3 true, Cell.mk 5 true, Cell.mk 6 true, Cell.mk 0 false, Cell.mk 7 true, Cell.mk 0 false, Cell.mk 8 true, Cell.mk 5 true, Cell.mk 6 true, Cell.mk 4 true, Cell.mk 7 true, Cell.mk 1 true, Cell.mk 9 true, Cell.mk 2 true, Cell.mk 2 true, Cell.mk 9 true, Cell.mk 6 true, Cell.mk 3 true, Cell.mk 5 true, Cell.mk 1 true, Cell.mk 4 true, Cell.mk 7 true, Cell.mk 0 false, Cell.mk 7 true, Cell.mk 0 false, Cell.mk 8 true, Cell.mk 9 true, Cell.mk 2 true, Cell.mk 0 false, Cell.mk 3 true, Cell.mk 5 true, Cell.mk 1 true, Cell.mk 5 true, Cell.mk 3 true, Cell.mk 1 true, Cell.mk 4 true, Cell.mk 0 false, Cell.mk 8 true, Cell.mk 9 true, Cell.mk 2 true, Cell.mk 6 true, Cell.mk 8 false, Cell.mk 7 true, Cell.mk 3 true, Cell.mk 2 false, Cell.mk 6 true, Cell.mk 4 true, Cell.mk 5 true, Cell.mk 1 true, Cell.mk 9 false, Cell.mk 6 true, Cell.mk 2 true, Cell.mk 4 true, Cell.mk 5 true, Cell.mk 1 true, Cell.mk 9 true, Cell.mk 7 true, Cell.mk 8 true, Cell.mk 3 true, Cell.mk 1 true, Cell.mk 5 true, Cell.mk 9 true, Cell.mk 7 true, Cell.mk 8 true, Cell.mk 3 true, Cell.mk 2 false, Cell.mk 6 true, Cell.mk 4 true] 9 3)
      [Entry.mk (0, 6) 8 7, Entry.mk (0, 6) 7 6, Entry.mk (0, 6) 6 5, Entry.mk (0, 6) 5 4, Entry.mk (0, 6) 4 3, Entry.mk (0, 6) 3 2, Entry.mk (0, 6) 2 1, Entry.mk (0, 6) 1 0, Entry.mk (3, 6) 2 1, Entry.mk (3, 6) 1 0, Entry.mk (8, 6) 9 8, Entry.mk (8, 6) 8 7, Entry.mk (8, 6) 7 6, Entry.mk (8, 6) 6 5, Entry.mk (8, 6) 5 4, Entry.mk (8, 6) 4 3, Entry.mk (8, 6) 3 2, Entry.mk (8, 6) 2 1, Entry.mk (8, 6) 1 0, Entry.mk (6, 8) 2 1, Entry.mk (6, 8) 1 0])
    [(4, 5), (5, 4), (1, 4), (8, 3), (0, 2), (7, 1), (7, 0), (5, 0), (4, 0)]
    [Entry.mk (0, 6) 8 7, Entry.mk (3, 6) 2 1, Entry.mk (8, 6) 9 8, Entry.mk (6, 8) 2 1]

/-- The C3 solver state after 18 calls to `next()`. -/
def c3S18 : Solver :=
  Solver.mk
    (Game.mk (0, 0) [.Column 4, .Square 1 1, .Row 5] false
      (Grid.mk [Cell.mk 4 true, Cell.mk 6 true, Cell.mk 7 true, Cell.mk 1 true, Cell.mk 0 false, Cell.mk 0 false, Cell.mk 8 true, Cell.mk 0 false, Cell.mk 5 true, Cell.mk 9 true, Cell.mk 1 true, Cell.mk 2 true, Cell.mk 8 true, Cell.mk 3 true, Cell.mk 5 true, Cell.mk 6 true, Cell.mk 0 false, Cell.mk 7 true, Cell.mk 0 false, Cell.mk 8 true, Cell.mk 5 true, Cell.mk 6 true, Cell.mk 4 true, Cell.mk 7 true, Cell.mk 1 true, Cell.mk 9 true, Cell.mk 2 true, Cell.mk 2 true, Cell.mk 9 true, Cell.mk 6 true, Cell.mk 3 true, Cell.mk 5 true, Cell.mk 1 true, Cell.mk 4 true, Cell.mk 7 true, Cell.mk 0 false, Cell.mk 7 true, Cell.mk 0 false, Cell.mk 8 true, Cell.mk 9 true, Cell.mk 2 true, Cell.mk 0 false, Cell.mk 3 true, Cell.mk 5 true, Cell.mk 1 true, Cell.mk 5 true, Cell.mk 3 true, Cell.mk 1 true, Cell.mk 4 true, Cell.mk 2 false, Cell.mk 8 true, Cell.mk 9 true, Cell.mk 2 true, Cell.mk 6 true, Cell.mk 8 false, Cell.mk 7 true, Cell.mk 3 true, Cell.mk 2 false, Cell.mk 6 true, Cell.mk 4 true, Cell.mk 5 true, Cell.mk 1 true, Cell.mk 9 false, Cell.mk 6 true, Cell.mk 2 true, Cell.mk 4 true, Cell.mk 5 true, Cell.mk 1 true, Cell.mk 9 true, Cell.mk 7 true, Cell.mk 8 true, Cell.mk 3 true, Cell.mk 1 true, Cell.mk 5 true, Cell.mk 9 true, Cell.mk 7 true, Cell.mk 8 true, Cell.mk 3 true, Cell.mk 2 false, Cell.mk 6 true, Cell.mk 4 true] 9 3)
      [Entry.mk (4, 5) 2 1, Entry.mk (4, 5) 1 0, Entry.mk (0, 6) 8 7, Entry.mk (0, 6) 7 6, Entry.mk (0, 6) 6 5, Entry.mk (0, 6) 5 4, Entry.mk (0, 6) 4 3, Entry.mk (0, 6) 3 2, Entry.mk (0, 6) 2 1, Entry.mk (0, 6) 1 0, Entry.mk (3, 6) 2 1, Entry.mk (3, 6) 1 0, Entry.mk (8, 6) 9 8, Entry.mk (8, 6) 8 7, Entry.mk (8, 6) 7 6, Entry.mk (8, 6) 6 5, Entry.mk (8, 6) 5 4, Entry.mk (8, 6) 4 3, Entry.mk (8, 6) 3 2, Entry.mk (8, 6) 2 1, Entry.mk (8, 6) 1 0, Entry.mk (6, 8) 2 1, Entry.mk (6, 8) 1 0])
    [(5, 4), (1, 4), (8, 3), (0, 2), (7, 1), (7, 0), (5, 0), (4, 0)]
    [Entry.mk (4, 5) 2 1, Entry.mk (0, 6) 8 7, Entry.mk (3, 6) 2 1, Entry.mk (8, 6) 9 8, Entry.mk (6, 8) 2 1]

/-- The C3 solver state after 19 calls to `next()`. -/
def c3S19 : Solver :=
  Solver.mk
    (Game.mk (0, 0) [.Column 4, .Square 1 1, .Row 5] false
      (Grid.mk [Cell.mk 4 true, Cell.mk 6 true, Cell.mk 7 true, Cell.mk 1 true, Cell.mk 0 false, Cell.mk 0 false, Cell.mk 8 true, Cell.mk 0 false, Cell.mk 5 true, Cell.mk 9 true, Cell.mk 1 true, Cell.mk 2 true, Cell.mk 8 true, Cell.mk 3 true, Cell.mk 5 true, Cell.mk 6 true, Cell.mk 0 false, Cell.mk 7 true, Cell.mk 0 false, Cell.mk 8 true, Cell.mk 5 true, Cell.mk 6 true, Cell.mk 4 true, Cell.mk 7 true, Cell.mk 1 true, Cell.mk 9 true, Cell.mk 2 true, Cell.mk 2 true, Cell.mk 9 true, Cell.mk 6 true, Cell.mk 3 true, Cell.mk 5 true, Cell.mk 1 true, Cell.mk 4 true, Cell.mk 7 true, Cell.mk 0 false, Cell.mk 7 true, Cell.mk 0 false, Cell.mk 8 true, Cell.mk 9 true, Cell.mk 2 true, Cell.mk 0 false, Cell.mk 3 true, Cell.mk 5 true, Cell.mk 1 true, Cell.mk 5 true, Cell.mk 3 true, Cell.mk 1 true, Cell.mk 4 true, Cell.mk 3 false, Cell.mk 8 true, Cell.mk 9 true, Cell.mk 2 true, Cell.mk 6 true, Cell.mk 8 false, Cell.mk 7 true, Cell.mk 3 true, Cell.mk 2 false, Cell.mk 6 true, Cell.mk 4 true, Cell.mk 5 true, Cell.mk 1 true, Cell.mk 9 false, Cell.mk 6 true, Cell.mk 2 true, Cell.mk 4 true, Cell.mk 5 true, Cell.mk 1 true, Cell.mk 9 true, Cell.mk 7 true, Cell.mk 8 true, Cell.mk 3 true, Cell.mk 1 true, Cell.mk 5 true, Cell.mk 9 true, Cell.mk 7 true, Cell.mk 8 true, Cell.mk 3 true, Cell.mk 2 false, Cell.mk 6 true, Cell.mk 4 true] 9 3)
      [Entry.mk (4, 5) 3 2, Entry.mk (4, 5) 2 1, Entry.mk (4, 5) 1 0, Entry.mk (0, 6) 8 7, Entry.mk (0, 6) 7 6, Entry.mk (0, 6) 6 5, Entry.mk (0, 6) 5 4, Entry.mk (0, 6) 4 3, Entry.mk (0, 6) 3 2, Entry.mk (0, 6) 2 1, Entry.mk (0, 6) 1 0, Entry.mk (3, 6) 2 1, Entry.mk (3, 6) 1 0, Entry.mk (8, 6) 9 8, Entry.mk (8, 6) 8 7, Entry.mk (8, 6) 7 6, Entry.mk (8, 6) 6 5, Entry.mk (8, 6) 5 4, Entry.mk (8, 6) 4 3, Entry.mk (8, 6) 3 2, Entry.mk (8, 6) 2 1, Entry.mk (8, 6) 1 0, Entry.mk (6, 8) 2 1, Entry.mk (6, 8) 1 0])
    [(5, 4), (1, 4), (8, 3), (0, 2), (7, 1), (7, 0), (5, 0), (4, 0)]
    [Entry.mk (4, 5) 3 2, Entry.mk (0, 6) 8 7, Entry.mk (3, 6) 2 1, Entry.mk (8, 6) 9 8, Entry.mk (6, 8) 2 1]

/-- The C3 solver state after 20 calls to `next()`. -/
def c3S20 : Solver :=
  Solver.mk
    (Game.mk (0, 0) [.Column 4, .Square 1 1, .Row 5] false
      (Grid.mk [Cell.mk 4 true, Cell.mk 6 true, Cell.mk 7 true, Cell.mk 1 true, Cell.mk 0 false, Cell.mk 0 false, Cell.mk 8 true, Cell.mk 0 false, Cell.mk 5 true, Cell.mk 9 true, Cell.mk 1 true, Cell.mk 2 true, Cell.mk 8 true, Cell.mk 3 true, Cell.mk 5 true, Cell.mk 6 true, Cell.mk 0 false, Cell.mk 7 true, Cell.mk 0 false, Cell.mk 8 true, Cell.mk 5 true, Cell.mk 6 true, Cell.mk 4 true, Cell.mk 7 true, Cell.mk 1 true, Cell.mk 9 true, Cell.mk 2 true, Cell.mk 2 true, Cell.mk 9 true, Cell.mk 6 true, Cell.mk 3 true, Cell.mk 5 true, Cell.mk 1 true, Cell.mk 4 true, Cell.mk 7 true, Cell.mk 0 false, Cell.mk 7 true, Cell.mk 0 false, Cell.mk 8 true, Cell.mk 9 true, Cell.mk 2 true, Cell.mk 0 false, Cell.mk 3 true, Cell.mk 5 true, Cell.mk 1 true, Cell.mk 5 true, Cell.mk 3 true, Cell.mk 1 true, Cell.mk 4 true, Cell.mk 4 false, Cell.mk 8 true, Cell.mk 9 true, Cell.mk 2 true, Cell.mk 6 true, Cell.mk 8 false, Cell.mk 7 true, Cell.mk 3 true, Cell.mk 2 false, Cell.mk 6 true, Cell.mk 4 true, Cell.mk 5 true, Cell.mk 1 true, Cell.mk 9 false, Cell.mk 6 true, Cell.mk 2 true, Cell.mk 4 true, Cell.mk 5 true, Cell.mk 1 true, Cell.mk 9 true, Cell.mk 7 true, Cell.mk 8 true, Cell.mk 3 true, Cell.mk 1 true, Cell.mk 5 true, Cell.mk 9 true, Cell.mk 7 true, Cell.mk 8 true, Cell.mk 3 true, Cell.mk 2 false, Cell.mk 6 true, Cell.mk 4 true] 9 3)
      [Entry.mk (4, 5) 4 3, Entry.mk (4, 5) 3 2, Entry.mk (4, 5) 2 1, Entry.mk (4, 5) 1 0, Entry.mk (0, 6) 8 7, Entry.mk (0, 6) 7 6, Entry.mk (0, 6) 6 5, Entry.mk (0, 6) 5 4, Entry.mk (0, 6) 4 3, Entry.mk (0, 6) 3 2, Entry.mk (0, 6) 2 1, Entry.mk (0, 6) 1 0, Entry.mk (3, 6) 2 1, Entry.mk (3, 6) 1 0, Entry.mk (8, 6) 9 8, Entry.mk (8, 6) 8 7, Entry.mk (8, 6) 7 6, Entry.mk (8, 6) 6 5, Entry.mk (8, 6) 5 4, Entry.mk (8, 6) 4 3, Entry.mk (8, 6) 3 2, Entry.mk (8, 6) 2 1, Entry.mk (8, 6) 1 0, Entry.mk (6, 8) 2 1, Entry.mk (6, 8) 1 0])
    [(5, 4), (1, 4), (8, 3), (0, 2), (7, 1), (7, 0), (5, 0), (4, 0)]
    [Entry.mk (4, 5) 4 3, Entry.mk (0, 6) 8 7, Entry.mk (3, 6) 2 1, Entry.mk (8, 6) 9 8, Entry.mk (6, 8) 2 1]

/-- The C3 solver state after 21 calls to `next()`. -/
def c3S21 : Solver :=
  Solver.mk
    (Game.mk (0, 0) [.Column 4, .Square 1 1, .Row 5] false
      (Grid.mk [Cell.mk 4 true, Cell.mk 6 true, Cell.mk 7 true, Cell.mk 1 true, Cell.mk 0 false, Cell.mk 0 false, Cell.mk 8 true, Cell.mk 0 false, Cell.mk 5 true, Cell.mk 9 true, Cell.mk 1 true, Cell.mk 2 true, Cell.mk 8 true, Cell.mk 3 true, Cell.mk 5 true, Cell.mk 6 true, Cell.mk 0 false, Cell.mk 7 true, Cell.mk 0 false, Cell.mk 8 true, Cell.mk 5 true, Cell.mk 6 true, Cell.mk 4 true, Cell.mk 7 true, Cell.mk 1 true, Cell.mk 9 true, Cell.mk 2 true, Cell.mk 2 true, Cell.mk 9 true, Cell.mk 6 true, Cell.mk 3 true, Cell.mk 5 true, Cell.mk 1 true, Cell.mk 4 true, Cell.mk 7 true, Cell.mk 0 false, Cell.mk 7 true, Cell.mk 0 false, Cell.mk 8 true, Cell.mk 9 true, Cell.mk 2 true, Cell.mk 0 false, Cell.mk 3 true, Cell.mk 5 true, Cell.mk 1 true, Cell.mk 5 true, Cell.mk 3 true, Cell.mk 1 true, Cell.mk 4 true, Cell.mk 5 false, Cell.mk 8 true, Cell.mk 9 true, Cell.mk 2 true, Cell.mk 6 true, Cell.mk 8 false, Cell.mk 7 true, Cell.mk 3 true, Cell.mk 2 false, Cell.mk 6 true, Cell.mk 4 true, Cell.mk 5 true, Cell.mk 1 true, Cell.mk 9 false, Cell.mk 6 true, Cell.mk 2 true, Cell.mk 4 true, Cell.mk 5 true, Cell.mk 1 true, Cell.mk 9 true, Cell.mk 7 true, Cell.mk 8 true, Cell.mk 3 true, Cell.mk 1 true, Cell.mk 5 true, Cell.mk 9 true, Cell.mk 7 true, Cell.mk 8 true, Cell.mk 3 true, Cell.mk 2 false, Cell.mk 6 true, Cell.mk 4 true] 9 3)
      [Entry.mk (4, 5) 5 4, Entry.mk (4, 5) 4 3, Entry.mk (4, 5) 3 2, Entry.mk (4, 5) 2 1, Entry.mk (4, 5) 1 0, Entry.mk (0, 6) 8 7, Entry.mk (0, 6) 7 6, Entry.mk (0, 6) 6 5, Entry.mk (0, 6) 5 4, Entry.mk (0, 6) 4 3, Entry.mk (0, 6) 3 2, Entry.mk (0, 6) 2 1, Entry.mk (0, 6) 1 0, Entry.mk (3, 6) 2 1, Entry.mk (3, 6) 1 0, Entry.mk (8, 6) 9 8, Entry.mk (8, 6) 8 7, Entry.mk (8, 6) 7 6, Entry.mk (8, 6) 6 5, Entry.mk (8, 6) 5 4, Entry.mk (8, 6) 4 3, Entry.mk (8, 6) 3 2, Entry.mk (8, 6) 2 1, Entry.mk (8, 6) 1 0, Entry.mk (6, 8) 2 1, Entry.mk (6, 8) 1 0])
    [(5, 4), (1, 4), (8, 3), (0, 2), (7, 1), (7, 0), (5, 0), (4, 0)]
    [Entry.mk (4, 5) 5 4, Entry.mk (0, 6) 8 7, Entry.mk (3, 6) 2 1, Entry.mk (8, 6) 9 8, Entry.mk (6, 8) 2 1]

/-- The C3 solver state after 22 calls to `next()`. -/
def c3S22 : Solver :=
  Solver.mk
    (Game.mk (0, 0) [.Column 4, .Row 5] false
      (Grid.mk [Cell.mk 4 true, Cell.mk 6 true, Cell.mk 7 true, Cell.mk 1 true, Cell.mk 0 false, Cell.mk 0 false, Cell.mk 8 true, Cell.mk 0 false, Cell.mk 5 true, Cell.mk 9 true, Cell.mk 1 true, Cell.mk 2 true, Cell.mk 8 true, Cell.mk 3 true, Cell.mk 5 true, Cell.mk 6 true, Cell.mk 0 false, Cell.mk 7 true, Cell.mk 0 false, Cell.mk 8 true, Cell.mk 5 true, Cell.mk 6 true, Cell.mk 4 true, Cell.mk 7 true, Cell.mk 1 true, Cell.mk 9 true, Cell.mk 2 true, Cell.mk 2 true, Cell.mk 9 true, Cell.mk 6 true, Cell.mk 3 true, Cell.mk 5 true, Cell.mk 1 true, Cell.mk 4 true, Cell.mk 7 true, Cell.mk 0 false, Cell.mk 7 true, Cell.mk 0 false, Cell.mk 8 true, Cell.mk 9 true, Cell.mk 2 true, Cell.mk 0 false, Cell.mk 3 true, Cell.mk 5 true, Cell.mk 1 true, Cell.mk 5 true, Cell.mk 3 true, Cell.mk 1 true, Cell.mk 4 true, Cell.mk 6 false, Cell.mk 8 true, Cell.mk 9 true, Cell.mk 2 true, Cell.mk 6 true, Cell.mk 8 false, Cell.mk 7 true, Cell.mk 3 true, Cell.mk 2 false, Cell.mk 6 true, Cell.mk 4 true, Cell.mk 5 true, Cell.mk 1 true, Cell.mk 9 false, Cell.mk 6 true, Cell.mk 2 true, Cell.mk 4 true, Cell.mk 5 true, Cell.mk 1 true, Cell.mk 9 true, Cell.mk 7 true, Cell.mk 8 true, Cell.mk 3 true, Cell.mk 1 true, Cell.mk 5 true, Cell.mk 9 true, Cell.mk 7 true, Cell.mk 8 true, Cell.mk 3 true, Cell.mk 2 false, Cell.mk 6 true, Cell.mk 4 true] 9 3)
      [Entry.mk (4, 5) 6 5, Entry.mk (4, 5) 5 4, Entry.mk (4, 5) 4 3, Entry.mk (4, 5) 3 2, Entry.mk (4, 5) 2 1, Entry.mk (4, 5) 1 0, Entry.mk (0, 6) 8 7, Entry.mk (0, 6) 7 6, Entry.mk (0, 6) 6 5, Entry.mk (0, 6) 5 4, Entry.mk (0, 6) 4 3, Entry.mk (0, 6) 3 2, Entry.mk (0, 6) 2 1, Entry.mk (0, 6) 1 0, Entry.mk (3, 6) 2 1, Entry.mk (3, 6) 1 0, Entry.mk (8, 6) 9 8, Entry.mk (8, 6) 8 7, Entry.mk (8, 6) 7 6, Entry.mk (8, 6) 6 5, Entry.mk (8, 6) 5 4, Entry.mk (8, 6) 4 3, Entry.mk (8, 6) 3 2, Entry.mk (8, 6) 2 1, Entry.mk (8, 6) 1 0, Entry.mk (6, 8) 2 1, Entry.mk (6, 8) 1 0])
    [(5, 4), (1, 4), (8, 3), (0, 2), (7, 1), (7, 0), (5, 0), (4, 0)]
    [Entry.mk (4, 5) 6 5, Entry.mk (0, 6) 8 7, Entry.mk (3, 6) 2 1, Entry.mk (8, 6) 9 8, Entry.mk (6, 8) 2 1]

/-- The C3 solver state after 23 calls to `next()`. -/
def c3S23 : Solver :=
  Solver.mk
    (Game.mk (0, 0) [] false
      (Grid.mk [Cell.mk 4 true, Cell.mk 6 true, Cell.mk 7 true, Cell.mk 1 true, Cell.mk 0 false, Cell.mk 0 false, Cell.mk 8 true, Cell.mk 0 false, Cell.mk 5 true, Cell.mk 9 true, Cell.mk 1 true, Cell.mk 2 true, Cell.mk 8 true, Cell.mk 3 true, Cell.mk 5 true, Cell.mk 6 true, Cell.mk 0 false, Cell.mk 7 true, Cell.mk 0 false, Cell.mk 8 true, Cell.mk 5 true, Cell.mk 6 true, Cell.mk 4 true, Cell.mk 7 true, Cell.mk 1 true, Cell.mk 9 true, Cell.mk 2 true, Cell.mk 2 true, Cell.mk 9 true, Cell.mk 6 true, Cell.mk 3 true, Cell.mk 5 true, Cell.mk 1 true, Cell.mk 4 true, Cell.mk 7 true, Cell.mk 0 false, Cell.mk 7 true, Cell.mk 0 false, Cell.mk 8 true, Cell.mk 9 true, Cell.mk 2 true, Cell.mk 0 false, Cell.mk 3 true, Cell.mk 5 true, Cell.mk 1 true, Cell.mk 5 true, Cell.mk 3 true, Cell.mk 1 true, Cell.mk 4 true, Cell.mk 7 false, Cell.mk 8 true, Cell.mk 9 true, Cell.mk 2 true, Cell.mk 6 true, Cell.mk 8 false, Cell.mk 7 true, Cell.mk 3 true, Cell.mk 2 false, Cell.mk 6 true, Cell.mk 4 true, Cell.mk 5 true, Cell.mk 1 true, Cell.mk 9 false, Cell.mk 6 true, Cell.mk 2 true, Cell.mk 4 true, Cell.mk 5 true, Cell.mk 1 true, Cell.mk 9 true, Cell.mk 7 true, Cell.mk 8 true, Cell.mk 3 true, Cell.mk 1 true, Cell.mk 5 true, Cell.mk 9 true, Cell.mk 7 true, Cell.mk 8 true, Cell.mk 3 true, Cell.mk 2 false, Cell.mk 6 true, Cell.mk 4 true] 9 3)
      [Entry.mk (4, 5) 7 6, Entry.mk (4, 5) 6 5, Entry.mk (4, 5) 5 4, Entry.mk (4, 5) 4 3, Entry.mk (4, 5) 3 2, Entry.mk (4, 5) 2 1, Entry.mk (4, 5) 1 0, Entry.mk (0, 6) 8 7, Entry.mk (0, 6) 7 6, Entry.mk (0, 6) 6 5, Entry.mk (0, 6) 5 4, Entry.mk (0, 6) 4 3, Entry.mk (0, 6) 3 2, Entry.mk (0, 6) 2 1, Entry.mk (0, 6) 1 0, Entry.mk (3, 6) 2 1, Entry.mk (3, 6) 1 0, Entry.mk (8, 6) 9 8, Entry.mk (8, 6) 8 7, Entry.mk (8, 6) 7 6, Entry.mk (8, 6) 6 5, Entry.mk (8, 6) 5 4, Entry.mk (8, 6) 4 3, Entry.mk (8, 6) 3 2, Entry.mk (8, 6) 2 1, Entry.mk (8, 6) 1 0, Entry.mk (6, 8) 2 1, Entry.mk (6, 8) 1 0])
    [(5, 4), (1, 4), (8, 3), (0, 2), (7, 1), (7, 0), (5, 0), (4, 0)]
    [Entry.mk (4, 5) 7 6, Entry.mk (0, 6) 8 7, Entry.mk (3, 6) 2 1, Entry.mk (8, 6) 9 8, Entry.mk (6, 8) 2 1]

/-- The C3 solver state after 24 calls to `next()`. -/
def c3S24 : Solver :=
  Solver.mk
    (Game.mk (0, 0) [.Row 4, .Square 1 1] false
      (Grid.mk [Cell.mk 4 true, Cell.mk 6 true, Cell.mk 7 true, Cell.mk 1 true, Cell.mk 0 false, Cell.mk 0 false, Cell.mk 8 true, Cell.mk 0 false, Cell.mk 5 true, Cell.mk 9 true, Cell.mk 1 true, Cell.mk 2 true, Cell.mk 8 true, Cell.mk 3 true, Cell.mk 5 true, Cell.mk 6 true, Cell.mk 0 false, Cell.mk 7 true, Cell.mk 0 false, Cell.mk 8 true, Cell.mk 5 true, Cell.mk 6 true, Cell.mk 4 true, Cell.mk 7 true, Cell.mk 1 true, Cell.mk 9 true, Cell.mk 2 true, Cell.mk 2 true, Cell.mk 9 true, Cell.mk 6 true, Cell.mk 3 true, Cell.mk 5 true, Cell.mk 1 true, Cell.mk 4 true, Cell.mk 7 true, Cell.mk 0 false, Cell.mk 7 true, Cell.mk 0 false, Cell.mk 8 true, Cell.mk 9 true, Cell.mk 2 true, Cell.mk 2 false, Cell.mk 3 true, Cell.mk 5 true, Cell.mk 1 true, Cell.mk 5 true, Cell.mk 3 true, Cell.mk 1 true, Cell.mk 4 true, Cell.mk 7 false, Cell.mk 8 true, Cell.mk 9 true, Cell.mk 2 true, Cell.mk 6 true, Cell.mk 8 false, Cell.mk 7 true, Cell.mk 3 true, Cell.mk 2 false, Cell.mk 6 true, Cell.mk 4 true, Cell.mk 5 true, Cell.mk 1 true, Cell.mk 9 false, Cell.mk 6 true, Cell.mk 2 true, Cell.mk 4 true, Cell.mk 5 true, Cell.mk 1 true, Cell.mk 9 true, Cell.mk 7 true, Cell.mk 8 true, Cell.mk 3 true, Cell.mk 1 true, Cell.mk 5 true, Cell.mk 9 true, Cell.mk 7 true, Cell.mk 8 true, Cell.mk 3 true, Cell.mk 2 false, Cell.mk 6 true, Cell.mk 4 true] 9 3)
      [Entry.mk (5, 4) 2 1, Entry.mk (5, 4) 1 0, Entry.mk (4, 5) 7 6, Entry.mk (4, 5) 6 5, Entry.mk (4, 5) 5 4, Entry.mk (4, 5) 4 3, Entry.mk (4, 5) 3 2, Entry.mk (4, 5) 2 1, Entry.mk (4, 5) 1 0, Entry.mk (0, 6) 8 7, Entry.mk (0, 6) 7 6, Entry.mk (0, 6) 6 5, Entry.mk (0, 6) 5 4, Entry.mk (0, 6) 4 3, Entry.mk (0, 6) 3 2, Entry.mk (0, 6) 2 1, Entry.mk (0, 6) 1 0, Entry.mk (3, 6) 2 1, Entry.mk (3, 6) 1 0, Entry.mk (8, 6) 9 8, Entry.mk (8, 6) 8 7, Entry.mk (8, 6) 7 6, Entry.mk (8, 6) 6 5, Entry.mk (8, 6) 5 4, Entry.mk (8, 6) 4 3, Entry.mk (8, 6) 3 2, Entry.mk (8, 6) 2 1, Entry.mk (8, 6) 1 0, Entry.mk (6, 8) 2 1, Entry.mk (6, 8) 1 0])
    [(1, 4), (8, 3), (0, 2), (7, 1), (7, 0), (5, 0), (4, 0)]
    [Entry.mk (5, 4) 2 1, Entry.mk (4, 5) 7 6, Entry.mk (0, 6) 8 7, Entry.mk (3, 6) 2 1, Entry.mk (8, 6) 9 8, Entry.mk (6, 8) 2 1]

/-- The C3 solver state after 25 calls to `next()`. -/
def c3S25 : Solver :=
  Solver.mk
    (Game.mk (0, 0) [.Row 4, .Square 1 1, .Column 5] false
      (Grid.mk [Cell.mk 4 true, Cell.mk 6 true, Cell.mk 7 true, Cell.mk 1 true, Cell.mk 0 false, Cell.mk 0 false, Cell.mk 8 true, Cell.mk 0 false, Cell.mk 5 true, Cell.mk 9 true, Cell.mk 1 true, Cell.mk 2 true, Cell.mk 8 true, Cell.mk 3 true, Cell.mk 5 true, Cell.mk 6 true, Cell.mk 0 false, Cell.mk 7 true, Cell.mk 0 false, Cell.mk 8 true, Cell.mk 5 true, Cell.mk 6 true, Cell.mk 4 true, Cell.mk 7 true, Cell.mk 1 true, Cell.mk 9 true, Cell.mk 2 true, Cell.mk 2 true, Cell.mk 9 true, Cell.mk 6 true, Cell.mk 3 true, Cell.mk 5 true, Cell.mk 1 true, Cell.mk 4 true, Cell.mk 7 true, Cell.mk 0 false, Cell.mk 7 true, Cell.mk 0 false, Cell.mk 8 true, Cell.mk 9 true, Cell.mk 2 true, Cell.mk 3 false, Cell.mk 3 true, Cell.mk 5 true, Cell.mk 1 true, Cell.mk 5 true, Cell.mk 3 true, Cell.mk 1 true, Cell.mk 4 true, Cell.mk 7 false, Cell.mk 8 true, Cell.mk 9 true, Cell.mk 2 true, Cell.mk 6 true, Cell.mk 8 false, Cell.mk 7 true, Cell.mk 3 true, Cell.mk 2 false, Cell.mk 6 true, Cell.mk 4 true, Cell.mk 5 true, Cell.mk 1 true, Cell.mk 9 false, Cell.mk 6 true, Cell.mk 2 true, Cell.mk 4 true, Cell.mk 5 true, Cell.mk 1 true, Cell.mk 9 true, Cell.mk 7 true, Cell.mk 8 true, Cell.mk 3 true, Cell.mk 1 true, Cell.mk 5 true, Cell.mk 9 true, Cell.mk 7 true, Cell.mk 8 true, Cell.mk 3 true, Cell.mk 2 false, Cell.mk 6 true, Cell.mk 4 true] 9 3)
      [Entry.mk (5, 4) 3 2, Entry.mk (5, 4) 2 1, Entry.mk (5, 4) 1 0, Entry.mk (4, 5) 7 6, Entry.mk (4, 5) 6 5, Entry.mk (4, 5) 5 4, Entry.mk (4, 5) 4 3, Entry.mk (4, 5) 3 2, Entry.mk (4, 5) 2 1, Entry.mk (4, 5) 1 0, Entry.mk (0, 6) 8 7, Entry.mk (0, 6) 7 6, Entry.mk (0, 6) 6 5, Entry.mk (0, 6) 5 4, Entry.mk (0, 6) 4 3, Entry.mk (0, 6) 3 2, Entry.mk (0, 6) 2 1, Entry.mk (0, 6) 1 0, Entry.mk (3, 6) 2 1, Entry.mk (3, 6) 1 0, Entry.mk (8, 6) 9 8, Entry.mk (8, 6) 8 7, Entry.mk (8, 6) 7 6, Entry.mk (8, 6) 6 5, Entry.mk (8, 6) 5 4, Entry.mk (8, 6) 4 3, Entry.mk (8, 6) 3 2, Entry.mk (8, 6) 2 1, Entry.mk (8, 6) 1 0, Entry.mk (6, 8) 2 1, Entry.mk (6, 8) 1 0])
    [(1, 4), (8, 3), (0, 2), (7, 1), (7, 0), (5, 0), (4, 0)]
    [Entry.mk (5, 4) 3 2, Entry.mk (4, 5) 7 6, Entry.mk (0, 6) 8 7, Entry.mk (3, 6) 2 1, Entry.mk (8, 6) 9 8, Entry.mk (6, 8) 2 1]

/-- The C3 solver state after 26 calls to `next()`. -/
def c3S26 : Solver :=
  Solver.mk
    (Game.mk (0, 0) [.Square 1 1, .Column 5] false
      (Grid.mk [Cell.mk 4 true, Cell.mk 6 true, Cell.mk 7 true, Cell.mk 1 true, Cell.mk 0 false, Cell.mk 0 false, Cell.mk 8 true, Cell.mk 0 false, Cell.mk 5 true, Cell.mk 9 true, Cell.mk 1 true, Cell.mk 2 true, Cell.mk 8 true, Cell.mk 3 true, Cell.mk 5 true, Cell.mk 6 true, Cell.mk 0 false, Cell.mk 7 true, Cell.mk 0 false, Cell.mk 8 true, Cell.mk 5 true, Cell.mk 6 true, Cell.mk 4 true, Cell.mk 7 true, Cell.mk 1 true, Cell.mk 9 true, Cell.mk 2 true, Cell.mk 2 true, Cell.mk 9 true, Cell.mk 6 true, Cell.mk 3 true, Cell.mk 5 true, Cell.mk 1 true, Cell.mk 4 true, Cell.mk 7 true, Cell.mk 0 false, Cell.mk 7 true, Cell.mk 0 false, Cell.mk 8 true, Cell.mk 9 true, Cell.mk 2 true, Cell.mk 4 false, Cell.mk 3 true, Cell.mk 5 true, Cell.mk 1 true, Cell.mk 5 true, Cell.mk 3 true, Cell.mk 1 true, Cell.mk 4 true, Cell.mk 7 false, Cell.mk 8 true, Cell.mk 9 true, Cell.mk 2 true, Cell.mk 6 true, Cell.mk 8 false, Cell.mk 7 true, Cell.mk 3 true, Cell.mk 2 false, Cell.mk 6 true, Cell.mk 4 true, Cell.mk 5 true, Cell.mk 1 true, Cell.mk 9 false, Cell.mk 6 true, Cell.mk 2 true, Cell.mk 4 true, Cell.mk 5 true, Cell.mk 1 true, Cell.mk 9 true, Cell.mk 7 true, Cell.mk 8 true, Cell.mk 3 true, Cell.mk 1 true, Cell.mk 5 true, Cell.mk 9 true, Cell.mk 7 true, Cell.mk 8 true, Cell.mk 3 true, Cell.mk 2 false, Cell.mk 6 true, Cell.mk 4 true] 9 3)
      [Entry.mk (5, 4) 4 3, Entry.mk (5, 4) 3 2, Entry.mk (5, 4) 2 1, Entry.mk (5, 4) 1 0, Entry.mk (4, 5) 7 6, Entry.mk (4, 5) 6 5, Entry.mk (4, 5) 5 4, Entry.mk (4, 5) 4 3, Entry.mk (4, 5) 3 2, Entry.mk (4, 5) 2 1, Entry.mk (4, 5) 1 0, Entry.mk (0, 6) 8 7, Entry.mk (0, 6) 7 6, Entry.mk (0, 6) 6 5, Entry.mk (0, 6) 5 4, Entry.mk (0, 6) 4 3, Entry.mk (0, 6) 3 2, Entry.mk (0, 6) 2 1, Entry.mk (0, 6) 1 0, Entry.mk (3, 6) 2 1, Entry.mk (3, 6) 1 0, Entry.mk (8, 6) 9 8, Entry.mk (8, 6) 8 7, Entry.mk (8, 6) 7 6, Entry.mk (8, 6) 6 5, Entry.mk (8, 6) 5 4, Entry.mk (8, 6) 4 3, Entry.mk (8, 6) 3 2, Entry.mk (8, 6) 2 1, Entry.mk (8, 6) 1 0, Entry.mk (6, 8) 2 1, Entry.mk (6, 8) 1 0])
    [(1, 4), (8, 3), (0, 2), (7, 1), (7, 0), (5, 0), (4, 0)]
    [Entry.mk (5, 4) 4 3, Entry.mk (4, 5) 7 6, Entry.mk (0, 6) 8 7, Entry.mk (3, 6) 2 1, Entry.mk (8, 6) 9 8, Entry.mk (6, 8) 2 1]

/-- The C3 solver state after 27 calls to `next()`. -/
def c3S27 : Solver :=
  Solver.mk
    (Game.mk (0, 0) [.Row 4, .Square 1 1, .Column 5] false
      (Grid.mk [Cell.mk 4 true, Cell.mk 6 true, Cell.mk 7 true, Cell.mk 1 true, Cell.mk 0 false, Cell.mk 0 false, Cell.mk 8 true, Cell.mk 0 false, Cell.mk 5 true, Cell.mk 9 true, Cell.mk 1 true, Cell.mk 2 true, Cell.mk 8 true, Cell.mk 3 true, Cell.mk 5 true, Cell.mk 6 true, Cell.mk 0 false, Cell.mk 7 true, Cell.mk 0 false, Cell.mk 8 true, Cell.mk 5 true, Cell.mk 6 true, Cell.mk 4 true, Cell.mk 7 true, Cell.mk 1 true, Cell.mk 9 true, Cell.mk 2 true, Cell.mk 2 true, Cell.mk 9 true, Cell.mk 6 true, Cell.mk 3 true, Cell.mk 5 true, Cell.mk 1 true, Cell.mk 4 true, Cell.mk 7 true, Cell.mk 0 false, Cell.mk 7 true, Cell.mk 0 false, Cell.mk 8 true, Cell.mk 9 true, Cell.mk 2 true, Cell.mk 5 false, Cell.mk 3 true, Cell.mk 5 true, Cell.mk 1 true, Cell.mk 5 true, Cell.mk 3 true, Cell.mk 1 true, Cell.mk 4 true, Cell.mk 7 false, Cell.mk 8 true, Cell.mk 9 true, Cell.mk 2 true, Cell.mk 6 true, Cell.mk 8 false, Cell.mk 7 true, Cell.mk 3 true, Cell.mk 2 false, Cell.mk 6 true, Cell.mk 4 true, Cell.mk 5 true, Cell.mk 1 true, Cell.mk 9 false, Cell.mk 6 true, Cell.mk 2 true, Cell.mk 4 true, Cell.mk 5 true, Cell.mk 1 true, Cell.mk 9 true, Cell.mk 7 true, Cell.mk 8 true, Cell.mk 3 true, Cell.mk 1 true, Cell.mk 5 true, Cell.mk 9 true, Cell.mk 7 true, Cell.mk 8 true, Cell.mk 3 true, Cell.mk 2 false, Cell.mk 6 true, Cell.mk 4 true] 9 3)
      [Entry.mk (5, 4) 5 4, Entry.mk (5, 4) 4 3, Entry.mk (5, 4) 3 2, Entry.mk (5, 4) 2 1, Entry.mk (5, 4) 1 0, Entry.mk (4, 5) 7 6, Entry.mk (4, 5) 6 5, Entry.mk (4, 5) 5 4, Entry.mk (4, 5) 4 3, Entry.mk (4, 5) 3 2, Entry.mk (4, 5) 2 1, Entry.mk (4, 5) 1 0, Entry.mk (0, 6) 8 7, Entry.mk (0, 6) 7 6, Entry.mk (0, 6) 6 5, Entry.mk (0, 6) 5 4, Entry.mk (0, 6) 4 3, Entry.mk (0, 6) 3 2, Entry.mk (0, 6) 2 1, Entry.mk (0, 6) 1 0, Entry.mk (3, 6) 2 1, Entry.mk (3, 6) 1 0, Entry.mk (8, 6) 9 8, Entry.mk (8, 6) 8 7, Entry.mk (8, 6) 7 6, Entry.mk (8, 6) 6 5, Entry.mk (8, 6) 5 4, Entry.mk (8, 6) 4 3, Entry.mk (8, 6) 3 2, Entry.mk (8, 6) 2 1, Entry.mk (8, 6) 1 0, Entry.mk (6, 8) 2 1, Entry.mk (6, 8) 1 0])
    [(1, 4), (8, 3), (0, 2), (7, 1), (7, 0), (5, 0), (4, 0)]
    [Entry.mk (5, 4) 5 4, Entry.mk (4, 5) 7 6, Entry.mk (0, 6) 8 7, Entry.mk (3, 6) 2 1, Entry.mk (8, 6) 9 8, Entry.mk (6, 8) 2 1]

/-- The C3 solver state after 28 calls to `next()`. -/
def c3S28 : Solver :=
  Solver.mk
    (Game.mk (0, 0) [] false
      (Grid.mk [Cell.mk 4 true, Cell.mk 6 true, Cell.mk 7 true, Cell.mk 1 true, Cell.mk 0 false, Cell.mk 0 false, Cell.mk 8 true, Cell.mk 0 false, Cell.mk 5 true, Cell.mk 9 true, Cell.mk 1 true, Cell.mk 2 true, Cell.mk 8 true, Cell.mk 3 true, Cell.mk 5 true, Cell.mk 6 true, Cell.mk 0 false, Cell.mk 7 true, Cell.mk 0 false, Cell.mk 8 true, Cell.mk 5 true, Cell.mk 6 true, Cell.mk 4 true, Cell.mk 7 true, Cell.mk 1 true, Cell.mk 9 true, Cell.mk 2 true, Cell.mk 2 true, Cell.mk 9 true, Cell.mk 6 true, Cell.mk 3 true, Cell.mk 5 true, Cell.mk 1 true, Cell.mk 4 true, Cell.mk 7 true, Cell.mk 0 false, Cell.mk 7 true, Cell.mk 0 false, Cell.mk 8 true, Cell.mk 9 true, Cell.mk 2 true, Cell.mk 6 false, Cell.mk 3 true, Cell.mk 5 true, Cell.mk 1 true, Cell.mk 5 true, Cell.mk 3 true, Cell.mk 1 true, Cell.mk 4 true, Cell.mk 7 false, Cell.mk 8 true, Cell.mk 9 true, Cell.mk 2 true, Cell.mk 6 true, Cell.mk 8 false, Cell.mk 7 true, Cell.mk 3 true, Cell.mk 2 false, Cell.mk 6 true, Cell.mk 4 true, Cell.mk 5 true, Cell.mk 1 true, Cell.mk 9 false, Cell.mk 6 true, Cell.mk 2 true, Cell.mk 4 true, Cell.mk 5 true, Cell.mk 1 true, Cell.mk 9 true, Cell.mk 7 true, Cell.mk 8 true, Cell.mk 3 true, Cell.mk 1 true, Cell.mk 5 true, Cell.mk 9 true, Cell.mk 7 true, Cell.mk 8 true, Cell.mk 3 true, Cell.mk 2 false, Cell.mk 6 true, Cell.mk 4 true] 9 3)
      [Entry.mk (5, 4) 6 5, Entry.mk (5, 4) 5 4, Entry.mk (5, 4) 4 3, Entry.mk (5, 4) 3 2, Entry.mk (5, 4) 2 1, Entry.mk (5, 4) 1 0, Entry.mk (4, 5) 7 6, Entry.mk (4, 5) 6 5, Entry.mk (4, 5) 5 4, Entry.mk (4, 5) 4 3, Entry.mk (4, 5) 3 2, Entry.mk (4, 5) 2 1, Entry.mk (4, 5) 1 0, Entry.mk (0, 6) 8 7, Entry.mk (0, 6) 7 6, Entry.mk (0, 6) 6 5, Entry.mk (0, 6) 5 4, Entry.mk (0, 6) 4 3, Entry.mk (0, 6) 3 2, Entry.mk (0, 6) 2 1, Entry.mk (0, 6) 1 0, Entry.mk (3, 6) 2 1, Entry.mk (3, 6) 1 0, Entry.mk (8, 6) 9 8, Entry.mk (8, 6) 8 7, Entry.mk (8, 6) 7 6, Entry.mk (8, 6) 6 5, Entry.mk (8, 6) 5 4, Entry.mk (8, 6) 4 3, Entry.mk (8, 6) 3 2, Entry.mk (8, 6) 2 1, Entry.mk (8, 6) 1 0, Entry.mk (6, 8) 2 1, Entry.mk (6, 8) 1 0])
    [(1, 4), (8, 3), (0, 2), (7, 1), (7, 0), (5, 0), (4, 0)]
    [Entry.mk (5, 4) 6 5, Entry.mk (4, 5) 7 6, Entry.mk (0, 6) 8 7, Entry.mk (3, 6) 2 1, Entry.mk (8, 6) 9 8, Entry.mk (6, 8) 2 1]

/-- The C3 solver state after 29 calls to `next()`. -/
def c3S29 : Solver :=
  Solver.mk
    (Game.mk (0, 0) [.Column 1, .Square 0 1, .Row 4] false
      (Grid.mk [Cell.mk 4 true, Cell.mk 6 true, Cell.mk 7 true, Cell.mk 1 true, Cell.mk 0 false, Cell.mk 0 false, Cell.mk 8 true, Cell.mk 0 false, Cell.mk 5 true, Cell.mk 9 true, Cell.mk 1 true, Cell.mk 2 true, Cell.mk 8 true, Cell.mk 3 true, Cell.mk 5 true, Cell.mk 6 true, Cell.mk 0 false, Cell.mk 7 true, Cell.mk 0 false, Cell.mk 8 true, Cell.mk 5 true, Cell.mk 6 true, Cell.mk 4 true, Cell.mk 7 true, Cell.mk 1 true, Cell.mk 9 true, Cell.mk 2 true, Cell.mk 2 true, Cell.mk 9 true, Cell.mk 6 true, Cell.mk 3 true, Cell.mk 5 true, Cell.mk 1 true, Cell.mk 4 true, Cell.mk 7 true, Cell.mk 0 false, Cell.mk 7 true, Cell.mk 2 false, Cell.mk 8 true, Cell.mk 9 true, Cell.mk 2 true, Cell.mk 6 false, Cell.mk 3 true, Cell.mk 5 true, Cell.mk 1 true, Cell.mk 5 true, Cell.mk 3 true, Cell.mk 1 true, Cell.mk 4 true, Cell.mk 7 false, Cell.mk 8 true, Cell.mk 9 true, Cell.mk 2 true, Cell.mk 6 true, Cell.mk 8 false, Cell.mk 7 true, Cell.mk 3 true, Cell.mk 2 false, Cell.mk 6 true, Cell.mk 4 true, Cell.mk 5 true, Cell.mk 1 true, Cell.mk 9 false, Cell.mk 6 true, Cell.mk 2 true, Cell.mk 4 true, Cell.mk 5 true, Cell.mk 1 true, Cell.mk 9 true, Cell.mk 7 true, Cell.mk 8 true, Cell.mk 3 true, Cell.mk 1 true, Cell.mk 5 true, Cell.mk 9 true, Cell.mk 7 true, Cell.mk 8 true, Cell.mk 3 true, Cell.mk 2 false, Cell.mk 6 true, Cell.mk 4 true] 9 3)
      [Entry.mk (1, 4) 2 1, Entry.mk (1, 4) 1 0, Entry.mk (5, 4) 6 5, Entry.mk (5, 4) 5 4, Entry.mk (5, 4) 4 3, Entry.mk (5, 4) 3 2, Entry.mk (5, 4) 2 1, Entry.mk (5, 4) 1 0, Entry.mk (4, 5) 7 6, Entry.mk (4, 5) 6 5, Entry.mk (4, 5) 5 4, Entry.mk (4, 5) 4 3, Entry.mk (4, 5) 3 2, Entry.mk (4, 5) 2 1, Entry.mk (4, 5) 1 0, Entry.mk (0, 6) 8 7, Entry.mk (0, 6) 7 6, Entry.mk (0, 6) 6 5, Entry.mk (0, 6) 5 4, Entry.mk (0, 6) 4 3, Entry.mk (0, 6) 3 2, Entry.mk (0, 6) 2 1, Entry.mk (0, 6) 1 0, Entry.mk (3, 6) 2 1, Entry.mk (3, 6) 1 0, Entry.mk (8, 6) 9 8, Entry.mk (8, 6) 8 7, Entry.mk (8, 6) 7 6, Entry.mk (8, 6) 6 5, Entry.mk (8, 6) 5 4, Entry.mk (8, 6) 4 3, Entry.mk (8, 6) 3 2, Entry.mk (8, 6) 2 1, Entry.mk (8, 6) 1 0, Entry.mk (6, 8) 2 1, Entry.mk (6, 8) 1 0])
    [(8, 3), (0, 2), (7, 1), (7, 0), (5, 0), (4, 0)]
    [Entry.mk (1, 4) 2 1, Entry.mk (5, 4) 6 5, Entry.mk (4, 5) 7 6, Entry.mk (0, 6) 8 7, Entry.mk (3, 6) 2 1, Entry.mk (8, 6) 9 8, Entry.mk (6, 8) 2 1]

/-- The C3 solver state after 30 calls to `next()`. -/
def c3S30 : Solver :=
  Solver.mk
    (Game.mk (0, 0) [.Column 1, .Square 0 1, .Row 4] false
      (Grid.mk [Cell.mk 4 true, Cell.mk 6 true, Cell.mk 7 true, Cell.mk 1 true, Cell.mk 0 false, Cell.mk 0 false, Cell.mk 8 true, Cell.mk 0 false, Cell.mk 5 true, Cell.mk 9 true, Cell.mk 1 true, Cell.mk 2 true, Cell.mk 8 true, Cell.mk 3 true, Cell.mk 5 true, Cell.mk 6 true, Cell.mk 0 false, Cell.mk 7 true, Cell.mk 0 false, Cell.mk 8 true, Cell.mk 5 true, Cell.mk 6 true, Cell.mk 4 true, Cell.mk 7 true, Cell.mk 1 true, Cell.mk 9 true, Cell.mk 2 true, Cell.mk 2 true, Cell.mk 9 true, Cell.mk 6 true, Cell.mk 3 true, Cell.mk 5 true, Cell.mk 1 true, Cell.mk 4 true, Cell.mk 7 true, Cell.mk 0 false, Cell.mk 7 true, Cell.mk 3 false, Cell.mk 8 true, Cell.mk 9 true, Cell.mk 2 true, Cell.mk 6 false, Cell.mk 3 true, Cell.mk 5 true, Cell.mk 1 true, Cell.mk 5 true, Cell.mk 3 true, Cell.mk 1 true, Cell.mk 4 true, Cell.mk 7 false, Cell.mk 8 true, Cell.mk 9 true, Cell.mk 2 true, Cell.mk 6 true, Cell.mk 8 false, Cell.mk 7 true, Cell.mk 3 true, Cell.mk 2 false, Cell.mk 6 true, Cell.mk 4 true, Cell.mk 5 true, Cell.mk 1 true, Cell.mk 9 false, Cell.mk 6 true, Cell.mk 2 true, Cell.mk 4 true, Cell.mk 5 true, Cell.mk 1 true, Cell.mk 9 true, Cell.mk 7 true, Cell.mk 8 true, Cell.mk 3 true, Cell.mk 1 true, Cell.mk 5 true, Cell.mk 9 true, Cell.mk 7 true, Cell.mk 8 true, Cell.mk 3 true, Cell.mk 2 false, Cell.mk 6 true, Cell.mk 4 true] 9 3)
      [Entry.mk (1, 4) 3 2, Entry.mk (1, 4) 2 1, Entry.mk (1, 4) 1 0, Entry.mk (5, 4) 6 5, Entry.mk (5, 4) 5 4, Entry.mk (5, 4) 4 3, Entry.mk (5, 4) 3 2, Entry.mk (5, 4) 2 1, Entry.mk (5, 4) 1 0, Entry.mk (4, 5) 7 6, Entry.mk (4, 5) 6 5, Entry.mk (4, 5) 5 4, Entry.mk (4, 5) 4 3, Entry.mk (4, 5) 3 2, Entry.mk (4, 5) 2 1, Entry.mk (4, 5) 1 0, Entry.mk (0, 6) 8 7, Entry.mk (0, 6) 7 6, Entry.mk (0, 6) 6 5, Entry.mk (0, 6) 5 4, Entry.mk (0, 6) 4 3, Entry.mk (0, 6) 3 2, Entry.mk (0, 6) 2 1, Entry.mk (0, 6) 1 0, Entry.mk (3, 6) 2 1, Entry.mk (3, 6) 1 0, Entry.mk (8, 6) 9 8, Entry.mk (8, 6) 8 7, Entry.mk (8, 6) 7 6, Entry.mk (8, 6) 6 5, Entry.mk (8, 6) 5 4, Entry.mk (8, 6) 4 3, Entry.mk (8, 6) 3 2, Entry.mk (8, 6) 2 1, Entry.mk (8, 6) 1 0, Entry.mk (6, 8) 2 1, Entry.mk (6, 8) 1 0])
    [(8, 3), (0, 2), (7, 1), (7, 0), (5, 0), (4, 0)]
    [Entry.mk (1, 4) 3 2, Entry.mk (5, 4) 6 5, Entry.mk (4, 5) 7 6, Entry.mk (0, 6) 8 7, Entry.mk (3, 6) 2 1, Entry.mk (8, 6) 9 8, Entry.mk (6, 8) 2 1]

/-- The C3 solver state after 31 calls to `next()`. -/
def c3S31 : Solver :=
  Solver.mk
    (Game.mk (0, 0) [] false
      (Grid.mk [Cell.mk 4 true, Cell.mk 6 true, Cell.mk 7 true, Cell.mk 1 true, Cell.mk 0 false, Cell.mk 0 false, Cell.mk 8 true, Cell.mk 0 false, Cell.mk 5 true, Cell.mk 9 true, Cell.mk 1 true, Cell.mk 2 true, Cell.mk 8 true, Cell.mk 3 true, Cell.mk 5 true, Cell.mk 6 true, Cell.mk 0 false, Cell.mk 7 true, Cell.mk 0 false, Cell.mk 8 true, Cell.mk 5 true, Cell.mk 6 true, Cell.mk 4 true, Cell.mk 7 true, Cell.mk 1 true, Cell.mk 9 true, Cell.mk 2 true, Cell.mk 2 true, Cell.mk 9 true, Cell.mk 6 true, Cell.mk 3 true, Cell.mk 5 true, Cell.mk 1 true, Cell.mk 4 true, Cell.mk 7 true, Cell.mk 0 false, Cell.mk 7 true, Cell.mk 4 false, Cell.mk 8 true, Cell.mk 9 true, Cell.mk 2 true, Cell.mk 6 false, Cell.mk 3 true, Cell.mk 5 true, Cell.mk 1 true, Cell.mk 5 true, Cell.mk 3 true, Cell.mk 1 true, Cell.mk 4 true, Cell.mk 7 false, Cell.mk 8 true, Cell.mk 9 true, Cell.mk 2 true, Cell.mk 6 true, Cell.mk 8 false, Cell.mk 7 true, Cell.mk 3 true, Cell.mk 2 false, Cell.mk 6 true, Cell.mk 4 true, Cell.mk 5 true, Cell.mk 1 true, Cell.mk 9 false, Cell.mk 6 true, Cell.mk 2 true, Cell.mk 4 true, Cell.mk 5 true, Cell.mk 1 true, Cell.mk 9 true, Cell.mk 7 true, Cell.mk 8 true, Cell.mk 3 true, Cell.mk 1 true, Cell.mk 5 true, Cell.mk 9 true, Cell.mk 7 true, Cell.mk 8 true, Cell.mk 3 true, Cell.mk 2 false, Cell.mk 6 true, Cell.mk 4 true] 9 3)
      [Entry.mk (1, 4) 4 3, Entry.mk (1, 4) 3 2, Entry.mk (1, 4) 2 1, Entry.mk (1, 4) 1 0, Entry.mk (5, 4) 6 5, Entry.mk (5, 4) 5 4, Entry.mk (5, 4) 4 3, Entry.mk (5, 4) 3 2, Entry.mk (5, 4) 2 1, Entry.mk (5, 4) 1 0, Entry.mk (4, 5) 7 6, Entry.mk (4, 5) 6 5, Entry.mk (4, 5) 5 4, Entry.mk (4, 5) 4 3, Entry.mk (4, 5) 3 2, Entry.mk (4, 5) 2 1, Entry.mk (4, 5) 1 0, Entry.mk (0, 6) 8 7, Entry.mk (0, 6) 7 6, Entry.mk (0, 6) 6 5, Entry.mk (0, 6) 5 4, Entry.mk (0, 6) 4 3, Entry.mk (0, 6) 3 2, Entry.mk (0, 6) 2 1, Entry.mk (0, 6) 1 0, Entry.mk (3, 6) 2 1, Entry.mk (3, 6) 1 0, Entry.mk (8, 6) 9 8, Entry.mk (8, 6) 8 7, Entry.mk (8, 6) 7 6, Entry.mk (8, 6) 6 5, Entry.mk (8, 6) 5 4, Entry.mk (8, 6) 4 3, Entry.mk (8, 6) 3 2, Entry.mk (8, 6) 2 1, Entry.mk (8, 6) 1 0, Entry.mk (6, 8) 2 1, Entry.mk (6, 8) 1 0])
    [(8, 3), (0, 2), (7, 1), (7, 0), (5, 0), (4, 0)]
    [Entry.mk (1, 4) 4 3, Entry.mk (5, 4) 6 5, Entry.mk (4, 5) 7 6, Entry.mk (0, 6) 8 7, Entry.mk (3, 6) 2 1, Entry.mk (8, 6) 9 8, Entry.mk (6, 8) 2 1]

/-- The C3 solver state after 32 calls to `next()`. -/
def c3S32 : Solver :=
  Solver.mk
    (Game.mk (0, 0) [.Row 3, .Square 2 1, .Column 8] false
      (Grid.mk [Cell.mk 4 true, Cell.mk 6 true, Cell.mk 7 true, Cell.mk 1 true, Cell.mk 0 false, Cell.mk 0 false, Cell.mk 8 true, Cell.mk 0 false, Cell.mk 5 true, Cell.mk 9 true, Cell.mk 1 true, Cell.mk 2 true, Cell.mk 8 true, Cell.mk 3 true, Cell.mk 5 true, Cell.mk 6 true, Cell.mk 0 false, Cell.mk 7 true, Cell.mk 0 false, Cell.mk 8 true, Cell.mk 5 true, Cell.mk 6 true, Cell.mk 4 true, Cell.mk 7 true, Cell.mk 1 true, Cell.mk 9 true, Cell.mk 2 true, Cell.mk 2 true, Cell.mk 9 true, Cell.mk 6 true, Cell.mk 3 true, Cell.mk 5 true, Cell.mk 1 true, Cell.mk 4 true, Cell.mk 7 true, Cell.mk 2 false, Cell.mk 7 true, Cell.mk 4 false, Cell.mk 8 true, Cell.mk 9 true, Cell.mk 2 true, Cell.mk 6 false, Cell.mk 3 true, Cell.mk 5 true, Cell.mk 1 true, Cell.mk 5 true, Cell.mk 3 true, Cell.mk 1 true, Cell.mk 4 true, Cell.mk 7 false, Cell.mk 8 true, Cell.mk 9 true, Cell.mk 2 true, Cell.mk 6 true, Cell.mk 8 false, Cell.mk 7 true, Cell.mk 3 true, Cell.mk 2 false, Cell.mk 6 true, Cell.mk 4 true, Cell.mk 5 true, Cell.mk 1 true, Cell.mk 9 false, Cell.mk 6 true, Cell.mk 2 true, Cell.mk 4 true, Cell.mk 5 true, Cell.mk 1 true, Cell.mk 9 true, Cell.mk 7 true, Cell.mk 8 true, Cell.mk 3 true, Cell.mk 1 true, Cell.mk 5 true, Cell.mk 9 true, Cell.mk 7 true, Cell.mk 8 true, Cell.mk 3 true, Cell.mk 2 false, Cell.mk 6 true, Cell.mk 4 true] 9 3)
      [Entry.mk (8, 3) 2 1, Entry.mk (8, 3) 1 0, Entry.mk (1, 4) 4 3, Entry.mk (1, 4) 3 2, Entry.mk (1, 4) 2 1, Entry.mk (1, 4) 1 0, Entry.mk (5, 4) 6 5, Entry.mk (5, 4) 5 4, Entry.mk (5, 4) 4 3, Entry.mk (5, 4) 3 2, Entry.mk (5, 4) 2 1, Entry.mk (5, 4) 1 0, Entry.mk (4, 5) 7 6, Entry.mk (4, 5) 6 5, Entry.mk (4, 5) 5 4, Entry.mk (4, 5) 4 3, Entry.mk (4, 5) 3 2, Entry.mk (4, 5) 2 1, Entry.mk (4, 5) 1 0, Entry.mk (0, 6) 8 7, Entry.mk (0, 6) 7 6, Entry.mk (0, 6) 6 5, Entry.mk (0, 6) 5 4, Entry.mk (0, 6) 4 3, Entry.mk (0, 6) 3 2, Entry.mk (0, 6) 2 1, Entry.mk (0, 6) 1 0, Entry.mk (3, 6) 2 1, Entry.mk (3, 6) 1 0, Entry.mk (8, 6) 9 8, Entry.mk (8, 6) 8 7, Entry.mk (8, 6) 7 6, Entry.mk (8, 6) 6 5, Entry.mk (8, 6) 5 4, Entry.mk (8, 6) 4 3, Entry.mk (8, 6) 3 2, Entry.mk (8, 6) 2 1, Entry.mk (8, 6) 1 0, Entry.mk (6, 8) 2 1, Entry.mk (6, 8) 1 0])
    [(0, 2), (7, 1), (7, 0), (5, 0), (4, 0)]
    [Entry.mk (8, 3) 2 1, Entry.mk (1, 4) 4 3, Entry.mk (5, 4) 6 5, Entry.mk (4, 5) 7 6, Entry.mk (0, 6) 8 7, Entry.mk (3, 6) 2 1, Entry.mk (8, 6) 9 8, Entry.mk (6, 8) 2 1]

/-- The C3 solver state after 33 calls to `next()`. -/
def c3S33 : Solver :=
  Solver.mk
    (Game.mk (0, 0) [.Row 3, .Square 2 1, .Column 8] false
      (Grid.mk [Cell.mk 4 true, Cell.mk 6 true, Cell.mk 7 true, Cell.mk 1 true, Cell.mk 0 false, Cell.mk 0 false, Cell.mk 8 true, Cell.mk 0 false, Cell.mk 5 true, Cell.mk 9 true, Cell.mk 1 true, Cell.mk 2 true, Cell.mk 8 true, Cell.mk 3 true, Cell.mk 5 true, Cell.mk 6 true, Cell.mk 0 false, Cell.mk 7 true, Cell.mk 0 false, Cell.mk 8 true, Cell.mk 5 true, Cell.mk 6 true, Cell.mk 4 true, Cell.mk 7 true, Cell.mk 1 true, Cell.mk 9 true, Cell.mk 2 true, Cell.mk 2 true, Cell.mk 9 true, Cell.mk 6 true, Cell.mk 3 true, Cell.mk 5 true, Cell.mk 1 true, Cell.mk 4 true, Cell.mk 7 true, Cell.mk 3 false, Cell.mk 7 true, Cell.mk 4 false, Cell.mk 8 true, Cell.mk 9 true, Cell.mk 2 true, Cell.mk 6 false, Cell.mk 3 true, Cell.mk 5 true, Cell.mk 1 true, Cell.mk 5 true, Cell.mk 3 true, Cell.mk 1 true, Cell.mk 4 true, Cell.mk 7 false, Cell.mk 8 true, Cell.mk 9 true, Cell.mk 2 true, Cell.mk 6 true, Cell.mk 8 false, Cell.mk 7 true, Cell.mk 3 true, Cell.mk 2 false, Cell.mk 6 true, Cell.mk 4 true, Cell.mk 5 true, Cell.mk 1 true, Cell.mk 9 false, Cell.mk 6 true, Cell.mk 2 true, Cell.mk 4 true, Cell.mk 5 true, Cell.mk 1 true, Cell.mk 9 true, Cell.mk 7 true, Cell.mk 8 true, Cell.mk 3 true, Cell.mk 1 true, Cell.mk 5 true, Cell.mk 9 true, Cell.mk 7 true, Cell.mk 8 true, Cell.mk 3 true, Cell.mk 2 false, Cell.mk 6 true, Cell.mk 4 true] 9 3)
      [Entry.mk (8, 3) 3 2, Entry.mk (8, 3) 2 1, Entry.mk (8, 3) 1 0, Entry.mk (1, 4) 4 3, Entry.mk (1, 4) 3 2, Entry.mk (1, 4) 2 1, Entry.mk (1, 4) 1 0, Entry.mk (5, 4) 6 5, Entry.mk (5, 4) 5 4, Entry.mk (5, 4) 4 3, Entry.mk (5, 4) 3 2, Entry.mk (5, 4) 2 1, Entry.mk (5, 4) 1 0, Entry.mk (4, 5) 7 6, Entry.mk (4, 5) 6 5, Entry.mk (4, 5) 5 4, Entry.mk (4, 5) 4 3, Entry.mk (4, 5) 3 2, Entry.mk (4, 5) 2 1, Entry.mk (4, 5) 1 0, Entry.mk (0, 6) 8 7, Entry.mk (0, 6) 7 6, Entry.mk (0, 6) 6 5, Entry.mk (0, 6) 5 4, Entry.mk (0, 6) 4 3, Entry.mk (0, 6) 3 2, Entry.mk (0, 6) 2 1, Entry.mk (0, 6) 1 0, Entry.mk (3, 6) 2 1, Entry.mk (3, 6) 1 0, Entry.mk (8, 6) 9 8, Entry.mk (8, 6) 8 7, Entry.mk (8, 6) 7 6, Entry.mk (8, 6) 6 5, Entry.mk (8, 6) 5 4, Entry.mk (8, 6) 4 3, Entry.mk (8, 6) 3 2, Entry.mk (8, 6) 2 1, Entry.mk (8, 6) 1 0, Entry.mk (6, 8) 2 1, Entry.mk (6, 8) 1 0])
    [(0, 2), (7, 1), (7, 0), (5, 0), (4, 0)]
    [Entry.mk (8, 3) 3 2, Entry.mk (1, 4) 4 3, Entry.mk (5, 4) 6 5, Entry.mk (4, 5) 7 6, Entry.mk (0, 6) 8 7, Entry.mk (3, 6) 2 1, Entry.mk (8, 6) 9 8, Entry.mk (6, 8) 2 1]

/-- The C3 solver state after 34 calls to `next()`. -/
def c3S34 : Solver :=
  Solver.mk
    (Game.mk (0, 0) [.Row 3, .Square 2 1, .Column 8] false
      (Grid.mk [Cell.mk 4 true, Cell.mk 6 true, Cell.mk 7 true, Cell.mk 1 true, Cell.mk 0 false, Cell.mk 0 false, Cell.mk 8 true, Cell.mk 0 false, Cell.mk 5 true, Cell.mk 9 true, Cell.mk 1 true, Cell.mk 2 true, Cell.mk 8 true, Cell.mk 3 true, Cell.mk 5 true, Cell.mk 6 true, Cell.mk 0 false, Cell.mk 7 true, Cell.mk 0 false, Cell.mk 8 true, Cell.mk 5 true, Cell.mk 6 true, Cell.mk 4 true, Cell.mk 7 true, Cell.mk 1 true, Cell.mk 9 true, Cell.mk 2 true, Cell.mk 2 true, Cell.mk 9 true, Cell.mk 6 true, Cell.mk 3 true, Cell.mk 5 true, Cell.mk 1 true, Cell.mk 4 true, Cell.mk 7 true, Cell.mk 4 false, Cell.mk 7 true, Cell.mk 4 false, Cell.mk 8 true, Cell.mk 9 true, Cell.mk 2 true, Cell.mk 6 false, Cell.mk 3 true, Cell.mk 5 true, Cell.mk 1 true, Cell.mk 5 true, Cell.mk 3 true, Cell.mk 1 true, Cell.mk 4 true, Cell.mk 7 false, Cell.mk 8 true, Cell.mk 9 true, Cell.mk 2 true, Cell.mk 6 true, Cell.mk 8 false, Cell.mk 7 true, Cell.mk 3 true, Cell.mk 2 false, Cell.mk 6 true, Cell.mk 4 true, Cell.mk 5 true, Cell.mk 1 true, Cell.mk 9 false, Cell.mk 6 true, Cell.mk 2 true, Cell.mk 4 true, Cell.mk 5 true, Cell.mk 1 true, Cell.mk 9 true, Cell.mk 7 true, Cell.mk 8 true, Cell.mk 3 true, Cell.mk 1 true, Cell.mk 5 true, Cell.mk 9 true, Cell.mk 7 true, Cell.mk 8 true, Cell.mk 3 true, Cell.mk 2 false, Cell.mk 6 true, Cell.mk 4 true] 9 3)
      [Entry.mk (8, 3) 4 3, Entry.mk (8, 3) 3 2, Entry.mk (8, 3) 2 1, Entry.mk (8, 3) 1 0, Entry.mk (1, 4) 4 3, Entry.mk (1, 4) 3 2, Entry.mk (1, 4) 2 1, Entry.mk (1, 4) 1 0, Entry.mk (5, 4) 6 5, Entry.mk (5, 4) 5 4, Entry.mk (5, 4) 4 3, Entry.mk (5, 4) 3 2, Entry.mk (5, 4) 2 1, Entry.mk (5, 4) 1 0, Entry.mk (4, 5) 7 6, Entry.mk (4, 5) 6 5, Entry.mk (4, 5) 5 4, Entry.mk (4, 5) 4 3, Entry.mk (4, 5) 3 2, Entry.mk (4, 5) 2 1, Entry.mk (4, 5) 1 0, Entry.mk (0, 6) 8 7, Entry.mk (0, 6) 7 6, Entry.mk (0, 6) 6 5, Entry.mk (0, 6) 5 4, Entry.mk (0, 6) 4 3, Entry.mk (0, 6) 3 2, Entry.mk (0, 6) 2 1, Entry.mk (0, 6) 1 0, Entry.mk (3, 6) 2 1, Entry.mk (3, 6) 1 0, Entry.mk (8, 6) 9 8, Entry.mk (8, 6) 8 7, Entry.mk (8, 6) 7 6, Entry.mk (8, 6) 6 5, Entry.mk (8, 6) 5 4, Entry.mk (8, 6) 4 3, Entry.mk (8, 6) 3 2, Entry.mk (8, 6) 2 1, Entry.mk (8, 6) 1 0, Entry.mk (6, 8) 2 1, Entry.mk (6, 8) 1 0])
    [(0, 2), (7, 1), (7, 0), (5, 0), (4, 0)]
    [Entry.mk (8, 3) 4 3, Entry.mk (1, 4) 4 3, Entry.mk (5, 4) 6 5, Entry.mk (4, 5) 7 6, Entry.mk (0, 6) 8 7, Entry.mk (3, 6) 2 1, Entry.mk (8, 6) 9 8, Entry.mk (6, 8) 2 1]

/-- The C3 solver state after 35 calls to `next()`. -/
def c3S35 : Solver :=
  Solver.mk
    (Game.mk (0, 0) [.Row 3, .Square 2 1, .Column 8] false
      (Grid.mk [Cell.mk 4 true, Cell.mk 6 true, Cell.mk 7 true, Cell.mk 1 true, Cell.mk 0 false, Cell.mk 0 false, Cell.mk 8 true, Cell.mk 0 false, Cell.mk 5 true, Cell.mk 9 true, Cell.mk 1 true, Cell.mk 2 true, Cell.mk 8 true, Cell.mk 3 true, Cell.mk 5 true, Cell.mk 6 true, Cell.mk 0 false, Cell.mk 7 true, Cell.mk 0 false, Cell.mk 8 true, Cell.mk 5 true, Cell.mk 6 true, Cell.mk 4 true, Cell.mk 7 true, Cell.mk 1 true, Cell.mk 9 true, Cell.mk 2 true, Cell.mk 2 true, Cell.mk 9 true, Cell.mk 6 true, Cell.mk 3 true, Cell.mk 5 true, Cell.mk 1 true, Cell.mk 4 true, Cell.mk 7 true, Cell.mk 5 false, Cell.mk 7 true, Cell.mk 4 false, Cell.mk 8 true, Cell.mk 9 true, Cell.mk 2 true, Cell.mk 6 false, Cell.mk 3 true, Cell.mk 5 true, Cell.mk 1 true, Cell.mk 5 true, Cell.mk 3 true, Cell.mk 1 true, Cell.mk 4 true, Cell.mk 7 false, Cell.mk 8 true, Cell.mk 9 true, Cell.mk 2 true, Cell.mk 6 true, Cell.mk 8 false, Cell.mk 7 true, Cell.mk 3 true, Cell.mk 2 false, Cell.mk 6 true, Cell.mk 4 true, Cell.mk 5 true, Cell.mk 1 true, Cell.mk 9 false, Cell.mk 6 true, Cell.mk 2 true, Cell.mk 4 true, Cell.mk 5 true, Cell.mk 1 true, Cell.mk 9 true, Cell.mk 7 true, Cell.mk 8 true, Cell.mk 3 true, Cell.mk 1 true, Cell.mk 5 true, Cell.mk 9 true, Cell.mk 7 true, Cell.mk 8 true, Cell.mk 3 true, Cell.mk 2 false, Cell.mk 6 true, Cell.mk 4 true] 9 3)
      [Entry.mk (8, 3) 5 4, Entry.mk (8, 3) 4 3, Entry.mk (8, 3) 3 2, Entry.mk (8, 3) 2 1, Entry.mk (8, 3) 1 0, Entry.mk (1, 4) 4 3, Entry.mk (1, 4) 3 2, Entry.mk (1, 4) 2 1, Entry.mk (1, 4) 1 0, Entry.mk (5, 4) 6 5, Entry.mk (5, 4) 5 4, Entry.mk (5, 4) 4 3, Entry.mk (5, 4) 3 2, Entry.mk (5, 4) 2 1, Entry.mk (5, 4) 1 0, Entry.mk (4, 5) 7 6, Entry.mk (4, 5) 6 5, Entry.mk (4, 5) 5 4, Entry.mk (4, 5) 4 3, Entry.mk (4, 5) 3 2, Entry.mk (4, 5) 2 1, Entry.mk (4, 5) 1 0, Entry.mk (0, 6) 8 7, Entry.mk (0, 6) 7 6, Entry.mk (0, 6) 6 5, Entry.mk (0, 6) 5 4, Entry.mk (0, 6) 4 3, Entry.mk (0, 6) 3 2, Entry.mk (0, 6) 2 1, Entry.mk (0, 6) 1 0, Entry.mk (3, 6) 2 1, Entry.mk (3, 6) 1 0, Entry.mk (8, 6) 9 8, Entry.mk (8, 6) 8 7, Entry.mk (8, 6) 7 6, Entry.mk (8, 6) 6 5, Entry.mk (8, 6) 5 4, Entry.mk (8, 6) 4 3, Entry.mk (8, 6) 3 2, Entry.mk (8, 6) 2 1, Entry.mk (8, 6) 1 0, Entry.mk (6, 8) 2 1, Entry.mk (6, 8) 1 0])
    [(0, 2), (7, 1), (7, 0), (5, 0), (4, 0)]
    [Entry.mk (8, 3) 5 4, Entry.mk (1, 4) 4 3, Entry.mk (5, 4) 6 5, Entry.mk (4, 5) 7 6, Entry.mk (0, 6) 8 7, Entry.mk (3, 6) 2 1, Entry.mk (8, 6) 9 8, Entry.mk (6, 8) 2 1]

/-- The C3 solver state after 36 calls to `next()`. -/
def c3S36 : Solver :=
  Solver.mk
    (Game.mk (0, 0) [.Row 3, .Square 2 1, .Column 8] false
      (Grid.mk [Cell.mk 4 true, Cell.mk 6 true, Cell.mk 7 true, Cell.mk 1 true, Cell.mk 0 false, Cell.mk 0 false, Cell.mk 8 true, Cell.mk 0 false, Cell.mk 5 true, Cell.mk 9 true, Cell.mk 1 true, Cell.mk 2 true, Cell.mk 8 true, Cell.mk 3 true, Cell.mk 5 true, Cell.mk 6 true, Cell.mk 0 false, Cell.mk 7 true, Cell.mk 0 false, Cell.mk 8 true, Cell.mk 5 true, Cell.mk 6 true, Cell.mk 4 true, Cell.mk 7 true, Cell.mk 1 true, Cell.mk 9 true, Cell.mk 2 true, Cell.mk 2 true, Cell.mk 9 true, Cell.mk 6 true, Cell.mk 3 true, Cell.mk 5 true, Cell.mk 1 true, Cell.mk 4 true, Cell.mk 7 true, Cell.mk 6 false, Cell.mk 7 true, Cell.mk 4 false, Cell.mk 8 true, Cell.mk 9 true, Cell.mk 2 true, Cell.mk 6 false, Cell.mk 3 true, Cell.mk 5 true, Cell.mk 1 true, Cell.mk 5 true, Cell.mk 3 true, Cell.mk 1 true, Cell.mk 4 true, Cell.mk 7 false, Cell.mk 8 true, Cell.mk 9 true, Cell.mk 2 true, Cell.mk 6 true, Cell.mk 8 false, Cell.mk 7 true, Cell.mk 3 true, Cell.mk 2 false, Cell.mk 6 true, Cell.mk 4 true, Cell.mk 5 true, Cell.mk 1 true, Cell.mk 9 false, Cell.mk 6 true, Cell.mk 2 true, Cell.mk 4 true, Cell.mk 5 true, Cell.mk 1 true, Cell.mk 9 true, Cell.mk 7 true, Cell.mk 8 true, Cell.mk 3 true, Cell.mk 1 true, Cell.mk 5 true, Cell.mk 9 true, Cell.mk 7 true, Cell.mk 8 true, Cell.mk 3 true, Cell.mk 2 false, Cell.mk 6 true, Cell.mk 4 true] 9 3)
      [Entry.mk (8, 3) 6 5, Entry.mk (8, 3) 5 4, Entry.mk (8, 3) 4 3, Entry.mk (8, 3) 3 2, Entry.mk (8, 3) 2 1, Entry.mk (8, 3) 1 0, Entry.mk (1, 4) 4 3, Entry.mk (1, 4) 3 2, Entry.mk (1, 4) 2 1, Entry.mk (1, 4) 1 0, Entry.mk (5, 4) 6 5, Entry.mk (5, 4) 5 4, Entry.mk (5, 4) 4 3, Entry.mk (5, 4) 3 2, Entry.mk (5, 4) 2 1, Entry.mk (5, 4) 1 0, Entry.mk (4, 5) 7 6, Entry.mk (4, 5) 6 5, Entry.mk (4, 5) 5 4, Entry.mk (4, 5) 4 3, Entry.mk (4, 5) 3 2, Entry.mk (4, 5) 2 1, Entry.mk (4, 5) 1 0, Entry.mk (0, 6) 8 7, Entry.mk (0, 6) 7 6, Entry.mk (0, 6) 6 5, Entry.mk (0, 6) 5 4, Entry.mk (0, 6) 4 3, Entry.mk (0, 6) 3 2, Entry.mk (0, 6) 2 1, Entry.mk (0, 6) 1 0, Entry.mk (3, 6) 2 1, Entry.mk (3, 6) 1 0, Entry.mk (8, 6) 9 8, Entry.mk (8, 6) 8 7, Entry.mk (8, 6) 7 6, Entry.mk (8, 6) 6 5, Entry.mk (8, 6) 5 4, Entry.mk (8, 6) 4 3, Entry.mk (8, 6) 3 2, Entry.mk (8, 6) 2 1, Entry.mk (8, 6) 1 0, Entry.mk (6, 8) 2 1, Entry.mk (6, 8) 1 0])
    [(0, 2), (7, 1), (7, 0), (5, 0), (4, 0)]
    [Entry.mk (8, 3) 6 5, Entry.mk (1, 4) 4 3, Entry.mk (5, 4) 6 5, Entry.mk (4, 5) 7 6, Entry.mk (0, 6) 8 7, Entry.mk (3, 6) 2 1, Entry.mk (8, 6) 9 8, Entry.mk (6, 8) 2 1]

/-- The C3 solver state after 37 calls to `next()`. -/
def c3S37 : Solver :=
  Solver.mk
    (Game.mk (0, 0) [.Row 3, .Square 2 1, .Column 8] false
      (Grid.mk [Cell.mk 4 true, Cell.mk 6 true, Cell.mk 7 true, Cell.mk 1 true, Cell.mk 0 false, Cell.mk 0 false, Cell.mk 8 true, Cell.mk 0 false, Cell.mk 5 true, Cell.mk 9 true, Cell.mk 1 true, Cell.mk 2 true, Cell.mk 8 true, Cell.mk 3 true, Cell.mk 5 true, Cell.mk 6 true, Cell.mk 0 false, Cell.mk 7 true, Cell.mk 0 false, Cell.mk 8 true, Cell.mk 5 true, Cell.mk 6 true, Cell.mk 4 true, Cell.mk 7 true, Cell.mk 1 true, Cell.mk 9 true, Cell.mk 2 true, Cell.mk 2 true, Cell.mk 9 true, Cell.mk 6 true, Cell.mk 3 true, Cell.mk 5 true, Cell.mk 1 true, Cell.mk 4 true, Cell.mk 7 true, Cell.mk 7 false, Cell.mk 7 true, Cell.mk 4 false, Cell.mk 8 true, Cell.mk 9 true, Cell.mk 2 true, Cell.mk 6 false, Cell.mk 3 true, Cell.mk 5 true, Cell.mk 1 true, Cell.mk 5 true, Cell.mk 3 true, Cell.mk 1 true, Cell.mk 4 true, Cell.mk 7 false, Cell.mk 8 true, Cell.mk 9 true, Cell.mk 2 true, Cell.mk 6 true, Cell.mk 8 false, Cell.mk 7 true, Cell.mk 3 true, Cell.mk 2 false, Cell.mk 6 true, Cell.mk 4 true, Cell.mk 5 true, Cell.mk 1 true, Cell.mk 9 false, Cell.mk 6 true, Cell.mk 2 true, Cell.mk 4 true, Cell.mk 5 true, Cell.mk 1 true, Cell.mk 9 true, Cell.mk 7 true, Cell.mk 8 true, Cell.mk 3 true, Cell.mk 1 true, Cell.mk 5 true, Cell.mk 9 true, Cell.mk 7 true, Cell.mk 8 true, Cell.mk 3 true, Cell.mk 2 false, Cell.mk 6 true, Cell.mk 4 true] 9 3)
      [Entry.mk (8, 3) 7 6, Entry.mk (8, 3) 6 5, Entry.mk (8, 3) 5 4, Entry.mk (8, 3) 4 3, Entry.mk (8, 3) 3 2, Entry.mk (8, 3) 2 1, Entry.mk (8, 3) 1 0, Entry.mk (1, 4) 4 3, Entry.mk (1, 4) 3 2, Entry.mk (1, 4) 2 1, Entry.mk (1, 4) 1 0, Entry.mk (5, 4) 6 5, Entry.mk (5, 4) 5 4, Entry.mk (5, 4) 4 3, Entry.mk (5, 4) 3 2, Entry.mk (5, 4) 2 1, Entry.mk (5, 4) 1 0, Entry.mk (4, 5) 7 6, Entry.mk (4, 5) 6 5, Entry.mk (4, 5) 5 4, Entry.mk (4, 5) 4 3, Entry.mk (4, 5) 3 2, Entry.mk (4, 5) 2 1, Entry.mk (4, 5) 1 0, Entry.mk (0, 6) 8 7, Entry.mk (0, 6) 7 6, Entry.mk (0, 6) 6 5, Entry.mk (0, 6) 5 4, Entry.mk (0, 6) 4 3, Entry.mk (0, 6) 3 2, Entry.mk (0, 6) 2 1, Entry.mk (0, 6) 1 0, Entry.mk (3, 6) 2 1, Entry.mk (3, 6) 1 0, Entry.mk (8, 6) 9 8, Entry.mk (8, 6) 8 7, Entry.mk (8, 6) 7 6, Entry.mk (8, 6) 6 5, Entry.mk (8, 6) 5 4, Entry.mk (8, 6) 4 3, Entry.mk (8, 6) 3 2, Entry.mk (8, 6) 2 1, Entry.mk (8, 6) 1 0, Entry.mk (6, 8) 2 1, Entry.mk (6, 8) 1 0])
    [(0, 2), (7, 1), (7, 0), (5, 0), (4, 0)]
    [Entry.mk (8, 3) 7 6, Entry.mk (1, 4) 4 3, Entry.mk (5, 4) 6 5, Entry.mk (4, 5) 7 6, Entry.mk (0, 6) 8 7, Entry.mk (3, 6) 2 1, Entry.mk (8, 6) 9 8, Entry.mk (6, 8) 2 1]

/-- The C3 solver state after 38 calls to `next()`. -/
def c3S38 : Solver :=
  Solver.mk
    (Game.mk (0, 0) [] false
      (Grid.mk [Cell.mk 4 true, Cell.mk 6 true, Cell.mk 7 true, Cell.mk 1 true, Cell.mk 0 false, Cell.mk 0 false, Cell.mk 8 true, Cell.mk 0 false, Cell.mk 5 true, Cell.mk 9 true, Cell.mk 1 true, Cell.mk 2 true, Cell.mk 8 true, Cell.mk 3 true, Cell.mk 5 true, Cell.mk 6 true, Cell.mk 0 false, Cell.mk 7 true, Cell.mk 0 false, Cell.mk 8 true, Cell.mk 5 true, Cell.mk 6 true, Cell.mk 4 true, Cell.mk 7 true, Cell.mk 1 true, Cell.mk 9 true, Cell.mk 2 true, Cell.mk 2 true, Cell.mk 9 true, Cell.mk 6 true, Cell.mk 3 true, Cell.mk 5 true, Cell.mk 1 true, Cell.mk 4 true, Cell.mk 7 true, Cell.mk 8 false, Cell.mk 7 true, Cell.mk 4 false, Cell.mk 8 true, Cell.mk 9 true, Cell.mk 2 true, Cell.mk 6 false, Cell.mk 3 true, Cell.mk 5 true, Cell.mk 1 true, Cell.mk 5 true, Cell.mk 3 true, Cell.mk 1 true, Cell.mk 4 true, Cell.mk 7 false, Cell.mk 8 true, Cell.mk 9 true, Cell.mk 2 true, Cell.mk 6 true, Cell.mk 8 false, Cell.mk 7 true, Cell.mk 3 true, Cell.mk 2 false, Cell.mk 6 true, Cell.mk 4 true, Cell.mk 5 true, Cell.mk 1 true, Cell.mk 9 false, Cell.mk 6 true, Cell.mk 2 true, Cell.mk 4 true, Cell.mk 5 true, Cell.mk 1 true, Cell.mk 9 true, Cell.mk 7 true, Cell.mk 8 true, Cell.mk 3 true, Cell.mk 1 true, Cell.mk 5 true, Cell.mk 9 true, Cell.mk 7 true, Cell.mk 8 true, Cell.mk 3 true, Cell.mk 2 false, Cell.mk 6 true, Cell.mk 4 true] 9 3)
      [Entry.mk (8, 3) 8 7, Entry.mk (8, 3) 7 6, Entry.mk (8, 3) 6 5, Entry.mk (8, 3) 5 4, Entry.mk (8, 3) 4 3, Entry.mk (8, 3) 3 2, Entry.mk (8, 3) 2 1, Entry.mk (8, 3) 1 0, Entry.mk (1, 4) 4 3, Entry.mk (1, 4) 3 2, Entry.mk (1, 4) 2 1, Entry.mk (1, 4) 1 0, Entry.mk (5, 4) 6 5, Entry.mk (5, 4) 5 4, Entry.mk (5, 4) 4 3, Entry.mk (5, 4) 3 2, Entry.mk (5, 4) 2 1, Entry.mk (5, 4) 1 0, Entry.mk (4, 5) 7 6, Entry.mk (4, 5) 6 5, Entry.mk (4, 5) 5 4, Entry.mk (4, 5) 4 3, Entry.mk (4, 5) 3 2, Entry.mk (4, 5) 2 1, Entry.mk (4, 5) 1 0, Entry.mk (0, 6) 8 7, Entry.mk (0, 6) 7 6, Entry.mk (0, 6) 6 5, Entry.mk (0, 6) 5 4, Entry.mk (0, 6) 4 3, Entry.mk (0, 6) 3 2, Entry.mk (0, 6) 2 1, Entry.mk (0, 6) 1 0, Entry.mk (3, 6) 2 1, Entry.mk (3, 6) 1 0, Entry.mk (8, 6) 9 8, Entry.mk (8, 6) 8 7, Entry.mk (8, 6) 7 6, Entry.mk (8, 6) 6 5, Entry.mk (8, 6) 5 4, Entry.mk (8, 6) 4 3, Entry.mk (8, 6) 3 2, Entry.mk (8, 6) 2 1, Entry.mk (8, 6) 1 0, Entry.mk (6, 8) 2 1, Entry.mk (6, 8) 1 0])
    [(0, 2), (7, 1), (7, 0), (5, 0), (4, 0)]
    [Entry.mk (8, 3) 8 7, Entry.mk (1, 4) 4 3, Entry.mk (5, 4) 6 5, Entry.mk (4, 5) 7 6, Entry.mk (0, 6) 8 7, Entry.mk (3, 6) 2 1, Entry.mk (8, 6) 9 8, Entry.mk (6, 8) 2 1]

/-- The C3 solver state after 39 calls to `next()`. -/
def c3S39 : Solver :=
  Solver.mk
    (Game.mk (0, 0) [.Column 0, .Square 0 0, .Row 2] false
      (Grid.mk [Cell.mk 4 true, Cell.mk 6 true, Cell.mk 7 true, Cell.mk 1 true, Cell.mk 0 false, Cell.mk 0 false, Cell.mk 8 true, Cell.mk 0 false, Cell.mk 5 true, Cell.mk 9 true, Cell.mk 1 true, Cell.mk 2 true, Cell.mk 8 true, Cell.mk 3 true, Cell.mk 5 true, Cell.mk 6 true, Cell.mk 0 false, Cell.mk 7 true, Cell.mk 2 false, Cell.mk 8 true, Cell.mk 5 true, Cell.mk 6 true, Cell.mk 4 true, Cell.mk 7 true, Cell.mk 1 true, Cell.mk 9 true, Cell.mk 2 true, Cell.mk 2 true, Cell.mk 9 true, Cell.mk 6 true, Cell.mk 3 true, Cell.mk 5 true, Cell.mk 1 true, Cell.mk 4 true, Cell.mk 7 true, Cell.mk 8 false, Cell.mk 7 true, Cell.mk 4 false, Cell.mk 8 true, Cell.mk 9 true, Cell.mk 2 true, Cell.mk 6 false, Cell.mk 3 true, Cell.mk 5 true, Cell.mk 1 true, Cell.mk 5 true, Cell.mk 3 true, Cell.mk 1 true, Cell.mk 4 true, Cell.mk 7 false, Cell.mk 8 true, Cell.mk 9 true, Cell.mk 2 true, Cell.mk 6 true, Cell.mk 8 false, Cell.mk 7 true, Cell.mk 3 true, Cell.mk 2 false, Cell.mk 6 true, Cell.mk 4 true, Cell.mk 5 true, Cell.mk 1 true, Cell.mk 9 false, Cell.mk 6 true, Cell.mk 2 true, Cell.mk 4 true, Cell.mk 5 true, Cell.mk 1 true, Cell.mk 9 true, Cell.mk 7 true, Cell.mk 8 true, Cell.mk 3 true, Cell.mk 1 true, Cell.mk 5 true, Cell.mk 9 true, Cell.mk 7 true, Cell.mk 8 true, Cell.mk 3 true, Cell.mk 2 false, Cell.mk 6 true, Cell.mk 4 true] 9 3)
      [Entry.mk (0, 2) 2 1, Entry.mk (0, 2) 1 0, Entry.mk (8, 3) 8 7, Entry.mk (8, 3) 7 6, Entry.mk (8, 3) 6 5, Entry.mk (8, 3) 5 4, Entry.mk (8, 3) 4 3, Entry.mk (8, 3) 3 2, Entry.mk (8, 3) 2 1, Entry.mk (8, 3) 1 0, Entry.mk (1, 4) 4 3, Entry.mk (1, 4) 3 2, Entry.mk (1, 4) 2 1, Entry.mk (1, 4) 1 0, Entry.mk (5, 4) 6 5, Entry.mk (5, 4) 5 4, Entry.mk (5, 4) 4 3, Entry.mk (5, 4) 3 2, Entry.mk (5, 4) 2 1, Entry.mk (5, 4) 1 0, Entry.mk (4, 5) 7 6, Entry.mk (4, 5) 6 5, Entry.mk (4, 5) 5 4, Entry.mk (4, 5) 4 3, Entry.mk (4, 5) 3 2, Entry.mk (4, 5) 2 1, Entry.mk (4, 5) 1 0, Entry.mk (0, 6) 8 7, Entry.mk (0, 6) 7 6, Entry.mk (0, 6) 6 5, Entry.mk (0, 6) 5 4, Entry.mk (0, 6) 4 3, Entry.mk (0, 6) 3 2, Entry.mk (0, 6) 2 1, Entry.mk (0, 6) 1 0, Entry.mk (3, 6) 2 1, Entry.mk (3, 6) 1 0, Entry.mk (8, 6) 9 8, Entry.mk (8, 6) 8 7, Entry.mk (8, 6) 7 6, Entry.mk (8, 6) 6 5, Entry.mk (8, 6) 5 4, Entry.mk (8, 6) 4 3, Entry.mk (8, 6) 3 2, Entry.mk (8, 6) 2 1, Entry.mk (8, 6) 1 0, Entry.mk (6, 8) 2 1, Entry.mk (6, 8) 1 0])
    [(7, 1), (7, 0), (5, 0), (4, 0)]
    [Entry.mk (0, 2) 2 1, Entry.mk (8, 3) 8 7, Entry.mk (1, 4) 4 3, Entry.mk (5, 4) 6 5, Entry.mk (4, 5) 7 6, Entry.mk (0, 6) 8 7, Entry.mk (3, 6) 2 1, Entry.mk (8, 6) 9 8, Entry.mk (6, 8) 2 1]

/-- The C3 solver state after 40 calls to `next()`. -/
def c3S40 : Solver :=
  Solver.mk
    (Game.mk (0, 0) [] false
      (Grid.mk [Cell.mk 4 true, Cell.mk 6 true, Cell.mk 7 true, Cell.mk 1 true, Cell.mk 0 false, Cell.mk 0 false, Cell.mk 8 true, Cell.mk 0 false, Cell.mk 5 true, Cell.mk 9 true, Cell.mk 1 true, Cell.mk 2 true, Cell.mk 8 true, Cell.mk 3 true, Cell.mk 5 true, Cell.mk 6 true, Cell.mk 0 false, Cell.mk 7 true, Cell.mk 3 false, Cell.mk 8 true, Cell.mk 5 true, Cell.mk 6 true, Cell.mk 4 true, Cell.mk 7 true, Cell.mk 1 true, Cell.mk 9 true, Cell.mk 2 true, Cell.mk 2 true, Cell.mk 9 true, Cell.mk 6 true, Cell.mk 3 true, Cell.mk 5 true, Cell.mk 1 true, Cell.mk 4 true, Cell.mk 7 true, Cell.mk 8 false, Cell.mk 7 true, Cell.mk 4 false, Cell.mk 8 true, Cell.mk 9 true, Cell.mk 2 true, Cell.mk 6 false, Cell.mk 3 true, Cell.mk 5 true, Cell.mk 1 true, Cell.mk 5 true, Cell.mk 3 true, Cell.mk 1 true, Cell.mk 4 true, Cell.mk 7 false, Cell.mk 8 true, Cell.mk 9 true, Cell.mk 2 true, Cell.mk 6 true, Cell.mk 8 false, Cell.mk 7 true, Cell.mk 3 true, Cell.mk 2 false, Cell.mk 6 true, Cell.mk 4 true, Cell.mk 5 true, Cell.mk 1 true, Cell.mk 9 false, Cell.mk 6 true, Cell.mk 2 true, Cell.mk 4 true, Cell.mk 5 true, Cell.mk 1 true, Cell.mk 9 true, Cell.mk 7 true, Cell.mk 8 true, Cell.mk 3 true, Cell.mk 1 true, Cell.mk 5 true, Cell.mk 9 true, Cell.mk 7 true, Cell.mk 8 true, Cell.mk 3 true, Cell.mk 2 false, Cell.mk 6 true, Cell.mk 4 true] 9 3)
      [Entry.mk (0, 2) 3 2, Entry.mk (0, 2) 2 1, Entry.mk (0, 2) 1 0, Entry.mk (8, 3) 8 7, Entry.mk (8, 3) 7 6, Entry.mk (8, 3) 6 5, Entry.mk (8, 3) 5 4, Entry.mk (8, 3) 4 3, Entry.mk (8, 3) 3 2, Entry.mk (8, 3) 2 1, Entry.mk (8, 3) 1 0, Entry.mk (1, 4) 4 3, Entry.mk (1, 4) 3 2, Entry.mk (1, 4) 2 1, Entry.mk (1, 4) 1 0, Entry.mk (5, 4) 6 5, Entry.mk (5, 4) 5 4, Entry.mk (5, 4) 4 3, Entry.mk (5, 4) 3 2, Entry.mk (5, 4) 2 1, Entry.mk (5, 4) 1 0, Entry.mk (4, 5) 7 6, Entry.mk (4, 5) 6 5, Entry.mk (4, 5) 5 4, Entry.mk (4, 5) 4 3, Entry.mk (4, 5) 3 2, Entry.mk (4, 5) 2 1, Entry.mk (4, 5) 1 0, Entry.mk (0, 6) 8 7, Entry.mk (0, 6) 7 6, Entry.mk (0, 6) 6 5, Entry.mk (0, 6) 5 4, Entry.mk (0, 6) 4 3, Entry.mk (0, 6) 3 2, Entry.mk (0, 6) 2 1, Entry.mk (0, 6) 1 0, Entry.mk (3, 6) 2 1, Entry.mk (3, 6) 1 0, Entry.mk (8, 6) 9 8, Entry.mk (8, 6) 8 7, Entry.mk (8, 6) 7 6, Entry.mk (8, 6) 6 5, Entry.mk (8, 6) 5 4, Entry.mk (8, 6) 4 3, Entry.mk (8, 6) 3 2, Entry.mk (8, 6) 2 1, Entry.mk (8, 6) 1 0, Entry.mk (6, 8) 2 1, Entry.mk (6, 8) 1 0])
    [(7, 1), (7, 0), (5, 0), (4, 0)]
    [Entry.mk (0, 2) 3 2, Entry.mk (8, 3) 8 7, Entry.mk (1, 4) 4 3, Entry.mk (5, 4) 6 5, Entry.mk (4, 5) 7 6, Entry.mk (0, 6) 8 7, Entry.mk (3, 6) 2 1, Entry.mk (8, 6) 9 8, Entry.mk (6, 8) 2 1]

/-- The C3 solver state after 41 calls to `next()`. -/
def c3S41 : Solver :=
  Solver.mk
    (Game.mk (0, 0) [.Row 1, .Square 2 0, .Column 7] false
      (Grid.mk [Cell.mk 4 true, Cell.mk 6 true, Cell.mk 7 true, Cell.mk 1 true, Cell.mk 0 false, Cell.mk 0 false, Cell.mk 8 true, Cell.mk 0 false, Cell.mk 5 true, Cell.mk 9 true, Cell.mk 1 true, Cell.mk 2 true, Cell.mk 8 true, Cell.mk 3 true, Cell.mk 5 true, Cell.mk 6 true, Cell.mk 2 false, Cell.mk 7 true, Cell.mk 3 false, Cell.mk 8 true, Cell.mk 5 true, Cell.mk 6 true, Cell.mk 4 true, Cell.mk 7 true, Cell.mk 1 true, Cell.mk 9 true, Cell.mk 2 true, Cell.mk 2 true, Cell.mk 9 true, Cell.mk 6 true, Cell.mk 3 true, Cell.mk 5 true, Cell.mk 1 true, Cell.mk 4 true, Cell.mk 7 true, Cell.mk 8 false, Cell.mk 7 true, Cell.mk 4 false, Cell.mk 8 true, Cell.mk 9 true, Cell.mk 2 true, Cell.mk 6 false, Cell.mk 3 true, Cell.mk 5 true, Cell.mk 1 true, Cell.mk 5 true, Cell.mk 3 true, Cell.mk 1 true, Cell.mk 4 true, Cell.mk 7 false, Cell.mk 8 true, Cell.mk 9 true, Cell.mk 2 true, Cell.mk 6 true, Cell.mk 8 false, Cell.mk 7 true, Cell.mk 3 true, Cell.mk 2 false, Cell.mk 6 true, Cell.mk 4 true, Cell.mk 5 true, Cell.mk 1 true, Cell.mk 9 false, Cell.mk 6 true, Cell.mk 2 true, Cell.mk 4 true, Cell.mk 5 true, Cell.mk 1 true, Cell.mk 9 true, Cell.mk 7 true, Cell.mk 8 true, Cell.mk 3 true, Cell.mk 1 true, Cell.mk 5 true, Cell.mk 9 true, Cell.mk 7 true, Cell.mk 8 true, Cell.mk 3 true, Cell.mk 2 false, Cell.mk 6 true, Cell.mk 4 true] 9 3)
      [Entry.mk (7, 1) 2 1, Entry.mk (7, 1) 1 0, Entry.mk (0, 2) 3 2, Entry.mk (0, 2) 2 1, Entry.mk (0, 2) 1 0, Entry.mk (8, 3) 8 7, Entry.mk (8, 3) 7 6, Entry.mk (8, 3) 6 5, Entry.mk (8, 3) 5 4, Entry.mk (8, 3) 4 3, Entry.mk (8, 3) 3 2, Entry.mk (8, 3) 2 1, Entry.mk (8, 3) 1 0, Entry.mk (1, 4) 4 3, Entry.mk (1, 4) 3 2, Entry.mk (1, 4) 2 1, Entry.mk (1, 4) 1 0, Entry.mk (5, 4) 6 5, Entry.mk (5, 4) 5 4, Entry.mk (5, 4) 4 3, Entry.mk (5, 4) 3 2, Entry.mk (5, 4) 2 1, Entry.mk (5, 4) 1 0, Entry.mk (4, 5) 7 6, Entry.mk (4, 5) 6 5, Entry.mk (4, 5) 5 4, Entry.mk (4, 5) 4 3, Entry.mk (4, 5) 3 2, Entry.mk (4, 5) 2 1, Entry.mk (4, 5) 1 0, Entry.mk (0, 6) 8 7, Entry.mk (0, 6) 7 6, Entry.mk (0, 6) 6 5, Entry.mk (0, 6) 5 4, Entry.mk (0, 6) 4 3, Entry.mk (0, 6) 3 2, Entry.mk (0, 6) 2 1, Entry.mk (0, 6) 1 0, Entry.mk (3, 6) 2 1, Entry.mk (3, 6) 1 0, Entry.mk (8, 6) 9 8, Entry.mk (8, 6) 8 7, Entry.mk (8, 6) 7 6, Entry.mk (8, 6) 6 5, Entry.mk (8, 6) 5 4, Entry.mk (8, 6) 4 3, Entry.mk (8, 6) 3 2, Entry.mk (8, 6) 2 1, Entry.mk (8, 6) 1 0, Entry.mk (6, 8) 2 1, Entry.mk (6, 8) 1 0])
    [(7, 0), (5, 0), (4, 0)]
    [Entry.mk (7, 1) 2 1, Entry.mk (0, 2) 3 2, Entry.mk (8, 3) 8 7, Entry.mk (1, 4) 4 3, Entry.mk (5, 4) 6 5, Entry.mk (4, 5) 7 6, Entry.mk (0, 6) 8 7, Entry.mk (3, 6) 2 1, Entry.mk (8, 6) 9 8, Entry.mk (6, 8) 2 1]

/-- The C3 solver state after 42 calls to `next()`. -/
def c3S42 : Solver :=
  Solver.mk
    (Game.mk (0, 0) [.Row 1] false
      (Grid.mk [Cell.mk 4 true, Cell.mk 6 true, Cell.mk 7 true, Cell.mk 1 true, Cell.mk 0 false, Cell.mk 0 false, Cell.mk 8 true, Cell.mk 0 false, Cell.mk 5 true, Cell.mk 9 true, Cell.mk 1 true, Cell.mk 2 true, Cell.mk 8 true, Cell.mk 3 true, Cell.mk 5 true, Cell.mk 6 true, Cell.mk 3 false, Cell.mk 7 true, Cell.mk 3 false, Cell.mk 8 true, Cell.mk 5 true, Cell.mk 6 true, Cell.mk 4 true, Cell.mk 7 true, Cell.mk 1 true, Cell.mk 9 true, Cell.mk 2 true, Cell.mk 2 true, Cell.mk 9 true, Cell.mk 6 true, Cell.mk 3 true, Cell.mk 5 true, Cell.mk 1 true, Cell.mk 4 true, Cell.mk 7 true, Cell.mk 8 false, Cell.mk 7 true, Cell.mk 4 false, Cell.mk 8 true, Cell.mk 9 true, Cell.mk 2 true, Cell.mk 6 false, Cell.mk 3 true, Cell.mk 5 true, Cell.mk 1 true, Cell.mk 5 true, Cell.mk 3 true, Cell.mk 1 true, Cell.mk 4 true, Cell.mk 7 false, Cell.mk 8 true, Cell.mk 9 true, Cell.mk 2 true, Cell.mk 6 true, Cell.mk 8 false, Cell.mk 7 true, Cell.mk 3 true, Cell.mk 2 false, Cell.mk 6 true, Cell.mk 4 true, Cell.mk 5 true, Cell.mk 1 true, Cell.mk 9 false, Cell.mk 6 true, Cell.mk 2 true, Cell.mk 4 true, Cell.mk 5 true, Cell.mk 1 true, Cell.mk 9 true, Cell.mk 7 true, Cell.mk 8 true, Cell.mk 3 true, Cell.mk 1 true, Cell.mk 5 true, Cell.mk 9 true, Cell.mk 7 true, Cell.mk 8 true, Cell.mk 3 true, Cell.mk 2 false, Cell.mk 6 true, Cell.mk 4 true] 9 3)
      [Entry.mk (7, 1) 3 2, Entry.mk (7, 1) 2 1, Entry.mk (7, 1) 1 0, Entry.mk (0, 2) 3 2, Entry.mk (0, 2) 2 1, Entry.mk (0, 2) 1 0, Entry.mk (8, 3) 8 7, Entry.mk (8, 3) 7 6, Entry.mk (8, 3) 6 5, Entry.mk (8, 3) 5 4, Entry.mk (8, 3) 4 3, Entry.mk (8, 3) 3 2, Entry.mk (8, 3) 2 1, Entry.mk (8, 3) 1 0, Entry.mk (1, 4) 4 3, Entry.mk (1, 4) 3 2, Entry.mk (1, 4) 2 1, Entry.mk (1, 4) 1 0, Entry.mk (5, 4) 6 5, Entry.mk (5, 4) 5 4, Entry.mk (5, 4) 4 3, Entry.mk (5, 4) 3 2, Entry.mk (5, 4) 2 1, Entry.mk (5, 4) 1 0, Entry.mk (4, 5) 7 6, Entry.mk (4, 5) 6 5, Entry.mk (4, 5) 5 4, Entry.mk (4, 5) 4 3, Entry.mk (4, 5) 3 2, Entry.mk (4, 5) 2 1, Entry.mk (4, 5) 1 0, Entry.mk (0, 6) 8 7, Entry.mk (0, 6) 7 6, Entry.mk (0, 6) 6 5, Entry.mk (0, 6) 5 4, Entry.mk (0, 6) 4 3, Entry.mk (0, 6) 3 2, Entry.mk (0, 6) 2 1, Entry.mk (0, 6) 1 0, Entry.mk (3, 6) 2 1, Entry.mk (3, 6) 1 0, Entry.mk (8, 6) 9 8, Entry.mk (8, 6) 8 7, Entry.mk (8, 6) 7 6, Entry.mk (8, 6) 6 5, Entry.mk (8, 6) 5 4, Entry.mk (8, 6) 4 3, Entry.mk (8, 6) 3 2, Entry.mk (8, 6) 2 1, Entry.mk (8, 6) 1 0, Entry.mk (6, 8) 2 1, Entry.mk (6, 8) 1 0])
    [(7, 0), (5, 0), (4, 0)]
    [Entry.mk (7, 1) 3 2, Entry.mk (0, 2) 3 2, Entry.mk (8, 3) 8 7, Entry.mk (1, 4) 4 3, Entry.mk (5, 4) 6 5, Entry.mk (4, 5) 7 6, Entry.mk (0, 6) 8 7, Entry.mk (3, 6) 2 1, Entry.mk (8, 6) 9 8, Entry.mk (6, 8) 2 1]

/-- The C3 solver state after 43 calls to `next()`. -/
def c3S43 : Solver :=
  Solver.mk
    (Game.mk (0, 0) [] false
      (Grid.mk [Cell.mk 4 true, Cell.mk 6 true, Cell.mk 7 true, Cell.mk 1 true, Cell.mk 0 false, Cell.mk 0 false, Cell.mk 8 true, Cell.mk 0 false, Cell.mk 5 true, Cell.mk 9 true, Cell.mk 1 true, Cell.mk 2 true, Cell.mk 8 true, Cell.mk 3 true, Cell.mk 5 true, Cell.mk 6 true, Cell.mk 4 false, Cell.mk 7 true, Cell.mk 3 false, Cell.mk 8 true, Cell.mk 5 true, Cell.mk 6 true, Cell.mk 4 true, Cell.mk 7 true, Cell.mk 1 true, Cell.mk 9 true, Cell.mk 2 true, Cell.mk 2 true, Cell.mk 9 true, Cell.mk 6 true, Cell.mk 3 true, Cell.mk 5 true, Cell.mk 1 true, Cell.mk 4 true, Cell.mk 7 true, Cell.mk 8 false, Cell.mk 7 true, Cell.mk 4 false, Cell.mk 8 true, Cell.mk 9 true, Cell.mk 2 true, Cell.mk 6 false, Cell.mk 3 true, Cell.mk 5 true, Cell.mk 1 true, Cell.mk 5 true, Cell.mk 3 true, Cell.mk 1 true, Cell.mk 4 true, Cell.mk 7 false, Cell.mk 8 true, Cell.mk 9 true, Cell.mk 2 true, Cell.mk 6 true, Cell.mk 8 false, Cell.mk 7 true, Cell.mk 3 true, Cell.mk 2 false, Cell.mk 6 true, Cell.mk 4 true, Cell.mk 5 true, Cell.mk 1 true, Cell.mk 9 false, Cell.mk 6 true, Cell.mk 2 true, Cell.mk 4 true, Cell.mk 5 true, Cell.mk 1 true, Cell.mk 9 true, Cell.mk 7 true, Cell.mk 8 true, Cell.mk 3 true, Cell.mk 1 true, Cell.mk 5 true, Cell.mk 9 true, Cell.mk 7 true, Cell.mk 8 true, Cell.mk 3 true, Cell.mk 2 false, Cell.mk 6 true, Cell.mk 4 true] 9 3)
      [Entry.mk (7, 1) 4 3, Entry.mk (7, 1) 3 2, Entry.mk (7, 1) 2 1, Entry.mk (7, 1) 1 0, Entry.mk (0, 2) 3 2, Entry.mk (0, 2) 2 1, Entry.mk (0, 2) 1 0, Entry.mk (8, 3) 8 7, Entry.mk (8, 3) 7 6, Entry.mk (8, 3) 6 5, Entry.mk (8, 3) 5 4, Entry.mk (8, 3) 4 3, Entry.mk (8, 3) 3 2, Entry.mk (8, 3) 2 1, Entry.mk (8, 3) 1 0, Entry.mk (1, 4) 4 3, Entry.mk (1, 4) 3 2, Entry.mk (1, 4) 2 1, Entry.mk (1, 4) 1 0, Entry.mk (5, 4) 6 5, Entry.mk (5, 4) 5 4, Entry.mk (5, 4) 4 3, Entry.mk (5, 4) 3 2, Entry.mk (5, 4) 2 1, Entry.mk (5, 4) 1 0, Entry.mk (4, 5) 7 6, Entry.mk (4, 5) 6 5, Entry.mk (4, 5) 5 4, Entry.mk (4, 5) 4 3, Entry.mk (4, 5) 3 2, Entry.mk (4, 5) 2 1, Entry.mk (4, 5) 1 0, Entry.mk (0, 6) 8 7, Entry.mk (0, 6) 7 6, Entry.mk (0, 6) 6 5, Entry.mk (0, 6) 5 4, Entry.mk (0, 6) 4 3, Entry.mk (0, 6) 3 2, Entry.mk (0, 6) 2 1, Entry.mk (0, 6) 1 0, Entry.mk (3, 6) 2 1, Entry.mk (3, 6) 1 0, Entry.mk (8, 6) 9 8, Entry.mk (8, 6) 8 7, Entry.mk (8, 6) 7 6, Entry.mk (8, 6) 6 5, Entry.mk (8, 6) 5 4, Entry.mk (8, 6) 4 3, Entry.mk (8, 6) 3 2, Entry.mk (8, 6) 2 1, Entry.mk (8, 6) 1 0, Entry.mk (6, 8) 2 1, Entry.mk (6, 8) 1 0])
    [(7, 0), (5, 0), (4, 0)]
    [Entry.mk (7, 1) 4 3, Entry.mk (0, 2) 3 2, Entry.mk (8, 3) 8 7, Entry.mk (1, 4) 4 3, Entry.mk (5, 4) 6 5, Entry.mk (4, 5) 7 6, Entry.mk (0, 6) 8 7, Entry.mk (3, 6) 2 1, Entry.mk (8, 6) 9 8, Entry.mk (6, 8) 2 1]

/-- The C3 solver state after 44 calls to `next()`. -/
def c3S44 : Solver :=
  Solver.mk
    (Game.mk (0, 0) [.Square 2 0, .Column 7] false
      (Grid.mk [Cell.mk 4 true, Cell.mk 6 true, Cell.mk 7 true, Cell.mk 1 true, Cell.mk 0 false, Cell.mk 0 false, Cell.mk 8 true, Cell.mk 2 false, Cell.mk 5 true, Cell.mk 9 true, Cell.mk 1 true, Cell.mk 2 true, Cell.mk 8 true, Cell.mk 3 true, Cell.mk 5 true, Cell.mk 6 true, Cell.mk 4 false, Cell.mk 7 true, Cell.mk 3 false, Cell.mk 8 true, Cell.mk 5 true, Cell.mk 6 true, Cell.mk 4 true, Cell.mk 7 true, Cell.mk 1 true, Cell.mk 9 true, Cell.mk 2 true, Cell.mk 2 true, Cell.mk 9 true, Cell.mk 6 true, Cell.mk 3 true, Cell.mk 5 true, Cell.mk 1 true, Cell.mk 4 true, Cell.mk 7 true, Cell.mk 8 false, Cell.mk 7 true, Cell.mk 4 false, Cell.mk 8 true, Cell.mk 9 true, Cell.mk 2 true, Cell.mk 6 false, Cell.mk 3 true, Cell.mk 5 true, Cell.mk 1 true, Cell.mk 5 true, Cell.mk 3 true, Cell.mk 1 true, Cell.mk 4 true, Cell.mk 7 false, Cell.mk 8 true, Cell.mk 9 true, Cell.mk 2 true, Cell.mk 6 true, Cell.mk 8 false, Cell.mk 7 true, Cell.mk 3 true, Cell.mk 2 false, Cell.mk 6 true, Cell.mk 4 true, Cell.mk 5 true, Cell.mk 1 true, Cell.mk 9 false, Cell.mk 6 true, Cell.mk 2 true, Cell.mk 4 true, Cell.mk 5 true, Cell.mk 1 true, Cell.mk 9 true, Cell.mk 7 true, Cell.mk 8 true, Cell.mk 3 true, Cell.mk 1 true, Cell.mk 5 true, Cell.mk 9 true, Cell.mk 7 true, Cell.mk 8 true, Cell.mk 3 true, Cell.mk 2 false, Cell.mk 6 true, Cell.mk 4 true] 9 3)
      [Entry.mk (7, 0) 2 1, Entry.mk (7, 0) 1 0, Entry.mk (7, 1) 4 3, Entry.mk (7, 1) 3 2, Entry.mk (7, 1) 2 1, Entry.mk (7, 1) 1 0, Entry.mk (0, 2) 3 2, Entry.mk (0, 2) 2 1, Entry.mk (0, 2) 1 0, Entry.mk (8, 3) 8 7, Entry.mk (8, 3) 7 6, Entry.mk (8, 3) 6 5, Entry.mk (8, 3) 5 4, Entry.mk (8, 3) 4 3, Entry.mk (8, 3) 3 2, Entry.mk (8, 3) 2 1, Entry.mk (8, 3) 1 0, Entry.mk (1, 4) 4 3, Entry.mk (1, 4) 3 2, Entry.mk (1, 4) 2 1, Entry.mk (1, 4) 1 0, Entry.mk (5, 4) 6 5, Entry.mk (5, 4) 5 4, Entry.mk (5, 4) 4 3, Entry.mk (5, 4) 3 2, Entry.mk (5, 4) 2 1, Entry.mk (5, 4) 1 0, Entry.mk (4, 5) 7 6, Entry.mk (4, 5) 6 5, Entry.mk (4, 5) 5 4, Entry.mk (4, 5) 4 3, Entry.mk (4, 5) 3 2, Entry.mk (4, 5) 2 1, Entry.mk (4, 5) 1 0, Entry.mk (0, 6) 8 7, Entry.mk (0, 6) 7 6, Entry.mk (0, 6) 6 5, Entry.mk (0, 6) 5 4, Entry.mk (0, 6) 4 3, Entry.mk (0, 6) 3 2, Entry.mk (0, 6) 2 1, Entry.mk (0, 6) 1 0, Entry.mk (3, 6) 2 1, Entry.mk (3, 6) 1 0, Entry.mk (8, 6) 9 8, Entry.mk (8, 6) 8 7, Entry.mk (8, 6) 7 6, Entry.mk (8, 6) 6 5, Entry.mk (8, 6) 5 4, Entry.mk (8, 6) 4 3, Entry.mk (8, 6) 3 2, Entry.mk (8, 6) 2 1, Entry.mk (8, 6) 1 0, Entry.mk (6, 8) 2 1, Entry.mk (6, 8) 1 0])
    [(5, 0), (4, 0)]
    [Entry.mk (7, 0) 2 1, Entry.mk (7, 1) 4 3, Entry.mk (0, 2) 3 2, Entry.mk (8, 3) 8 7, Entry.mk (1, 4) 4 3, Entry.mk (5, 4) 6 5, Entry.mk (4, 5) 7 6, Entry.mk (0, 6) 8 7, Entry.mk (3, 6) 2 1, Entry.mk (8, 6) 9 8, Entry.mk (6, 8) 2 1]

/-- The C3 solver state after 45 calls to `next()`. -/
def c3S45 : Solver :=
  Solver.mk
    (Game.mk (0, 0) [] false
      (Grid.mk [Cell.mk 4 true, Cell.mk 6 true, Cell.mk 7 true, Cell.mk 1 true, Cell.mk 0 false, Cell.mk 0 false, Cell.mk 8 true, Cell.mk 3 false, Cell.mk 5 true, Cell.mk 9 true, Cell.mk 1 true, Cell.mk 2 true, Cell.mk 8 true, Cell.mk 3 true, Cell.mk 5 true, Cell.mk 6 true, Cell.mk 4 false, Cell.mk 7 true, Cell.mk 3 false, Cell.mk 8 true, Cell.mk 5 true, Cell.mk 6 true, Cell.mk 4 true, Cell.mk 7 true, Cell.mk 1 true, Cell.mk 9 true, Cell.mk 2 true, Cell.mk 2 true, Cell.mk 9 true, Cell.mk 6 true, Cell.mk 3 true, Cell.mk 5 true, Cell.mk 1 true, Cell.mk 4 true, Cell.mk 7 true, Cell.mk 8 false, Cell.mk 7 true, Cell.mk 4 false, Cell.mk 8 true, Cell.mk 9 true, Cell.mk 2 true, Cell.mk 6 false, Cell.mk 3 true, Cell.mk 5 true, Cell.mk 1 true, Cell.mk 5 true, Cell.mk 3 true, Cell.mk 1 true, Cell.mk 4 true, Cell.mk 7 false, Cell.mk 8 true, Cell.mk 9 true, Cell.mk 2 true, Cell.mk 6 true, Cell.mk 8 false, Cell.mk 7 true, Cell.mk 3 true, Cell.mk 2 false, Cell.mk 6 true, Cell.mk 4 true, Cell.mk 5 true, Cell.mk 1 true, Cell.mk 9 false, Cell.mk 6 true, Cell.mk 2 true, Cell.mk 4 true, Cell.mk 5 true, Cell.mk 1 true, Cell.mk 9 true, Cell.mk 7 true, Cell.mk 8 true, Cell.mk 3 true, Cell.mk 1 true, Cell.mk 5 true, Cell.mk 9 true, Cell.mk 7 true, Cell.mk 8 true, Cell.mk 3 true, Cell.mk 2 false, Cell.mk 6 true, Cell.mk 4 true] 9 3)
      [Entry.mk (7, 0) 3 2, Entry.mk (7, 0) 2 1, Entry.mk (7, 0) 1 0, Entry.mk (7, 1) 4 3, Entry.mk (7, 1) 3 2, Entry.mk (7, 1) 2 1, Entry.mk (7, 1) 1 0, Entry.mk (0, 2) 3 2, Entry.mk (0, 2) 2 1, Entry.mk (0, 2) 1 0, Entry.mk (8, 3) 8 7, Entry.mk (8, 3) 7 6, Entry.mk (8, 3) 6 5, Entry.mk (8, 3) 5 4, Entry.mk (8, 3) 4 3, Entry.mk (8, 3) 3 2, Entry.mk (8, 3) 2 1, Entry.mk (8, 3) 1 0, Entry.mk (1, 4) 4 3, Entry.mk (1, 4) 3 2, Entry.mk (1, 4) 2 1, Entry.mk (1, 4) 1 0, Entry.mk (5, 4) 6 5, Entry.mk (5, 4) 5 4, Entry.mk (5, 4) 4 3, Entry.mk (5, 4) 3 2, Entry.mk (5, 4) 2 1, Entry.mk (5, 4) 1 0, Entry.mk (4, 5) 7 6, Entry.mk (4, 5) 6 5, Entry.mk (4, 5) 5 4, Entry.mk (4, 5) 4 3, Entry.mk (4, 5) 3 2, Entry.mk (4, 5) 2 1, Entry.mk (4, 5) 1 0, Entry.mk (0, 6) 8 7, Entry.mk (0, 6) 7 6, Entry.mk (0, 6) 6 5, Entry.mk (0, 6) 5 4, Entry.mk (0, 6) 4 3, Entry.mk (0, 6) 3 2, Entry.mk (0, 6) 2 1, Entry.mk (0, 6) 1 0, Entry.mk (3, 6) 2 1, Entry.mk (3, 6) 1 0, Entry.mk (8, 6) 9 8, Entry.mk (8, 6) 8 7, Entry.mk (8, 6) 7 6, Entry.mk (8, 6) 6 5, Entry.mk (8, 6) 5 4, Entry.mk (8, 6) 4 3, Entry.mk (8, 6) 3 2, Entry.mk (8, 6) 2 1, Entry.mk (8, 6) 1 0, Entry.mk (6, 8) 2 1, Entry.mk (6, 8) 1 0])
    [(5, 0), (4, 0)]
    [Entry.mk (7, 0) 3 2, Entry.mk (7, 1) 4 3, Entry.mk (0, 2) 3 2, Entry.mk (8, 3) 8 7, Entry.mk (1, 4) 4 3, Entry.mk (5, 4) 6 5, Entry.mk (4, 5) 7 6, Entry.mk (0, 6) 8 7, Entry.mk (3, 6) 2 1, Entry.mk (8, 6) 9 8, Entry.mk (6, 8) 2 1]

/-- The C3 solver state after 46 calls to `next()`. -/
def c3S46 : Solver :=
  Solver.mk
    (Game.mk (0, 0) [] false
      (Grid.mk [Cell.mk 4 true, Cell.mk 6 true, Cell.mk 7 true, Cell.mk 1 true, Cell.mk 0 false, Cell.mk 2 false, Cell.mk 8 true, Cell.mk 3 false, Cell.mk 5 true, Cell.mk 9 true, Cell.mk 1 true, Cell.mk 2 true, Cell.mk 8 true, Cell.mk 3 true, Cell.mk 5 true, Cell.mk 6 true, Cell.mk 4 false, Cell.mk 7 true, Cell.mk 3 false, Cell.mk 8 true, Cell.mk 5 true, Cell.mk 6 true, Cell.mk 4 true, Cell.mk 7 true, Cell.mk 1 true, Cell.mk 9 true, Cell.mk 2 true, Cell.mk 2 true, Cell.mk 9 true, Cell.mk 6 true, Cell.mk 3 true, Cell.mk 5 true, Cell.mk 1 true, Cell.mk 4 true, Cell.mk 7 true, Cell.mk 8 false, Cell.mk 7 true, Cell.mk 4 false, Cell.mk 8 true, Cell.mk 9 true, Cell.mk 2 true, Cell.mk 6 false, Cell.mk 3 true, Cell.mk 5 true, Cell.mk 1 true, Cell.mk 5 true, Cell.mk 3 true, Cell.mk 1 true, Cell.mk 4 true, Cell.mk 7 false, Cell.mk 8 true, Cell.mk 9 true, Cell.mk 2 true, Cell.mk 6 true, Cell.mk 8 false, Cell.mk 7 true, Cell.mk 3 true, Cell.mk 2 false, Cell.mk 6 true, Cell.mk 4 true, Cell.mk 5 true, Cell.mk 1 true, Cell.mk 9 false, Cell.mk 6 true, Cell.mk 2 true, Cell.mk 4 true, Cell.mk 5 true, Cell.mk 1 true, Cell.mk 9 true, Cell.mk 7 true, Cell.mk 8 true, Cell.mk 3 true, Cell.mk 1 true, Cell.mk 5 true, Cell.mk 9 true, Cell.mk 7 true, Cell.mk 8 true, Cell.mk 3 true, Cell.mk 2 false, Cell.mk 6 true, Cell.mk 4 true] 9 3)
      [Entry.mk (5, 0) 2 1, Entry.mk (5, 0) 1 0, Entry.mk (7, 0) 3 2, Entry.mk (7, 0) 2 1, Entry.mk (7, 0) 1 0, Entry.mk (7, 1) 4 3, Entry.mk (7, 1) 3 2, Entry.mk (7, 1) 2 1, Entry.mk (7, 1) 1 0, Entry.mk (0, 2) 3 2, Entry.mk (0, 2) 2 1, Entry.mk (0, 2) 1 0, Entry.mk (8, 3) 8 7, Entry.mk (8, 3) 7 6, Entry.mk (8, 3) 6 5, Entry.mk (8, 3) 5 4, Entry.mk (8, 3) 4 3, Entry.mk (8, 3) 3 2, Entry.mk (8, 3) 2 1, Entry.mk (8, 3) 1 0, Entry.mk (1, 4) 4 3, Entry.mk (1, 4) 3 2, Entry.mk (1, 4) 2 1, Entry.mk (1, 4) 1 0, Entry.mk (5, 4) 6 5, Entry.mk (5, 4) 5 4, Entry.mk (5, 4) 4 3, Entry.mk (5, 4) 3 2, Entry.mk (5, 4) 2 1, Entry.mk (5, 4) 1 0, Entry.mk (4, 5) 7 6, Entry.mk (4, 5) 6 5, Entry.mk (4, 5) 5 4, Entry.mk (4, 5) 4 3, Entry.mk (4, 5) 3 2, Entry.mk (4, 5) 2 1, Entry.mk (4, 5) 1 0, Entry.mk (0, 6) 8 7, Entry.mk (0, 6) 7 6, Entry.mk (0, 6) 6 5, Entry.mk (0, 6) 5 4, Entry.mk (0, 6) 4 3, Entry.mk (0, 6) 3 2, Entry.mk (0, 6) 2 1, Entry.mk (0, 6) 1 0, Entry.mk (3, 6) 2 1, Entry.mk (3, 6) 1 0, Entry.mk (8, 6) 9 8, Entry.mk (8, 6) 8 7, Entry.mk (8, 6) 7 6, Entry.mk (8, 6) 6 5, Entry.mk (8, 6) 5 4, Entry.mk (8, 6) 4 3, Entry.mk (8, 6) 3 2, Entry.mk (8, 6) 2 1, Entry.mk (8, 6) 1 0, Entry.mk (6, 8) 2 1, Entry.mk (6, 8) 1 0])
    [(4, 0)]
    [Entry.mk (5, 0) 2 1, Entry.mk (7, 0) 3 2, Entry.mk (7, 1) 4 3, Entry.mk (0, 2) 3 2, Entry.mk (8, 3) 8 7, Entry.mk (1, 4) 4 3, Entry.mk (5, 4) 6 5, Entry.mk (4, 5) 7 6, Entry.mk (0, 6) 8 7, Entry.mk (3, 6) 2 1, Entry.mk (8, 6) 9 8, Entry.mk (6, 8) 2 1]

/-- The C3 solver state after 47 calls to `next()`. -/
def c3S47 : Solver :=
  Solver.mk
    (Game.mk (0, 0) [.Row 0, .Square 1 0, .Column 4] true
      (Grid.mk [Cell.mk 4 true, Cell.mk 6 true, Cell.mk 7 true, Cell.mk 1 true, Cell.mk 2 false, Cell.mk 2 false, Cell.mk 8 true, Cell.mk 3 false, Cell.mk 5 true, Cell.mk 9 true, Cell.mk 1 true, Cell.mk 2 true, Cell.mk 8 true, Cell.mk 3 true, Cell.mk 5 true, Cell.mk 6 true, Cell.mk 4 false, Cell.mk 7 true, Cell.mk 3 false, Cell.mk 8 true, Cell.mk 5 true, Cell.mk 6 true, Cell.mk 4 true, Cell.mk 7 true, Cell.mk 1 true, Cell.mk 9 true, Cell.mk 2 true, Cell.mk 2 true, Cell.mk 9 true, Cell.mk 6 true, Cell.mk 3 true, Cell.mk 5 true, Cell.mk 1 true, Cell.mk 4 true, Cell.mk 7 true, Cell.mk 8 false, Cell.mk 7 true, Cell.mk 4 false, Cell.mk 8 true, Cell.mk 9 true, Cell.mk 2 true, Cell.mk 6 false, Cell.mk 3 true, Cell.mk 5 true, Cell.mk 1 true, Cell.mk 5 true, Cell.mk 3 true, Cell.mk 1 true, Cell.mk 4 true, Cell.mk 7 false, Cell.mk 8 true, Cell.mk 9 true, Cell.mk 2 true, Cell.mk 6 true, Cell.mk 8 false, Cell.mk 7 true, Cell.mk 3 true, Cell.mk 2 false, Cell.mk 6 true, Cell.mk 4 true, Cell.mk 5 true, Cell.mk 1 true, Cell.mk 9 false, Cell.mk 6 true, Cell.mk 2 true, Cell.mk 4 true, Cell.mk 5 true, Cell.mk 1 true, Cell.mk 9 true, Cell.mk 7 true, Cell.mk 8 true, Cell.mk 3 true, Cell.mk 1 true, Cell.mk 5 true, Cell.mk 9 true, Cell.mk 7 true, Cell.mk 8 true, Cell.mk 3 true, Cell.mk 2 false, Cell.mk 6 true, Cell.mk 4 true] 9 3)
      [Entry.mk (4, 0) 2 1, Entry.mk (4, 0) 1 0, Entry.mk (5, 0) 2 1, Entry.mk (5, 0) 1 0, Entry.mk (7, 0) 3 2, Entry.mk (7, 0) 2 1, Entry.mk (7, 0) 1 0, Entry.mk (7, 1) 4 3, Entry.mk (7, 1) 3 2, Entry.mk (7, 1) 2 1, Entry.mk (7, 1) 1 0, Entry.mk (0, 2) 3 2, Entry.mk (0, 2) 2 1, Entry.mk (0, 2) 1 0, Entry.mk (8, 3) 8 7, Entry.mk (8, 3) 7 6, Entry.mk (8, 3) 6 5, Entry.mk (8, 3) 5 4, Entry.mk (8, 3) 4 3, Entry.mk (8, 3) 3 2, Entry.mk (8, 3) 2 1, Entry.mk (8, 3) 1 0, Entry.mk (1, 4) 4 3, Entry.mk (1, 4) 3 2, Entry.mk (1, 4) 2 1, Entry.mk (1, 4) 1 0, Entry.mk (5, 4) 6 5, Entry.mk (5, 4) 5 4, Entry.mk (5, 4) 4 3, Entry.mk (5, 4) 3 2, Entry.mk (5, 4) 2 1, Entry.mk (5, 4) 1 0, Entry.mk (4, 5) 7 6, Entry.mk (4, 5) 6 5, Entry.mk (4, 5) 5 4, Entry.mk (4, 5) 4 3, Entry.mk (4, 5) 3 2, Entry.mk (4, 5) 2 1, Entry.mk (4, 5) 1 0, Entry.mk (0, 6) 8 7, Entry.mk (0, 6) 7 6, Entry.mk (0, 6) 6 5, Entry.mk (0, 6) 5 4, Entry.mk (0, 6) 4 3, Entry.mk (0, 6) 3 2, Entry.mk (0, 6) 2 1, Entry.mk (0, 6) 1 0, Entry.mk (3, 6) 2 1, Entry.mk (3, 6) 1 0, Entry.mk (8, 6) 9 8, Entry.mk (8, 6) 8 7, Entry.mk (8, 6) 7 6, Entry.mk (8, 6) 6 5, Entry.mk (8, 6) 5 4, Entry.mk (8, 6) 4 3, Entry.mk (8, 6) 3 2, Entry.mk (8, 6) 2 1, Entry.mk (8, 6) 1 0, Entry.mk (6, 8) 2 1, Entry.mk (6, 8) 1 0])
    []
    [Entry.mk (4, 0) 2 1, Entry.mk (5, 0) 2 1, Entry.mk (7, 0) 3 2, Entry.mk (7, 1) 4 3, Entry.mk (0, 2) 3 2, Entry.mk (8, 3) 8 7, Entry.mk (1, 4) 4 3, Entry.mk (5, 4) 6 5, Entry.mk (4, 5) 7 6, Entry.mk (0, 6) 8 7, Entry.mk (3, 6) 2 1, Entry.mk (8, 6) 9 8, Entry.mk (6, 8) 2 1]

/-- The C3 solver state after 48 calls to `next()`. -/
def c3S48 : Solver :=
  Solver.mk
    (Game.mk (0, 0) [.Row 0, .Square 1 0, .Column 4] true
      (Grid.mk [Cell.mk 4 true, Cell.mk 6 true, Cell.mk 7 true, Cell.mk 1 true, Cell.mk 3 false, Cell.mk 2 false, Cell.mk 8 true, Cell.mk 3 false, Cell.mk 5 true, Cell.mk 9 true, Cell.mk 1 true, Cell.mk 2 true, Cell.mk 8 true, Cell.mk 3 true, Cell.mk 5 true, Cell.mk 6 true, Cell.mk 4 false, Cell.mk 7 true, Cell.mk 3 false, Cell.mk 8 true, Cell.mk 5 true, Cell.mk 6 true, Cell.mk 4 true, Cell.mk 7 true, Cell.mk 1 true, Cell.mk 9 true, Cell.mk 2 true, Cell.mk 2 true, Cell.mk 9 true, Cell.mk 6 true, Cell.mk 3 true, Cell.mk 5 true, Cell.mk 1 true, Cell.mk 4 true, Cell.mk 7 true, Cell.mk 8 false, Cell.mk 7 true, Cell.mk 4 false, Cell.mk 8 true, Cell.mk 9 true, Cell.mk 2 true, Cell.mk 6 false, Cell.mk 3 true, Cell.mk 5 true, Cell.mk 1 true, Cell.mk 5 true, Cell.mk 3 true, Cell.mk 1 true, Cell.mk 4 true, Cell.mk 7 false, Cell.mk 8 true, Cell.mk 9 true, Cell.mk 2 true, Cell.mk 6 true, Cell.mk 8 false, Cell.mk 7 true, Cell.mk 3 true, Cell.mk 2 false, Cell.mk 6 true, Cell.mk 4 true, Cell.mk 5 true, Cell.mk 1 true, Cell.mk 9 false, Cell.mk 6 true, Cell.mk 2 true, Cell.mk 4 true, Cell.mk 5 true, Cell.mk 1 true, Cell.mk 9 true, Cell.mk 7 true, Cell.mk 8 true, Cell.mk 3 true, Cell.mk 1 true, Cell.mk 5 true, Cell.mk 9 true, Cell.mk 7 true, Cell.mk 8 true, Cell.mk 3 true, Cell.mk 2 false, Cell.mk 6 true, Cell.mk 4 true] 9 3)
      [Entry.mk (4, 0) 3 2, Entry.mk (4, 0) 2 1, Entry.mk (4, 0) 1 0, Entry.mk (5, 0) 2 1, Entry.mk (5, 0) 1 0, Entry.mk (7, 0) 3 2, Entry.mk (7, 0) 2 1, Entry.mk (7, 0) 1 0, Entry.mk (7, 1) 4 3, Entry.mk (7, 1) 3 2, Entry.mk (7, 1) 2 1, Entry.mk (7, 1) 1 0, Entry.mk (0, 2) 3 2, Entry.mk (0, 2) 2 1, Entry.mk (0, 2) 1 0, Entry.mk (8, 3) 8 7, Entry.mk (8, 3) 7 6, Entry.mk (8, 3) 6 5, Entry.mk (8, 3) 5 4, Entry.mk (8, 3) 4 3, Entry.mk (8, 3) 3 2, Entry.mk (8, 3) 2 1, Entry.mk (8, 3) 1 0, Entry.mk (1, 4) 4 3, Entry.mk (1, 4) 3 2, Entry.mk (1, 4) 2 1, Entry.mk (1, 4) 1 0, Entry.mk (5, 4) 6 5, Entry.mk (5, 4) 5 4, Entry.mk (5, 4) 4 3, Entry.mk (5, 4) 3 2, Entry.mk (5, 4) 2 1, Entry.mk (5, 4) 1 0, Entry.mk (4, 5) 7 6, Entry.mk (4, 5) 6 5, Entry.mk (4, 5) 5 4, Entry.mk (4, 5) 4 3, Entry.mk (4, 5) 3 2, Entry.mk (4, 5) 2 1, Entry.mk (4, 5) 1 0, Entry.mk (0, 6) 8 7, Entry.mk (0, 6) 7 6, Entry.mk (0, 6) 6 5, Entry.mk (0, 6) 5 4, Entry.mk (0, 6) 4 3, Entry.mk (0, 6) 3 2, Entry.mk (0, 6) 2 1, Entry.mk (0, 6) 1 0, Entry.mk (3, 6) 2 1, Entry.mk (3, 6) 1 0, Entry.mk (8, 6) 9 8, Entry.mk (8, 6) 8 7, Entry.mk (8, 6) 7 6, Entry.mk (8, 6) 6 5, Entry.mk (8, 6) 5 4, Entry.mk (8, 6) 4 3, Entry.mk (8, 6) 3 2, Entry.mk (8, 6) 2 1, Entry.mk (8, 6) 1 0, Entry.mk (6, 8) 2 1, Entry.mk (6, 8) 1 0])
    []
    [Entry.mk (4, 0) 3 2, Entry.mk (5, 0) 2 1, Entry.mk (7, 0) 3 2, Entry.mk (7, 1) 4 3, Entry.mk (0, 2) 3 2, Entry.mk (8, 3) 8 7, Entry.mk (1, 4) 4 3, Entry.mk (5, 4) 6 5, Entry.mk (4, 5) 7 6, Entry.mk (0, 6) 8 7, Entry.mk (3, 6) 2 1, Entry.mk (8, 6) 9 8, Entry.mk (6, 8) 2 1]

/-- The C3 solver state after 49 calls to `next()`. -/
def c3S49 : Solver :=
  Solver.mk
    (Game.mk (0, 0) [.Row 0, .Square 1 0, .Column 4] true
      (Grid.mk [Cell.mk 4 true, Cell.mk 6 true, Cell.mk 7 true, Cell.mk 1 true, Cell.mk 4 false, Cell.mk 2 false, Cell.mk 8 true, Cell.mk 3 false, Cell.mk 5 true, Cell.mk 9 true, Cell.mk 1 true, Cell.mk 2 true, Cell.mk 8 true, Cell.mk 3 true, Cell.mk 5 true, Cell.mk 6 true, Cell.mk 4 false, Cell.mk 7 true, Cell.mk 3 false, Cell.mk 8 true, Cell.mk 5 true, Cell.mk 6 true, Cell.mk 4 true, Cell.mk 7 true, Cell.mk 1 true, Cell.mk 9 true, Cell.mk 2 true, Cell.mk 2 true, Cell.mk 9 true, Cell.mk 6 true, Cell.mk 3 true, Cell.mk 5 true, Cell.mk 1 true, Cell.mk 4 true, Cell.mk 7 true, Cell.mk 8 false, Cell.mk 7 true, Cell.mk 4 false, Cell.mk 8 true, Cell.mk 9 true, Cell.mk 2 true, Cell.mk 6 false, Cell.mk 3 true, Cell.mk 5 true, Cell.mk 1 true, Cell.mk 5 true, Cell.mk 3 true, Cell.mk 1 true, Cell.mk 4 true, Cell.mk 7 false, Cell.mk 8 true, Cell.mk 9 true, Cell.mk 2 true, Cell.mk 6 true, Cell.mk 8 false, Cell.mk 7 true, Cell.mk 3 true, Cell.mk 2 false, Cell.mk 6 true, Cell.mk 4 true, Cell.mk 5 true, Cell.mk 1 true, Cell.mk 9 false, Cell.mk 6 true, Cell.mk 2 true, Cell.mk 4 true, Cell.mk 5 true, Cell.mk 1 true, Cell.mk 9 true, Cell.mk 7 true, Cell.mk 8 true, Cell.mk 3 true, Cell.mk 1 true, Cell.mk 5 true, Cell.mk 9 true, Cell.mk 7 true, Cell.mk 8 true, Cell.mk 3 true, Cell.mk 2 false, Cell.mk 6 true, Cell.mk 4 true] 9 3)
      [Entry.mk (4, 0) 4 3, Entry.mk (4, 0) 3 2, Entry.mk (4, 0) 2 1, Entry.mk (4, 0) 1 0, Entry.mk (5, 0) 2 1, Entry.mk (5, 0) 1 0, Entry.mk (7, 0) 3 2, Entry.mk (7, 0) 2 1, Entry.mk (7, 0) 1 0, Entry.mk (7, 1) 4 3, Entry.mk (7, 1) 3 2, Entry.mk (7, 1) 2 1, Entry.mk (7, 1) 1 0, Entry.mk (0, 2) 3 2, Entry.mk (0, 2) 2 1, Entry.mk (0, 2) 1 0, Entry.mk (8, 3) 8 7, Entry.mk (8, 3) 7 6, Entry.mk (8, 3) 6 5, Entry.mk (8, 3) 5 4, Entry.mk (8, 3) 4 3, Entry.mk (8, 3) 3 2, Entry.mk (8, 3) 2 1, Entry.mk (8, 3) 1 0, Entry.mk (1, 4) 4 3, Entry.mk (1, 4) 3 2, Entry.mk (1, 4) 2 1, Entry.mk (1, 4) 1 0, Entry.mk (5, 4) 6 5, Entry.mk (5, 4) 5 4, Entry.mk (5, 4) 4 3, Entry.mk (5, 4) 3 2, Entry.mk (5, 4) 2 1, Entry.mk (5, 4) 1 0, Entry.mk (4, 5) 7 6, Entry.mk (4, 5) 6 5, Entry.mk (4, 5) 5 4, Entry.mk (4, 5) 4 3, Entry.mk (4, 5) 3 2, Entry.mk (4, 5) 2 1, Entry.mk (4, 5) 1 0, Entry.mk (0, 6) 8 7, Entry.mk (0, 6) 7 6, Entry.mk (0, 6) 6 5, Entry.mk (0, 6) 5 4, Entry.mk (0, 6) 4 3, Entry.mk (0, 6) 3 2, Entry.mk (0, 6) 2 1, Entry.mk (0, 6) 1 0, Entry.mk (3, 6) 2 1, Entry.mk (3, 6) 1 0, Entry.mk (8, 6) 9 8, Entry.mk (8, 6) 8 7, Entry.mk (8, 6) 7 6, Entry.mk (8, 6) 6 5, Entry.mk (8, 6) 5 4, Entry.mk (8, 6) 4 3, Entry.mk (8, 6) 3 2, Entry.mk (8, 6) 2 1, Entry.mk (8, 6) 1 0, Entry.mk (6, 8) 2 1, Entry.mk (6, 8) 1 0])
    []
    [Entry.mk (4, 0) 4 3, Entry.mk (5, 0) 2 1, Entry.mk (7, 0) 3 2, Entry.mk (7, 1) 4 3, Entry.mk (0, 2) 3 2, Entry.mk (8, 3) 8 7, Entry.mk (1, 4) 4 3, Entry.mk (5, 4) 6 5, Entry.mk (4, 5) 7 6, Entry.mk (0, 6) 8 7, Entry.mk (3, 6) 2 1, Entry.mk (8, 6) 9 8, Entry.mk (6, 8) 2 1]

/-- The C3 solver state after 50 calls to `next()`. -/
def c3S50 : Solver :=
  Solver.mk
    (Game.mk (0, 0) [.Row 0, .Square 1 0, .Column 4] true
      (Grid.mk [Cell.mk 4 true, Cell.mk 6 true, Cell.mk 7 true, Cell.mk 1 true, Cell.mk 5 false, Cell.mk 2 false, Cell.mk 8 true, Cell.mk 3 false, Cell.mk 5 true, Cell.mk 9 true, Cell.mk 1 true, Cell.mk 2 true, Cell.mk 8 true, Cell.mk 3 true, Cell.mk 5 true, Cell.mk 6 true, Cell.mk 4 false, Cell.mk 7 true, Cell.mk 3 false, Cell.mk 8 true, Cell.mk 5 true, Cell.mk 6 true, Cell.mk 4 true, Cell.mk 7 true, Cell.mk 1 true, Cell.mk 9 true, Cell.mk 2 true, Cell.mk 2 true, Cell.mk 9 true, Cell.mk 6 true, Cell.mk 3 true, Cell.mk 5 true, Cell.mk 1 true, Cell.mk 4 true, Cell.mk 7 true, Cell.mk 8 false, Cell.mk 7 true, Cell.mk 4 false, Cell.mk 8 true, Cell.mk 9 true, Cell.mk 2 true, Cell.mk 6 false, Cell.mk 3 true, Cell.mk 5 true, Cell.mk 1 true, Cell.mk 5 true, Cell.mk 3 true, Cell.mk 1 true, Cell.mk 4 true, Cell.mk 7 false, Cell.mk 8 true, Cell.mk 9 true, Cell.mk 2 true, Cell.mk 6 true, Cell.mk 8 false, Cell.mk 7 true, Cell.mk 3 true, Cell.mk 2 false, Cell.mk 6 true, Cell.mk 4 true, Cell.mk 5 true, Cell.mk 1 true, Cell.mk 9 false, Cell.mk 6 true, Cell.mk 2 true, Cell.mk 4 true, Cell.mk 5 true, Cell.mk 1 true, Cell.mk 9 true, Cell.mk 7 true, Cell.mk 8 true, Cell.mk 3 true, Cell.mk 1 true, Cell.mk 5 true, Cell.mk 9 true, Cell.mk 7 true, Cell.mk 8 true, Cell.mk 3 true, Cell.mk 2 false, Cell.mk 6 true, Cell.mk 4 true] 9 3)
      [Entry.mk (4, 0) 5 4, Entry.mk (4, 0) 4 3, Entry.mk (4, 0) 3 2, Entry.mk (4, 0) 2 1, Entry.mk (4, 0) 1 0, Entry.mk (5, 0) 2 1, Entry.mk (5, 0) 1 0, Entry.mk (7, 0) 3 2, Entry.mk (7, 0) 2 1, Entry.mk (7, 0) 1 0, Entry.mk (7, 1) 4 3, Entry.mk (7, 1) 3 2, Entry.mk (7, 1) 2 1, Entry.mk (7, 1) 1 0, Entry.mk (0, 2) 3 2, Entry.mk (0, 2) 2 1, Entry.mk (0, 2) 1 0, Entry.mk (8, 3) 8 7, Entry.mk (8, 3) 7 6, Entry.mk (8, 3) 6 5, Entry.mk (8, 3) 5 4, Entry.mk (8, 3) 4 3, Entry.mk (8, 3) 3 2, Entry.mk (8, 3) 2 1, Entry.mk (8, 3) 1 0, Entry.mk (1, 4) 4 3, Entry.mk (1, 4) 3 2, Entry.mk (1, 4) 2 1, Entry.mk (1, 4) 1 0, Entry.mk (5, 4) 6 5, Entry.mk (5, 4) 5 4, Entry.mk (5, 4) 4 3, Entry.mk (5, 4) 3 2, Entry.mk (5, 4) 2 1, Entry.mk (5, 4) 1 0, Entry.mk (4, 5) 7 6, Entry.mk (4, 5) 6 5, Entry.mk (4, 5) 5 4, Entry.mk (4, 5) 4 3, Entry.mk (4, 5) 3 2, Entry.mk (4, 5) 2 1, Entry.mk (4, 5) 1 0, Entry.mk (0, 6) 8 7, Entry.mk (0, 6) 7 6, Entry.mk (0, 6) 6 5, Entry.mk (0, 6) 5 4, Entry.mk (0, 6) 4 3, Entry.mk (0, 6) 3 2, Entry.mk (0, 6) 2 1, Entry.mk (0, 6) 1 0, Entry.mk (3, 6) 2 1, Entry.mk (3, 6) 1 0, Entry.mk (8, 6) 9 8, Entry.mk (8, 6) 8 7, Entry.mk (8, 6) 7 6, Entry.mk (8, 6) 6 5, Entry.mk (8, 6) 5 4, Entry.mk (8, 6) 4 3, Entry.mk (8, 6) 3 2, Entry.mk (8, 6) 2 1, Entry.mk (8, 6) 1 0, Entry.mk (6, 8) 2 1, Entry.mk (6, 8) 1 0])
    []
    [Entry.mk (4, 0) 5 4, Entry.mk (5, 0) 2 1, Entry.mk (7, 0) 3 2, Entry.mk (7, 1) 4 3, Entry.mk (0, 2) 3 2, Entry.mk (8, 3) 8 7, Entry.mk (1, 4) 4 3, Entry.mk (5, 4) 6 5, Entry.mk (4, 5) 7 6, Entry.mk (0, 6) 8 7, Entry.mk (3, 6) 2 1, Entry.mk (8, 6) 9 8, Entry.mk (6, 8) 2 1]

/-- The C3 solver state after 51 calls to `next()`. -/
def c3S51 : Solver :=
  Solver.mk
    (Game.mk (0, 0) [.Row 0, .Square 1 0, .Column 4] true
      (Grid.mk [Cell.mk 4 true, Cell.mk 6 true, Cell.mk 7 true, Cell.mk 1 true, Cell.mk 6 false, Cell.mk 2 false, Cell.mk 8 true, Cell.mk 3 false, Cell.mk 5 true, Cell.mk 9 true, Cell.mk 1 true, Cell.mk 2 true, Cell.mk 8 true, Cell.mk 3 true, Cell.mk 5 true, Cell.mk 6 true, Cell.mk 4 false, Cell.mk 7 true, Cell.mk 3 false, Cell.mk 8 true, Cell.mk 5 true, Cell.mk 6 true, Cell.mk 4 true, Cell.mk 7 true, Cell.mk 1 true, Cell.mk 9 true, Cell.mk 2 true, Cell.mk 2 true, Cell.mk 9 true, Cell.mk 6 true, Cell.mk 3 true, Cell.mk 5 true, Cell.mk 1 true, Cell.mk 4 true, Cell.mk 7 true, Cell.mk 8 false, Cell.mk 7 true, Cell.mk 4 false, Cell.mk 8 true, Cell.mk 9 true, Cell.mk 2 true, Cell.mk 6 false, Cell.mk 3 true, Cell.mk 5 true, Cell.mk 1 true, Cell.mk 5 true, Cell.mk 3 true, Cell.mk 1 true, Cell.mk 4 true, Cell.mk 7 false, Cell.mk 8 true, Cell.mk 9 true, Cell.mk 2 true, Cell.mk 6 true, Cell.mk 8 false, Cell.mk 7 true, Cell.mk 3 true, Cell.mk 2 false, Cell.mk 6 true, Cell.mk 4 true, Cell.mk 5 true, Cell.mk 1 true, Cell.mk 9 false, Cell.mk 6 true, Cell.mk 2 true, Cell.mk 4 true, Cell.mk 5 true, Cell.mk 1 true, Cell.mk 9 true, Cell.mk 7 true, Cell.mk 8 true, Cell.mk 3 true, Cell.mk 1 true, Cell.mk 5 true, Cell.mk 9 true, Cell.mk 7 true, Cell.mk 8 true, Cell.mk 3 true, Cell.mk 2 false, Cell.mk 6 true, Cell.mk 4 true] 9 3)
      [Entry.mk (4, 0) 6 5, Entry.mk (4, 0) 5 4, Entry.mk (4, 0) 4 3, Entry.mk (4, 0) 3 2, Entry.mk (4, 0) 2 1, Entry.mk (4, 0) 1 0, Entry.mk (5, 0) 2 1, Entry.mk (5, 0) 1 0, Entry.mk (7, 0) 3 2, Entry.mk (7, 0) 2 1, Entry.mk (7, 0) 1 0, Entry.mk (7, 1) 4 3, Entry.mk (7, 1) 3 2, Entry.mk (7, 1) 2 1, Entry.mk (7, 1) 1 0, Entry.mk (0, 2) 3 2, Entry.mk (0, 2) 2 1, Entry.mk (0, 2) 1 0, Entry.mk (8, 3) 8 7, Entry.mk (8, 3) 7 6, Entry.mk (8, 3) 6 5, Entry.mk (8, 3) 5 4, Entry.mk (8, 3) 4 3, Entry.mk (8, 3) 3 2, Entry.mk (8, 3) 2 1, Entry.mk (8, 3) 1 0, Entry.mk (1, 4) 4 3, Entry.mk (1, 4) 3 2, Entry.mk (1, 4) 2 1, Entry.mk (1, 4) 1 0, Entry.mk (5, 4) 6 5, Entry.mk (5, 4) 5 4, Entry.mk (5, 4) 4 3, Entry.mk (5, 4) 3 2, Entry.mk (5, 4) 2 1, Entry.mk (5, 4) 1 0, Entry.mk (4, 5) 7 6, Entry.mk (4, 5) 6 5, Entry.mk (4, 5) 5 4, Entry.mk (4, 5) 4 3, Entry.mk (4, 5) 3 2, Entry.mk (4, 5) 2 1, Entry.mk (4, 5) 1 0, Entry.mk (0, 6) 8 7, Entry.mk (0, 6) 7 6, Entry.mk (0, 6) 6 5, Entry.mk (0, 6) 5 4, Entry.mk (0, 6) 4 3, Entry.mk (0, 6) 3 2, Entry.mk (0, 6) 2 1, Entry.mk (0, 6) 1 0, Entry.mk (3, 6) 2 1, Entry.mk (3, 6) 1 0, Entry.mk (8, 6) 9 8, Entry.mk (8, 6) 8 7, Entry.mk (8, 6) 7 6, Entry.mk (8, 6) 6 5, Entry.mk (8, 6) 5 4, Entry.mk (8, 6) 4 3, Entry.mk (8, 6) 3 2, Entry.mk (8, 6) 2 1, Entry.mk (8, 6) 1 0, Entry.mk (6, 8) 2 1, Entry.mk (6, 8) 1 0])
    []
    [Entry.mk (4, 0) 6 5, Entry.mk (5, 0) 2 1, Entry.mk (7, 0) 3 2, Entry.mk (7, 1) 4 3, Entry.mk (0, 2) 3 2, Entry.mk (8, 3) 8 7, Entry.mk (1, 4) 4 3, Entry.mk (5, 4) 6 5, Entry.mk (4, 5) 7 6, Entry.mk (0, 6) 8 7, Entry.mk (3, 6) 2 1, Entry.mk (8, 6) 9 8, Entry.mk (6, 8) 2 1]

/-- The C3 solver state after 52 calls to `next()`. -/
def c3S52 : Solver :=
  Solver.mk
    (Game.mk (0, 0) [.Row 0, .Square 1 0, .Column 4] true
      (Grid.mk [Cell.mk 4 true, Cell.mk 6 true, Cell.mk 7 true, Cell.mk 1 true, Cell.mk 7 false, Cell.mk 2 false, Cell.mk 8 true, Cell.mk 3 false, Cell.mk 5 true, Cell.mk 9 true, Cell.mk 1 true, Cell.mk 2 true, Cell.mk 8 true, Cell.mk 3 true, Cell.mk 5 true, Cell.mk 6 true, Cell.mk 4 false, Cell.mk 7 true, Cell.mk 3 false, Cell.mk 8 true, Cell.mk 5 true, Cell.mk 6 true, Cell.mk 4 true, Cell.mk 7 true, Cell.mk 1 true, Cell.mk 9 true, Cell.mk 2 true, Cell.mk 2 true, Cell.mk 9 true, Cell.mk 6 true, Cell.mk 3 true, Cell.mk 5 true, Cell.mk 1 true, Cell.mk 4 true, Cell.mk 7 true, Cell.mk 8 false, Cell.mk 7 true, Cell.mk 4 false, Cell.mk 8 true, Cell.mk 9 true, Cell.mk 2 true, Cell.mk 6 false, Cell.mk 3 true, Cell.mk 5 true, Cell.mk 1 true, Cell.mk 5 true, Cell.mk 3 true, Cell.mk 1 true, Cell.mk 4 true, Cell.mk 7 false, Cell.mk 8 true, Cell.mk 9 true, Cell.mk 2 true, Cell.mk 6 true, Cell.mk 8 false, Cell.mk 7 true, Cell.mk 3 true, Cell.mk 2 false, Cell.mk 6 true, Cell.mk 4 true, Cell.mk 5 true, Cell.mk 1 true, Cell.mk 9 false, Cell.mk 6 true, Cell.mk 2 true, Cell.mk 4 true, Cell.mk 5 true, Cell.mk 1 true, Cell.mk 9 true, Cell.mk 7 true, Cell.mk 8 true, Cell.mk 3 true, Cell.mk 1 true, Cell.mk 5 true, Cell.mk 9 true, Cell.mk 7 true, Cell.mk 8 true, Cell.mk 3 true, Cell.mk 2 false, Cell.mk 6 true, Cell.mk 4 true] 9 3)
      [Entry.mk (4, 0) 7 6, Entry.mk (4, 0) 6 5, Entry.mk (4, 0) 5 4, Entry.mk (4, 0) 4 3, Entry.mk (4, 0) 3 2, Entry.mk (4, 0) 2 1, Entry.mk (4, 0) 1 0, Entry.mk (5, 0) 2 1, Entry.mk (5, 0) 1 0, Entry.mk (7, 0) 3 2, Entry.mk (7, 0) 2 1, Entry.mk (7, 0) 1 0, Entry.mk (7, 1) 4 3, Entry.mk (7, 1) 3 2, Entry.mk (7, 1) 2 1, Entry.mk (7, 1) 1 0, Entry.mk (0, 2) 3 2, Entry.mk (0, 2) 2 1, Entry.mk (0, 2) 1 0, Entry.mk (8, 3) 8 7, Entry.mk (8, 3) 7 6, Entry.mk (8, 3) 6 5, Entry.mk (8, 3) 5 4, Entry.mk (8, 3) 4 3, Entry.mk (8, 3) 3 2, Entry.mk (8, 3) 2 1, Entry.mk (8, 3) 1 0, Entry.mk (1, 4) 4 3, Entry.mk (1, 4) 3 2, Entry.mk (1, 4) 2 1, Entry.mk (1, 4) 1 0, Entry.mk (5, 4) 6 5, Entry.mk (5, 4) 5 4, Entry.mk (5, 4) 4 3, Entry.mk (5, 4) 3 2, Entry.mk (5, 4) 2 1, Entry.mk (5, 4) 1 0, Entry.mk (4, 5) 7 6, Entry.mk (4, 5) 6 5, Entry.mk (4, 5) 5 4, Entry.mk (4, 5) 4 3, Entry.mk (4, 5) 3 2, Entry.mk (4, 5) 2 1, Entry.mk (4, 5) 1 0, Entry.mk (0, 6) 8 7, Entry.mk (0, 6) 7 6, Entry.mk (0, 6) 6 5, Entry.mk (0, 6) 5 4, Entry.mk (0, 6) 4 3, Entry.mk (0, 6) 3 2, Entry.mk (0, 6) 2 1, Entry.mk (0, 6) 1 0, Entry.mk (3, 6) 2 1, Entry.mk (3, 6) 1 0, Entry.mk (8, 6) 9 8, Entry.mk (8, 6) 8 7, Entry.mk (8, 6) 7 6, Entry.mk (8, 6) 6 5, Entry.mk (8, 6) 5 4, Entry.mk (8, 6) 4 3, Entry.mk (8, 6) 3 2, Entry.mk (8, 6) 2 1, Entry.mk (8, 6) 1 0, Entry.mk (6, 8) 2 1, Entry.mk (6, 8) 1 0])
    []
    [Entry.mk (4, 0) 7 6, Entry.mk (5, 0) 2 1, Entry.mk (7, 0) 3 2, Entry.mk (7, 1) 4 3, Entry.mk (0, 2) 3 2, Entry.mk (8, 3) 8 7, Entry.mk (1, 4) 4 3, Entry.mk (5, 4) 6 5, Entry.mk (4, 5) 7 6, Entry.mk (0, 6) 8 7, Entry.mk (3, 6) 2 1, Entry.mk (8, 6) 9 8, Entry.mk (6, 8) 2 1]

/-- The C3 solver state after 53 calls to `next()`. -/
def c3S53 : Solver :=
  Solver.mk
    (Game.mk (0, 0) [.Row 0, .Square 1 0, .Column 4] true
      (Grid.mk [Cell.mk 4 true, Cell.mk 6 true, Cell.mk 7 true, Cell.mk 1 true, Cell.mk 8 false, Cell.mk 2 false, Cell.mk 8 true, Cell.mk 3 false, Cell.mk 5 true, Cell.mk 9 true, Cell.mk 1 true, Cell.mk 2 true, Cell.mk 8 true, Cell.mk 3 true, Cell.mk 5 true, Cell.mk 6 true, Cell.mk 4 false, Cell.mk 7 true, Cell.mk 3 false, Cell.mk 8 true, Cell.mk 5 true, Cell.mk 6 true, Cell.mk 4 true, Cell.mk 7 true, Cell.mk 1 true, Cell.mk 9 true, Cell.mk 2 true, Cell.mk 2 true, Cell.mk 9 true, Cell.mk 6 true, Cell.mk 3 true, Cell.mk 5 true, Cell.mk 1 true, Cell.mk 4 true, Cell.mk 7 true, Cell.mk 8 false, Cell.mk 7 true, Cell.mk 4 false, Cell.mk 8 true, Cell.mk 9 true, Cell.mk 2 true, Cell.mk 6 false, Cell.mk 3 true, Cell.mk 5 true, Cell.mk 1 true, Cell.mk 5 true, Cell.mk 3 true, Cell.mk 1 true, Cell.mk 4 true, Cell.mk 7 false, Cell.mk 8 true, Cell.mk 9 true, Cell.mk 2 true, Cell.mk 6 true, Cell.mk 8 false, Cell.mk 7 true, Cell.mk 3 true, Cell.mk 2 false, Cell.mk 6 true, Cell.mk 4 true, Cell.mk 5 true, Cell.mk 1 true, Cell.mk 9 false, Cell.mk 6 true, Cell.mk 2 true, Cell.mk 4 true, Cell.mk 5 true, Cell.mk 1 true, Cell.mk 9 true, Cell.mk 7 true, Cell.mk 8 true, Cell.mk 3 true, Cell.mk 1 true, Cell.mk 5 true, Cell.mk 9 true, Cell.mk 7 true, Cell.mk 8 true, Cell.mk 3 true, Cell.mk 2 false, Cell.mk 6 true, Cell.mk 4 true] 9 3)
      [Entry.mk (4, 0) 8 7, Entry.mk (4, 0) 7 6, Entry.mk (4, 0) 6 5, Entry.mk (4, 0) 5 4, Entry.mk (4, 0) 4 3, Entry.mk (4, 0) 3 2, Entry.mk (4, 0) 2 1, Entry.mk (4, 0) 1 0, Entry.mk (5, 0) 2 1, Entry.mk (5, 0) 1 0, Entry.mk (7, 0) 3 2, Entry.mk (7, 0) 2 1, Entry.mk (7, 0) 1 0, Entry.mk (7, 1) 4 3, Entry.mk (7, 1) 3 2, Entry.mk (7, 1) 2 1, Entry.mk (7, 1) 1 0, Entry.mk (0, 2) 3 2, Entry.mk (0, 2) 2 1, Entry.mk (0, 2) 1 0, Entry.mk (8, 3) 8 7, Entry.mk (8, 3) 7 6, Entry.mk (8, 3) 6 5, Entry.mk (8, 3) 5 4, Entry.mk (8, 3) 4 3, Entry.mk (8, 3) 3 2, Entry.mk (8, 3) 2 1, Entry.mk (8, 3) 1 0, Entry.mk (1, 4) 4 3, Entry.mk (1, 4) 3 2, Entry.mk (1, 4) 2 1, Entry.mk (1, 4) 1 0, Entry.mk (5, 4) 6 5, Entry.mk (5, 4) 5 4, Entry.mk (5, 4) 4 3, Entry.mk (5, 4) 3 2, Entry.mk (5, 4) 2 1, Entry.mk (5, 4) 1 0, Entry.mk (4, 5) 7 6, Entry.mk (4, 5) 6 5, Entry.mk (4, 5) 5 4, Entry.mk (4, 5) 4 3, Entry.mk (4, 5) 3 2, Entry.mk (4, 5) 2 1, Entry.mk (4, 5) 1 0, Entry.mk (0, 6) 8 7, Entry.mk (0, 6) 7 6, Entry.mk (0, 6) 6 5, Entry.mk (0, 6) 5 4, Entry.mk (0, 6) 4 3, Entry.mk (0, 6) 3 2, Entry.mk (0, 6) 2 1, Entry.mk (0, 6) 1 0, Entry.mk (3, 6) 2 1, Entry.mk (3, 6) 1 0, Entry.mk (8, 6) 9 8, Entry.mk (8, 6) 8 7, Entry.mk (8, 6) 7 6, Entry.mk (8, 6) 6 5, Entry.mk (8, 6) 5 4, Entry.mk (8, 6) 4 3, Entry.mk (8, 6) 3 2, Entry.mk (8, 6) 2 1, Entry.mk (8, 6) 1 0, Entry.mk (6, 8) 2 1, Entry.mk (6, 8) 1 0])
    []
    [Entry.mk (4, 0) 8 7, Entry.mk (5, 0) 2 1, Entry.mk (7, 0) 3 2, Entry.mk (7, 1) 4 3, Entry.mk (0, 2) 3 2, Entry.mk (8, 3) 8 7, Entry.mk (1, 4) 4 3, Entry.mk (5, 4) 6 5, Entry.mk (4, 5) 7 6, Entry.mk (0, 6) 8 7, Entry.mk (3, 6) 2 1, Entry.mk (8, 6) 9 8, Entry.mk (6, 8) 2 1]

/-- The C3 solver state after 54 calls to `next()`. -/
def c3S54 : Solver :=
  Solver.mk
    (Game.mk (0, 0) [] true
      (Grid.mk [Cell.mk 4 true, Cell.mk 6 true, Cell.mk 7 true, Cell.mk 1 true, Cell.mk 9 false, Cell.mk 2 false, Cell.mk 8 true, Cell.mk 3 false, Cell.mk 5 true, Cell.mk 9 true, Cell.mk 1 true, Cell.mk 2 true, Cell.mk 8 true, Cell.mk 3 true, Cell.mk 5 true, Cell.mk 6 true, Cell.mk 4 false, Cell.mk 7 true, Cell.mk 3 false, Cell.mk 8 true, Cell.mk 5 true, Cell.mk 6 true, Cell.mk 4 true, Cell.mk 7 true, Cell.mk 1 true, Cell.mk 9 true, Cell.mk 2 true, Cell.mk 2 true, Cell.mk 9 true, Cell.mk 6 true, Cell.mk 3 true, Cell.mk 5 true, Cell.mk 1 true, Cell.mk 4 true, Cell.mk 7 true, Cell.mk 8 false, Cell.mk 7 true, Cell.mk 4 false, Cell.mk 8 true, Cell.mk 9 true, Cell.mk 2 true, Cell.mk 6 false, Cell.mk 3 true, Cell.mk 5 true, Cell.mk 1 true, Cell.mk 5 true, Cell.mk 3 true, Cell.mk 1 true, Cell.mk 4 true, Cell.mk 7 false, Cell.mk 8 true, Cell.mk 9 true, Cell.mk 2 true, Cell.mk 6 true, Cell.mk 8 false, Cell.mk 7 true, Cell.mk 3 true, Cell.mk 2 false, Cell.mk 6 true, Cell.mk 4 true, Cell.mk 5 true, Cell.mk 1 true, Cell.mk 9 false, Cell.mk 6 true, Cell.mk 2 true, Cell.mk 4 true, Cell.mk 5 true, Cell.mk 1 true, Cell.mk 9 true, Cell.mk 7 true, Cell.mk 8 true, Cell.mk 3 true, Cell.mk 1 true, Cell.mk 5 true, Cell.mk 9 true, Cell.mk 7 true, Cell.mk 8 true, Cell.mk 3 true, Cell.mk 2 false, Cell.mk 6 true, Cell.mk 4 true] 9 3)
      [Entry.mk (4, 0) 9 8, Entry.mk (4, 0) 8 7, Entry.mk (4, 0) 7 6, Entry.mk (4, 0) 6 5, Entry.mk (4, 0) 5 4, Entry.mk (4, 0) 4 3, Entry.mk (4, 0) 3 2, Entry.mk (4, 0) 2 1, Entry.mk (4, 0) 1 0, Entry.mk (5, 0) 2 1, Entry.mk (5, 0) 1 0, Entry.mk (7, 0) 3 2, Entry.mk (7, 0) 2 1, Entry.mk (7, 0) 1 0, Entry.mk (7, 1) 4 3, Entry.mk (7, 1) 3 2, Entry.mk (7, 1) 2 1, Entry.mk (7, 1) 1 0, Entry.mk (0, 2) 3 2, Entry.mk (0, 2) 2 1, Entry.mk (0, 2) 1 0, Entry.mk (8, 3) 8 7, Entry.mk (8, 3) 7 6, Entry.mk (8, 3) 6 5, Entry.mk (8, 3) 5 4, Entry.mk (8, 3) 4 3, Entry.mk (8, 3) 3 2, Entry.mk (8, 3) 2 1, Entry.mk (8, 3) 1 0, Entry.mk (1, 4) 4 3, Entry.mk (1, 4) 3 2, Entry.mk (1, 4) 2 1, Entry.mk (1, 4) 1 0, Entry.mk (5, 4) 6 5, Entry.mk (5, 4) 5 4, Entry.mk (5, 4) 4 3, Entry.mk (5, 4) 3 2, Entry.mk (5, 4) 2 1, Entry.mk (5, 4) 1 0, Entry.mk (4, 5) 7 6, Entry.mk (4, 5) 6 5, Entry.mk (4, 5) 5 4, Entry.mk (4, 5) 4 3, Entry.mk (4, 5) 3 2, Entry.mk (4, 5) 2 1, Entry.mk (4, 5) 1 0, Entry.mk (0, 6) 8 7, Entry.mk (0, 6) 7 6, Entry.mk (0, 6) 6 5, Entry.mk (0, 6) 5 4, Entry.mk (0, 6) 4 3, Entry.mk (0, 6) 3 2, Entry.mk (0, 6) 2 1, Entry.mk (0, 6) 1 0, Entry.mk (3, 6) 2 1, Entry.mk (3, 6) 1 0, Entry.mk (8, 6) 9 8, Entry.mk (8, 6) 8 7, Entry.mk (8, 6) 7 6, Entry.mk (8, 6) 6 5, Entry.mk (8, 6) 5 4, Entry.mk (8, 6) 4 3, Entry.mk (8, 6) 3 2, Entry.mk (8, 6) 2 1, Entry.mk (8, 6) 1 0, Entry.mk (6, 8) 2 1, Entry.mk (6, 8) 1 0])
    []
    [Entry.mk (4, 0) 9 8, Entry.mk (5, 0) 2 1, Entry.mk (7, 0) 3 2, Entry.mk (7, 1) 4 3, Entry.mk (0, 2) 3 2, Entry.mk (8, 3) 8 7, Entry.mk (1, 4) 4 3, Entry.mk (5, 4) 6 5, Entry.mk (4, 5) 7 6, Entry.mk (0, 6) 8 7, Entry.mk (3, 6) 2 1, Entry.mk (8, 6) 9 8, Entry.mk (6, 8) 2 1]


theorem list_set_getD_self {α : Type} (l : List α) (i : Nat) (d : α) :
    l.set i (l.getD i d) = l := by
  induction l generalizing i with
  | nil => rfl
  | cons a t ih =>
    cases i with
    | zero => rfl
    | succ j => simpa [List.set, List.getD] using ih j

theorem list_getD_set_ne {α : Type} (l : List α) (i j : Nat) (a d : α) (h : i ≠ j) :
    (l.set i a).getD j d = l.getD j d := by
  rw [List.getD_eq_getElem?_getD, List.getD_eq_getElem?_getD, List.getElem?_set_ne h]

theorem list_getD_set_self {α : Type} (l : List α) (i : Nat) (a d : α) (h : i < l.length) :
    (l.set i a).getD i d = a := by
  rw [List.getD_eq_getElem?_getD, List.getElem?_set_eq_of_lt a h, Option.getD_some]

theorem checkFold_fst (vs : List Nat) :
    ∀ acc seen, (checkFold vs (acc, seen)).1 = (acc && validFrom seen vs) := by
  induction vs with
  | nil => intro acc seen; simp [checkFold, validFrom]
  | cons v rest ih =>
    intro acc seen
    by_cases h : (v != 0 && seen.contains v) = true
    · have hmem : v ∈ seen := by
        have h2 := ((Bool.and_eq_true _ _).mp h).2
        exact List.elem_iff.mp h2
      rw [checkFold, if_pos h, ih, validFrom, List.insert_of_mem hmem, h]
      simp
    · rw [checkFold, if_neg h, ih, validFrom]
      rw [Bool.not_eq_true] at h
      rw [h]
      simp

theorem checkFold_mem (vs : List Nat) :
    ∀ acc seen x, x ∈ (checkFold vs (acc, seen)).2 ↔ x ∈ seen ∨ x ∈ vs := by
  induction vs with
  | nil => intro acc seen x; simp [checkFold]
  | cons v rest ih =>
    intro acc seen x
    by_cases h : (v != 0 && seen.contains v) = true
    · have hmem : v ∈ seen := by
        have h2 := ((Bool.and_eq_true _ _).mp h).2
        exact List.elem_iff.mp h2
      rw [checkFold, if_pos h, ih]
      constructor
      · rintro (hx | hx)
        · exact Or.inl hx
        · exact Or.inr (List.mem_cons_of_mem v hx)
      · rintro (hx | hx)
        · exact Or.inl hx
        · rcases List.mem_cons.mp hx with hx | hx
          · exact Or.inl (hx ▸ hmem)
          · exact Or.inr hx
    · rw [checkFold, if_neg h, ih]
      simp only [List.mem_insert_iff, List.mem_cons]
      tauto

theorem validFrom_eq_true (vs : List Nat) :
    ∀ seen, validFrom seen vs = true ↔
      ((vs.filter fun v => v != 0).Nodup ∧ ∀ v ∈ vs, v ≠ 0 → v ∉ seen) := by
  induction vs with
  | nil => intro seen; simp [validFrom]
  | cons v rest ih =>
    intro seen
    rw [validFrom, Bool.and_eq_true, ih]
    by_cases hv : v = 0
    · subst hv
      simp only [List.filter_cons, bne_self_eq_false, Bool.false_eq_true, if_false,
        List.mem_cons, List.mem_insert_iff]
      constructor
      · rintro ⟨-, hn, hs⟩
        refine ⟨hn, ?_⟩
        rintro w (rfl | hw) hw0
        · exact absurd rfl hw0
        · intro hws
          exact (hs w hw hw0) (Or.inr hws)
      · rintro ⟨hn, hs⟩
        refine ⟨by simp, hn, ?_⟩
        intro w hw hw0 hws
        rcases hws with rfl | hws
        · exact hw0 rfl
        · exact hs w (Or.inr hw) hw0 hws
    · have hvb : (v != 0) = true := by simpa using hv
      rw [List.filter_cons, if_pos hvb, List.nodup_cons]
      constructor
      · rintro ⟨hnd, hrest, hseen⟩
        have hvs : v ∉ seen := by
          intro hmem
          simp [hvb, List.elem_iff.mpr hmem] at hnd
          exact hnd hmem
        refine ⟨⟨?_, hrest⟩, ?_⟩
        · intro hvf
          have hvr : v ∈ rest := (List.mem_filter.mp hvf).1
          exact (hseen v hvr hv) (List.mem_insert_iff.mpr (Or.inl rfl))
        · rintro w hw hw0
          rcases List.mem_cons.mp hw with rfl | hw
          · exact hvs
          · intro hws
            exact hseen w hw hw0 (List.mem_insert_iff.mpr (Or.inr hws))
      · rintro ⟨⟨hvf, hrest⟩, hseen⟩
        have hvs : v ∉ seen := hseen v (List.mem_cons_self v rest) hv
        refine ⟨?_, hrest, ?_⟩
        · simp [hvb, hvs]
        · intro w hw hw0 hws
          rcases List.mem_insert_iff.mp hws with rfl | hws'
          · exact hvf (List.mem_filter.mpr ⟨hw, by simpa using hw0⟩)
          · exact hseen w (List.mem_cons_of_mem v hw) hw0 hws'

/-- C7: `check_subsection` is valid exactly when the nonzero values contain no
duplicate, and complete exactly when no zero occurs; hence it returns
`(valid, complete) = (true, true)` on a duplicate-free zero-free subsection,
`(true, false)` with a zero and no duplicate, `(false, true)` with a duplicate
and no zero, and `(false, false)` with both; zero values are never counted as
duplicates of each other, and both flags reflect the entire subsection. -/
theorem c7_check_subsection_spec (values : List Nat) :
    ((Checker.check_subsection values).valid = true ↔
      (values.filter fun v => v != 0).Nodup) ∧
    ((Checker.check_subsection values).complete = true ↔ ¬ 0 ∈ values) := by
  constructor
  · show (checkFold values (true, [])).1 = true ↔ _
    rw [checkFold_fst, Bool.true_and, validFrom_eq_true]
    simp
  · show (!(checkFold values (true, [])).2.contains 0) = true ↔ _
    have hm := checkFold_mem values true [] 0
    simp only [List.not_mem_nil, false_or] at hm
    simp [List.elem_iff, hm]

theorem applyCheckerLoop_spec (results : List (GridSubsectionType × CheckerResult)) :
    ∀ inv comp, applyCheckerLoop results inv comp =
      (inv ++ (results.filter fun r => !r.2.valid).map Prod.fst,
        comp && results.all fun r => r.2.complete) := by
  induction results with
  | nil => intro inv comp; simp [applyCheckerLoop]
  | cons tr rest ih =>
    obtain ⟨t, r⟩ := tr
    intro inv comp
    rw [applyCheckerLoop, ih]
    cases hv : r.valid <;> cases hc : r.complete <;>
      simp [hv, hc, List.filter_cons, List.all_cons]

theorem apply_checker_spec (g g' : Game) (h : g.apply_checker = some g') :
    CacheConsistent g' ∧ g'.grid = g.grid ∧ g'.entries = g.entries ∧
      g'.selected = g.selected := by
  unfold Game.apply_checker at h
  split at h
  · cases h
  · next results hca =>
    injection h with h
    subst h
    refine ⟨?_, rfl, rfl, rfl⟩
    unfold CacheConsistent cacheRecompute
    rw [show ({ g with
          invalid_subsections := (applyCheckerLoop results [] true).1,
          is_complete := (applyCheckerLoop results [] true).2 } : Game).grid = g.grid
        from rfl]
    rw [hca, applyCheckerLoop_spec]
    simp

theorem get_cell_ok (g : Grid) (p : GridPosition) (val : Nat)
    (h : g.get_cell p = .ok val) :
    ∃ i, g.get_cell_index p = .ok i ∧ val = (g.cells.getD i ⟨0, false⟩).value := by
  unfold Grid.get_cell at h
  split at h
  · cases h
  · next i hgi =>
    injection h with h
    exact ⟨i, hgi, h.symm⟩

theorem get_cell_error_elim (g : Grid) (p : GridPosition) (e : GridError)
    (h : g.get_cell p = .error e) : e = .CellOutOfBounds := by
  unfold Grid.get_cell at h
  split at h
  · next er hgi =>
    injection h with h
    subst h
    unfold Grid.get_cell_index at hgi
    split at hgi
    · injection hgi with hgi; exact hgi.symm
    · cases hgi
  · cases h

theorem set_cell_ok (g : Grid) (p : GridPosition) (v pv : Nat) (g₂ : Grid)
    (h : g.set_cell p v = .ok (pv, g₂)) :
    ∃ i, g.get_cell_index p = .ok i ∧
      (g.cells.getD i ⟨0, false⟩).readonly = false ∧
      pv = (g.cells.getD i ⟨0, false⟩).value ∧
      g₂ = { g with cells := g.cells.set i ⟨v, (g.cells.getD i ⟨0, false⟩).readonly⟩ } := by
  unfold Grid.set_cell at h
  split at h
  · cases h
  · next i hgi =>
    split at h
    · cases h
    · next hro =>
      injection h with h
      injection h with h1 h2
      exact ⟨i, hgi, Bool.not_eq_true _ ▸ hro, h1.symm, h2.symm⟩

theorem set_cell_error_elim (g : Grid) (p : GridPosition) (v : Nat) (e : GridError)
    (h : g.set_cell p v = .error e) :
    e = .CellOutOfBounds ∨ e = .ReadonlyCellMutation := by
  unfold Grid.set_cell at h
  split at h
  · next er hgi =>
    injection h with h
    subst h
    unfold Grid.get_cell_index at hgi
    split at hgi
    · injection hgi with hgi; exact Or.inl hgi.symm
    · cases hgi
  · next i hgi =>
    split at h
    · injection h with h; exact Or.inr h.symm
    · cases h

theorem add_entry_ok_elim (g : Game) (p : GridPosition) (v : Nat) (e : Entry) (g' : Game)
    (h : g.add_entry p v = some (.ok e, g')) :
    ∃ prev pv grid',
      g.grid.get_cell p = .ok prev ∧
      g.grid.set_cell p v = .ok (pv, grid') ∧
      e = ⟨p, v, prev⟩ ∧
      Game.apply_checker
        { g with grid := grid', entries := (⟨p, v, prev⟩ : Entry) :: g.entries } = some g' := by
  unfold Game.add_entry at h
  split at h
  · next er hgc =>
    injection h with h
    injection h with h1 h2
    cases h1
  · next prev hgc =>
    split at h
    · next er hsc =>
      injection h with h
      injection h with h1 h2
      cases h1
    · next pv grid' hsc =>
      split at h
      · cases h
      · next gg hac =>
        injection h with h
        injection h with h1 h2
        injection h1 with h1
        exact ⟨prev, pv, grid', hgc, hsc, h1.symm, h2 ▸ hac⟩

theorem add_entry_error_elim (g : Game) (p : GridPosition) (v : Nat) (e : GridError)
    (g' : Game) (h : g.add_entry p v = some (.error e, g')) :
    g' = g ∧ (e = .CellOutOfBounds ∨ e = .ReadonlyCellMutation) := by
  unfold Game.add_entry at h
  split at h
  · next er hgc =>
    injection h with h
    injection h with h1 h2
    injection h1 with h1
    exact ⟨h2.symm, Or.inl (h1 ▸ get_cell_error_elim _ _ _ hgc)⟩
  · next prev hgc =>
    split at h
    · next er hsc =>
      injection h with h
      injection h with h1 h2
      injection h1 with h1
      exact ⟨h2.symm, h1 ▸ set_cell_error_elim _ _ _ _ hsc⟩
    · next pv grid' hsc =>
      split at h
      · cases h
      · next gg hac =>
        injection h with h
        injection h with h1 h2
        cases h1

theorem undo_entry_ok_elim (g : Game) (e : Entry) (g' : Game)
    (h : g.undo_entry = some (some e, g')) :
    ∃ rest pv grid' gg,
      g.entries = e :: rest ∧
      g.grid.set_cell e.position e.previous_value = .ok (pv, grid') ∧
      Game.apply_checker { g with grid := grid', entries := rest } = some gg ∧
      g' = { gg with selected := e.position } := by
  unfold Game.undo_entry at h
  split at h
  · next hent =>
    injection h with h
    injection h with h1 h2
    cases h1
  · next entry rest hent =>
    split at h
    · cases h
    · next pv grid' hsc =>
      split at h
      · cases h
      · next gg hac =>
        injection h with h
        injection h with h1 h2
        injection h1 with h1
        subst h1
        exact ⟨rest, pv, grid', gg, hent, hsc, hac, h2.symm⟩

/-- C6 as amended: the validity caches equal the checker recomputation after
every successful `add_entry`, after every `undo_entry` that actually popped an
entry, and after every successful `reset` — each of these ends by rerunning
the Checker over all subsections. (At construction, and after `unset_cell` or
an error-returning call, the caches are not recomputed, which is what the
counterexample exhibits.) -/
theorem c6_amended :
    (∀ (g : Game) (p : GridPosition) (v : Nat) (e : Entry) (g' : Game),
        g.add_entry p v = some (.ok e, g') → CacheConsistent g') ∧
    (∀ (g : Game) (e : Entry) (g' : Game),
        g.undo_entry = some (some e, g') → CacheConsistent g') ∧
    (∀ (g g' : Game), g.reset = some g' → CacheConsistent g') := by
  refine ⟨?_, ?_, ?_⟩
  · intro g p v e g' h
    obtain ⟨prev, pv, grid', -, -, -, hac⟩ := add_entry_ok_elim g p v e g' h
    exact (apply_checker_spec _ _ hac).1
  · intro g e g' h
    obtain ⟨rest, pv, grid', gg, -, -, hac, hg'⟩ := undo_entry_ok_elim g e g' h
    have hc := (apply_checker_spec _ _ hac).1
    subst hg'
    exact hc
  · intro g g' h
    unfold Game.reset at h
    exact (apply_checker_spec _ _ h).1

set_option maxHeartbeats 2000000 in
/-- C6 counterexample: at a reachable state — the game freshly constructed by
`Game::new` on the fully solved C3 board — the cached `is_complete` is
`false` while rerunning the Checker over all subsections of the current grid
reports complete; the cache does not equal the recomputation. -/
theorem c6_counterexample :
    (Game.new c3Expected).map Game.is_complete = some false ∧
    (Game.new c3Expected).map (fun g => (cacheRecompute g.grid).map Prod.snd) =
      some (some true) := by
  decide

set_option maxHeartbeats 2000000 in
/-- C6 witness: a concrete successful `add_entry` whose resulting state has
consistent caches. -/
theorem c6_witness : CacheConsistent c6G1 :=
  c6_amended.1 c6Game0 (4, 0) 9 c6E c6G1 (by decide)

/-- C10: an error-returning `add_entry` (the error is `CellOutOfBounds` or
`ReadonlyCellMutation`) leaves the game exactly as it was: no cell changes,
no entry is pushed, and the caches are untouched. -/
theorem c10_add_entry_error_leaves_game (g : Game) (p : GridPosition) (v : Nat)
    (e : GridError) (g' : Game) (h : g.add_entry p v = some (.error e, g')) :
    g' = g ∧ (e = .CellOutOfBounds ∨ e = .ReadonlyCellMutation) :=
  add_entry_error_elim g p v e g' h

set_option maxHeartbeats 2000000 in
/-- C10 witness: writing the readonly clue cell `(0, 0)` of the C3 game fails
with `ReadonlyCellMutation` and returns the game unchanged. -/
theorem c10_witness :
    c10G1 = c10G ∧
      (GridError.ReadonlyCellMutation = .CellOutOfBounds ∨
        GridError.ReadonlyCellMutation = .ReadonlyCellMutation) :=
  c10_add_entry_error_leaves_game c10G (0, 0) 5 .ReadonlyCellMutation c10G1 (by decide)

theorem mkCells_ok (side : Nat) :
    ∀ (vals : List Nat) (k : Nat) (l : List Cell),
      mkCells side vals k = .ok l → l = vals.map fun v => ⟨v, v != 0⟩ := by
  intro vals
  induction vals with
  | nil => intro k l h; injection h with h; exact h.symm
  | cons v rest ih =>
    intro k l h
    unfold mkCells at h
    split at h
    · cases h
    · split at h
      · cases h
      · next tail htail =>
        injection h with h
        subst h
        rw [List.map_cons, ih (k + 1) tail htail]

theorem grid_new_cells (cells : List Nat) (g : Grid)
    (h : Grid.new cells = .ok g) :
    g.cells = cells.map fun v => ⟨v, v != 0⟩ := by
  unfold Grid.new at h
  split at h
  · cases h
  · split at h
    · cases h
    · split at h
      · cases h
      · split at h
        · cases h
        · next cs hmk =>
          injection h with h
          subst h
          exact mkCells_ok _ _ _ _ hmk

theorem game_new_elim (cells : List Nat) (g : Game) (h : Game.new cells = some g) :
    g.grid.cells = cells.map fun v => ⟨v, v != 0⟩ := by
  unfold Game.new at h
  split at h
  · cases h
  · next grid hgrid =>
    injection h with h
    subst h
    exact grid_new_cells cells grid hgrid

theorem set_cell_preserves_readonly (g : Grid) (p : GridPosition) (v pv : Nat)
    (g₂ : Grid) (h : g.set_cell p v = .ok (pv, g₂)) (i : Nat)
    (hro : (g.cells.getD i ⟨0, false⟩).readonly = true) :
    g₂.cells.getD i ⟨0, false⟩ = g.cells.getD i ⟨0, false⟩ := by
  obtain ⟨j, hgi, hjro, hpv, hg₂⟩ := set_cell_ok g p v pv g₂ h
  subst hg₂
  by_cases hij : j = i
  · subst hij
    rw [hro] at hjro
    cases hjro
  · exact list_getD_set_ne _ _ _ _ _ hij

theorem undo_entry_none_elim (g : Game) (g' : Game)
    (h : g.undo_entry = some (none, g')) : g' = g := by
  unfold Game.undo_entry at h
  split at h
  · injection h with h
    injection h with h1 h2
    exact h2.symm
  · split at h
    · cases h
    · split at h
      · cases h
      · injection h with h
        injection h with h1 h2
        cases h1

theorem runOps_preserves_readonly (ops : List SolveOp) :
    ∀ (g g' : Game), g.runOps ops = some g' →
      ∀ i, (g.grid.cells.getD i ⟨0, false⟩).readonly = true →
        g'.grid.cells.getD i ⟨0, false⟩ = g.grid.cells.getD i ⟨0, false⟩ := by
  induction ops with
  | nil =>
    intro g g' h i hro
    injection h with h
    subst h
    rfl
  | cons op rest ih =>
    intro g g' h i hro
    cases op with
    | add p v =>
      rw [Game.runOps] at h
      split at h
      · cases h
      · next res g₁ hadd =>
        cases res with
        | error er =>
          obtain ⟨hg, -⟩ := add_entry_error_elim g p v er g₁ hadd
          subst hg
          exact ih _ g' h i hro
        | ok e =>
          obtain ⟨prev, pv, grid', hgc, hsc, he, hac⟩ := add_entry_ok_elim g p v e g₁ hadd
          have hgrid : g₁.grid = grid' := (apply_checker_spec _ _ hac).2.1
          have hpres : grid'.cells.getD i ⟨0, false⟩ = g.grid.cells.getD i ⟨0, false⟩ :=
            set_cell_preserves_readonly g.grid p v pv grid' hsc i hro
          have hro₁ : (g₁.grid.cells.getD i ⟨0, false⟩).readonly = true := by
            rw [hgrid, hpres]; exact hro
          rw [ih g₁ g' h i hro₁, hgrid, hpres]
    | undo =>
      rw [Game.runOps] at h
      split at h
      · cases h
      · next oe g₁ hundo =>
        cases oe with
        | none =>
          have hg := undo_entry_none_elim g g₁ hundo
          subst hg
          exact ih _ g' h i hro
        | some e =>
          obtain ⟨rest', pv, grid', gg, hent, hsc, hac, hg₁⟩ := undo_entry_ok_elim g e g₁ hundo
          have hgrid : g₁.grid = grid' := by
            rw [hg₁]
            exact (apply_checker_spec _ _ hac).2.1
          have hpres : grid'.cells.getD i ⟨0, false⟩ = g.grid.cells.getD i ⟨0, false⟩ :=
            set_cell_preserves_readonly g.grid e.position e.previous_value pv grid' hsc i hro
          have hro₁ : (g₁.grid.cells.getD i ⟨0, false⟩).readonly = true := by
            rw [hgrid, hpres]; exact hro
          rw [ih g₁ g' h i hro₁, hgrid, hpres]

/-- C9: for a game built by `Game::new`, every cell whose input value was
nonzero is readonly, and no sequence of `add_entry`/`undo_entry` calls ever
changes its value or clears its readonly flag; an `add_entry` that addresses
such a cell fails with `ReadonlyCellMutation` and leaves the game unchanged. -/
theorem c9_readonly_preserved (cells : List Nat) (g₀ : Game) (ops : List SolveOp)
    (g' : Game) (hnew : Game.new cells = some g₀) (hrun : g₀.runOps ops = some g') :
    (∀ i, i < cells.length → cells.getD i 0 ≠ 0 →
        g'.grid.cells.getD i ⟨0, false⟩ = ⟨cells.getD i 0, true⟩) ∧
    (∀ (p : GridPosition) (w i : Nat), g'.grid.get_cell_index p = .ok i →
        i < cells.length → cells.getD i 0 ≠ 0 →
        g'.add_entry p w = some (.error .ReadonlyCellMutation, g')) := by
  have hcells := game_new_elim cells g₀ hnew
  have hbase : ∀ i, i < cells.length → cells.getD i 0 ≠ 0 →
      g₀.grid.cells.getD i ⟨0, false⟩ = ⟨cells.getD i 0, true⟩ := by
    intro i hi h0
    rw [hcells, List.getD_eq_getElem?_getD, List.getElem?_map,
      List.getElem?_eq_getElem hi]
    simp only [Option.map_some', Option.getD_some]
    rw [List.getD_eq_getElem cells 0 hi] at h0 ⊢
    rw [bne_iff_ne.mpr h0]
  have hkeep : ∀ i, i < cells.length → cells.getD i 0 ≠ 0 →
      g'.grid.cells.getD i ⟨0, false⟩ = ⟨cells.getD i 0, true⟩ := by
    intro i hi h0
    have hro : (g₀.grid.cells.getD i ⟨0, false⟩).readonly = true := by
      rw [hbase i hi h0]
    rw [runOps_preserves_readonly ops g₀ g' hrun i hro]
    exact hbase i hi h0
  refine ⟨hkeep, ?_⟩
  intro p w i hgi hi h0
  have hcell := hkeep i hi h0
  unfold Game.add_entry Grid.get_cell Grid.set_cell
  rw [hgi]
  dsimp only
  rw [hcell]
  rfl

set_option maxHeartbeats 4000000 in
/-- C9 witness: on the C3 game, after a place/undo/place sequence the clue
cell at index 0 still holds `⟨4, true⟩`, and writing it fails with
`ReadonlyCellMutation`, leaving the game unchanged. -/
theorem c9_witness :
    c9GF.grid.cells.getD 0 ⟨0, false⟩ = ⟨4, true⟩ ∧
    c9GF.add_entry (0, 0) 5 = some (.error .ReadonlyCellMutation, c9GF) := by
  have h := c9_readonly_preserved c3Input c9G0 c9Ops c9GF (by decide) (by decide)
  exact ⟨h.1 0 (by decide) (by decide),
    h.2 (0, 0) 5 0 (by decide) (by decide) (by decide)⟩

theorem cell_eta_readonly (c : Cell) (h : c.readonly = false) :
    (⟨c.value, false⟩ : Cell) = c := by
  cases c with
  | mk val ro =>
    cases ro
    · rfl
    · cases h

theorem set_cell_roundtrip (g : Grid) (p : GridPosition) (v pv : Nat) (g₂ : Grid)
    (h : g.set_cell p v = .ok (pv, g₂)) :
    ∃ w, g₂.set_cell p pv = .ok (w, g) := by
  obtain ⟨i, hgi, hro, hpv, hg₂⟩ := set_cell_ok g p v pv g₂ h
  subst hg₂
  subst hpv
  rw [hro]
  unfold Grid.set_cell
  have hgi₂ : ({ g with cells := g.cells.set i ⟨v, false⟩ } : Grid).get_cell_index p
      = .ok i := hgi
  rw [hgi₂]
  dsimp only
  by_cases hlen : i < g.cells.length
  · rw [list_getD_set_self _ _ _ _ (by simpa using hlen)]
    refine ⟨v, ?_⟩
    dsimp only
    rw [List.set_set, cell_eta_readonly _ hro, list_set_getD_self]
    rfl
  · have hle : g.cells.length ≤ i := Nat.le_of_not_lt hlen
    rw [List.set_eq_of_length_le hle]
    rw [List.getD_eq_default _ _ hle]
    refine ⟨0, ?_⟩
    dsimp only
    rw [List.set_eq_of_length_le hle]
    rfl

theorem undo_entry_elim_cons (g : Game) (entry : Entry) (rest : List Entry)
    (oe : Option Entry) (g₂ : Game)
    (hent : g.entries = entry :: rest)
    (h : g.undo_entry = some (oe, g₂)) :
    oe = some entry ∧ ∃ pv grid' gg,
      g.grid.set_cell entry.position entry.previous_value = .ok (pv, grid') ∧
      Game.apply_checker { g with grid := grid', entries := rest } = some gg ∧
      g₂ = { gg with selected := entry.position } := by
  unfold Game.undo_entry at h
  split at h
  · next hnil => rw [hent] at hnil; cases hnil
  · next entry' rest' hent' =>
    rw [hent] at hent'
    injection hent' with h1 h2
    subst h1
    subst h2
    split at h
    · cases h
    · next pv grid' hsc =>
      split at h
      · cases h
      · next gg hac =>
        injection h with h
        injection h with h1 h2
        exact ⟨h1.symm, pv, grid', gg, hsc, hac, h2.symm⟩

/-- C8 as amended: for any game whose caches are consistent with its grid
(which holds whenever the last cache-recomputing mutation was the most recent
one to touch the grid), `undo_entry` immediately after a successful
`add_entry(p, v)` restores the entire grid — in particular the exact prior
cell value at `p` — and restores `invalid_subsections` and `is_complete` to
exactly their prior values. When the prior caches were stale (e.g. after
`unset_cell`), the cell value is still restored but the caches are
recomputed, not restored, as the counterexample shows. -/
theorem c8_amended (g : Game) (p : GridPosition) (v : Nat) (e : Entry)
    (g₁ g₂ : Game) (oe : Option Entry)
    (hcons : CacheConsistent g)
    (hadd : g.add_entry p v = some (.ok e, g₁))
    (hundo : g₁.undo_entry = some (oe, g₂)) :
    g₂.grid = g.grid ∧
    g₂.grid.get_cell p = g.grid.get_cell p ∧
    g₂.invalid_subsections = g.invalid_subsections ∧
    g₂.is_complete = g.is_complete := by
  obtain ⟨prev, pv, grid', hgc, hsc, he, hac⟩ := add_entry_ok_elim g p v e g₁ hadd
  have hfields := apply_checker_spec _ _ hac
  have hg₁grid : g₁.grid = grid' := hfields.2.1
  have hg₁ent : g₁.entries = (⟨p, v, prev⟩ : Entry) :: g.entries := hfields.2.2.1
  obtain ⟨i, hgi, hvv⟩ := get_cell_ok _ _ _ hgc
  obtain ⟨i', hgi', hro', hpv', hgrid'⟩ := set_cell_ok _ _ _ _ _ hsc
  have hii : i = i' := by
    rw [hgi] at hgi'
    injection hgi'
  have hprevpv : prev = pv := by rw [hvv, hpv', hii]
  subst he
  obtain ⟨hoe, pv₂, grid₂, gg, hsc₂, hac₂, hg₂⟩ :=
    undo_entry_elim_cons g₁ ⟨p, v, prev⟩ g.entries oe g₂ hg₁ent hundo
  rw [hg₁grid] at hsc₂
  obtain ⟨w, hrt⟩ := set_cell_roundtrip g.grid p v pv grid' hsc
  rw [← hprevpv] at hrt
  rw [hrt] at hsc₂
  injection hsc₂ with hsc₂
  injection hsc₂ with hw hgrid₂
  subst hgrid₂
  have hfields₂ := apply_checker_spec _ _ hac₂
  have hggc := hfields₂.1
  have hgggrid : gg.grid = g.grid := hfields₂.2.1
  unfold CacheConsistent at hggc hcons
  rw [hgggrid, hcons] at hggc
  injection hggc with hggc
  have hinv : gg.invalid_subsections = g.invalid_subsections :=
    (congrArg Prod.fst hggc).symm
  have hcomp : gg.is_complete = g.is_complete := (congrArg Prod.snd hggc).symm
  subst hg₂
  exact ⟨hgggrid, by rw [hgggrid], hinv, hcomp⟩

set_option maxHeartbeats 8000000 in
/-- C8 counterexample: a reachable game (`new`, fill the hole, `unset_cell`)
whose board is conflict-free, with an in-bounds writable position, where
`undo_entry` right after a successful `add_entry` fails to restore the prior
caches: `is_complete` was `true` (stale cache after `unset_cell`) before the
`add_entry` and is `false` after the undo. -/
theorem c8_counterexample :
    (cacheRecompute c8G2.grid).map Prod.fst = some [] ∧
    c8G2.grid.get_cell (0, 0) = .ok 0 ∧
    (c8G2.grid.cells.getD 0 ⟨0, false⟩).readonly = false ∧
    c8G2.add_entry (0, 0) 4 = some (.ok ⟨(0, 0), 4, 0⟩, c8G3) ∧
    c8G3.undo_entry = some (some ⟨(0, 0), 4, 0⟩, c8G4) ∧
    c8G2.is_complete = true ∧
    c8G4.is_complete = false := by
  decide

set_option maxHeartbeats 8000000 in
/-- C8 witness: on the cache-consistent game `c8G1`, add-then-undo restores
grid, cell value and both caches. -/
theorem c8_witness :
    c8WG3.grid = c8G1.grid ∧
    c8WG3.grid.get_cell (0, 0) = c8G1.grid.get_cell (0, 0) ∧
    c8WG3.invalid_subsections = c8G1.invalid_subsections ∧
    c8WG3.is_complete = c8G1.is_complete :=
  c8_amended c8G1 (0, 0) 7 c8WE c8WG2 c8WG3 c8WOE (by decide) (by decide) (by decide)

/-- C1 as amended: with the board locally consistent but not solved, `next()`
pops the next empty position and places value 1 there — but because the
forward block is not an `else`-alternative to the retry block, the same call
then pops that fresh entry again and re-places the position with value 2
(when `2 ≤ side_size`), pushing the value-2 entry; the call performs two
placements, and the cell ends the call holding 2, not 1. -/
theorem c1_amended (s : Solver) (p : GridPosition) (rest : List GridPosition)
    (e₁ : Entry) (g₁ : Game)
    (hc : s.game.is_correct = false)
    (hinv : s.game.invalid_subsections = [])
    (hemp : s.empty_positions = p :: rest)
    (hadd : s.game.add_entry p 1 = some (.ok e₁, g₁))
    (hsize : 2 ≤ g₁.size) :
    e₁.position = p ∧ e₁.value = 1 ∧
    s.next = (match g₁.add_entry p 2 with
      | none => none
      | some (.error _, _) => none
      | some (.ok e₂, g₂) => some ⟨g₂, rest, e₂ :: s.entries_added⟩) := by
  obtain ⟨hp, hv⟩ : e₁.position = p ∧ e₁.value = 1 := by
    obtain ⟨prev, pv, grid', -, -, he, -⟩ := add_entry_ok_elim _ _ _ _ _ hadd
    rw [he]
    exact ⟨rfl, rfl⟩
  refine ⟨hp, hv, ?_⟩
  have hs2 : ((1 : Nat) + 1 ≤ g₁.size) = True := eq_true hsize
  unfold Solver.next
  simp only [hc, Bool.false_eq_true, if_false, hinv, List.length_nil, hemp, hadd, hv, hp,
    eq_self_iff_true, if_true, hs2]

/-- C1 counterexample: on the freshly built C3 solver (board valid and
incomplete, next popped position `(6, 8)`), a single call to `next()` leaves
the popped cell holding 2, not 1, and the only trial-stack entry has value 2:
the forward placement of 1 is not the only placement the call performs. -/
theorem c1_counterexample :
    ((Game.new c3Input).bind Solver.new).map (fun s => s.empty_positions.head?) =
      some (some (6, 8)) ∧
    (((Game.new c3Input).bind Solver.new).bind Solver.next).map
        (fun s => ((s.game.grid.get_cell (6, 8)).toOption, s.entries_added.map Entry.value)) =
      some (some 2, [2]) := by
  decide

set_option maxHeartbeats 8000000 in
/-- C1 witness: the amended description instantiated on the concrete C3
solver state. -/
theorem c1_witness :
    c1E1.position = (6, 8) ∧ c1E1.value = 1 ∧
    c1Solver.next = (match c1G1.add_entry (6, 8) 2 with
      | none => none
      | some (.error _, _) => none
      | some (.ok e₂, g₂) => some ⟨g₂, c1Rest, e₂ :: c1Solver.entries_added⟩) :=
  c1_amended c1Solver (6, 8) c1Rest c1E1 c1G1 (by decide) (by decide) (by decide)
    (by decide) (by decide)

/-- C2 as amended: with the board invalid and the popped top trial entry's
candidates exhausted (`value + 1 > side_size`), `next()` resets the position
to 0 via `add_entry` and pushes the position back onto the empty-position
stack — but the resulting zero-valued entry is pushed back onto the trial
stack, so the trial stack ends the call with the same length as before, not
shorter by one; it is the next call that pops the zero entry. -/
theorem c2_amended (s : Solver) (e : Entry) (rest : List Entry) (e₀ : Entry)
    (g' : Game)
    (hc : s.game.is_correct = false)
    (hinv : s.game.invalid_subsections ≠ [])
    (hent : s.entries_added = e :: rest)
    (hval : s.game.size < e.value + 1)
    (hadd : s.game.add_entry e.position 0 = some (.ok e₀, g')) :
    s.next = some ⟨g', e.position :: s.empty_positions, e₀ :: rest⟩ ∧
    e₀.value = 0 ∧ (e₀ :: rest).length = s.entries_added.length := by
  have hv0 : e₀.value = 0 := by
    obtain ⟨prev, pv, grid', -, -, he, -⟩ := add_entry_ok_elim _ _ _ _ _ hadd
    rw [he]
  refine ⟨?_, hv0, by rw [hent, List.length_cons, List.length_cons]⟩
  have hlen : (s.game.invalid_subsections.length = 0) = False :=
    eq_false (by simpa [List.length_eq_zero] using hinv)
  have hnle : (e.value + 1 ≤ s.game.size) = False := eq_false (Nat.not_le.mpr hval)
  unfold Solver.next
  simp only [hc, Bool.false_eq_true, if_false, hlen, hent, hnle, hadd]

set_option maxHeartbeats 4000000 in
/-- C2 counterexample: a solver state with an invalid board and top trial
entry of value 9 (so `9 + 1 > side_size = 9`); after one `next()` the trial
stack still has length 1, the same as before the call, not one less. -/
theorem c2_counterexample :
    c2Solver.game.is_correct = false ∧
    c2Solver.game.invalid_subsections ≠ [] ∧
    c2Solver.entries_added = [⟨(1, 0), 9, 0⟩] ∧
    c2Solver.game.size < 9 + 1 ∧
    (c2Solver.next).map (fun s => s.entries_added.length) = some 1 := by
  decide

set_option maxHeartbeats 4000000 in
/-- C2 witness: the amended description instantiated on the concrete
backtracking state. -/
theorem c2_witness :
    c2Solver.next = some ⟨c2G0, (1, 0) :: c2Solver.empty_positions, c2E0 :: []⟩ ∧
    c2E0.value = 0 ∧
    (c2E0 :: ([] : List Entry)).length = c2Solver.entries_added.length :=
  c2_amended c2Solver ⟨(1, 0), 9, 0⟩ [] c2E0 c2G0 (by decide) (by decide) (by decide)
    (by decide) (by decide)

set_option maxRecDepth 10000 in
set_option maxHeartbeats 8000000 in
/-- C4 counterexample: `Grid::new` accepts the 256-cell all-zero board with
`side_size = 16`, a valid non-9 size, yet `get_subsection_values(Row 0)`
yields 9 values, not `side_size = 16`: the subsection iterator's bound and
stride are hard-coded for 9x9. -/
theorem c4_counterexample :
    (Grid.new c4Cells).toOption.map Grid.side_size = some 16 ∧
    (Grid.new c4Cells).toOption.bind
        (fun g => (g.get_subsection_values (.Row 0)).map List.length) = some 9 := by
  decide

/-- C4 as amended: restricted to grids with `side_size = 9` (the only side the
iterator's hard-coded bound 8 and stride 3 are correct for), every in-range
subsection yields a finite restartable sequence of exactly `side_size = 9`
values, in the claimed coordinate order: a row left to right, a column top to
bottom, and a square in raster order within its 3x3 block at offset
`(bx*3, by*3)`. -/
theorem c4_amended (g : Grid) (t : GridSubsectionType)
    (h9 : g.side_size = 9) (ht : inRange9 t = true) :
    g.get_subsection_values t =
      some ((claimCoords t).map fun p => (g.cells.getD (p.2 * 9 + p.1) ⟨0, false⟩).value) ∧
    (claimCoords t).length = 9 := by
  obtain ⟨cs, ss, q⟩ := g
  dsimp only at h9
  subst h9
  cases t with
  | Row i =>
    simp only [inRange9, decide_eq_true_eq] at ht
    interval_cases i <;> exact ⟨rfl, rfl⟩
  | Column i =>
    simp only [inRange9, decide_eq_true_eq] at ht
    interval_cases i <;> exact ⟨rfl, rfl⟩
  | Square i j =>
    simp only [inRange9, Bool.and_eq_true, decide_eq_true_eq] at ht
    obtain ⟨hi, hj⟩ := ht
    interval_cases i <;> interval_cases j <;>
      refine ⟨?_, rfl⟩ <;>
      simp [Grid.get_subsection_values, GridSubsection.collect, GridSubsection.step,
        Grid.get_cell, Grid.get_cell_index, claimCoords, List.mapM.loop, Except.toOption,
        List.range_succ, Function.comp]

set_option maxHeartbeats 8000000 in
/-- C4 witness: row 0 of a concrete 81-cell grid accepted by `Grid::new`. -/
theorem c4_witness :
    c4Grid.get_subsection_values (.Row 0) =
      some ((claimCoords (.Row 0)).map fun p =>
        (c4Grid.cells.getD (p.2 * 9 + p.1) ⟨0, false⟩).value) ∧
    (claimCoords (.Row 0)).length = 9 :=
  c4_amended c4Grid (.Row 0) (by decide) (by decide)

/-- C5: `Grid::new` reports the invalid one-cell sequence as the recoverable
`InvalidGridSize` error, but `Game::new` unwraps that result and aborts the
process (modelled as `none`) instead of returning the error its own signature
promises — the claim is right about the design, and `Game::new` is the slip
that violates it. -/
theorem c5_game_new_aborts :
    Grid.new [0] = .error .InvalidGridSize ∧ Game.new [0] = none := by
  decide

theorem next_of_correct (s : Solver) (h : s.game.is_correct = true) :
    s.next = some s := by
  unfold Solver.next
  rw [h]
  simp

theorem nextN_of_correct (n : Nat) (s : Solver) (h : s.game.is_correct = true) :
    Solver.nextN n s = some s := by
  induction n with
  | zero => rfl
  | succ n ih =>
    show (match s.next with
      | none => none
      | some s' => Solver.nextN n s') = some s
    rw [next_of_correct s h]
    exact ih

theorem nextN_cons (n : Nat) (s s' : Solver) (h : s.next = some s') :
    Solver.nextN (n + 1) s = Solver.nextN n s' := by
  show (match s.next with
    | none => none
    | some x => Solver.nextN n x) = _
  rw [h]

theorem solveLoop_of_nextN : ∀ (n : Nat) (s sm : Solver),
    Solver.nextN n s = some sm → sm.game.is_correct = true →
    Solver.solveLoop (n + 1) s = some sm.game := by
  intro n
  induction n with
  | zero =>
    intro s sm h hc
    injection h with h
    subst sm
    show (if s.game.is_correct then some s.game else _) = some s.game
    rw [hc]
    simp
  | succ n ih =>
    intro s sm h hc
    by_cases hcs : s.game.is_correct = true
    · have hst : Solver.nextN (n + 1) s = some s := nextN_of_correct _ _ hcs
      rw [h] at hst
      injection hst with hst
      show (if s.game.is_correct then some s.game else _) = some sm.game
      rw [hcs]
      simp [hst]
    · rw [show Solver.nextN (n + 1) s = (match s.next with
          | none => none
          | some s' => Solver.nextN n s') from rfl] at h
      cases hn : s.next with
      | none => rw [hn] at h; cases h
      | some s' =>
        rw [hn] at h
        have hrec := ih s' sm h hc
        have hcs' : s.game.is_correct = false := Bool.eq_false_iff.mpr hcs
        show (if s.game.is_correct then some s.game
          else match s.next with
            | none => none
            | some s' => Solver.solveLoop (n + 1) s') = some sm.game
        rw [hcs', hn]
        simpa using hrec

theorem option_some_bind {α β : Type} (a : α) (f : α → Option β) :
    (some a).bind f = f a := rfl

set_option maxHeartbeats 4000000 in
theorem c3_step1 : c3S0.next = some c3S1 := by decide

set_option maxHeartbeats 4000000 in
theorem c3_step2 : c3S1.next = some c3S2 := by decide

set_option maxHeartbeats 4000000 in
theorem c3_step3 : c3S2.next = some c3S3 := by decide

set_option maxHeartbeats 4000000 in
theorem c3_step4 : c3S3.next = some c3S4 := by decide

set_option maxHeartbeats 4000000 in
theorem c3_step5 : c3S4.next = some c3S5 := by decide

set_option maxHeartbeats 4000000 in
theorem c3_step6 : c3S5.next = some c3S6 := by decide

set_option maxHeartbeats 4000000 in
theorem c3_step7 : c3S6.next = some c3S7 := by decide

set_option maxHeartbeats 4000000 in
theorem c3_step8 : c3S7.next = some c3S8 := by decide

set_option maxHeartbeats 4000000 in
theorem c3_step9 : c3S8.next = some c3S9 := by decide

set_option maxHeartbeats 4000000 in
theorem c3_step10 : c3S9.next = some c3S10 := by decide

set_option maxHeartbeats 4000000 in
theorem c3_step11 : c3S10.next = some c3S11 := by decide

set_option maxHeartbeats 4000000 in
theorem c3_step12 : c3S11.next = some c3S12 := by decide

set_option maxHeartbeats 4000000 in
theorem c3_step13 : c3S12.next = some c3S13 := by decide

set_option maxHeartbeats 4000000 in
theorem c3_step14 : c3S13.next = some c3S14 := by decide

set_option maxHeartbeats 4000000 in
theorem c3_step15 : c3S14.next = some c3S15 := by decide

set_option maxHeartbeats 4000000 in
theorem c3_step16 : c3S15.next = some c3S16 := by decide

set_option maxHeartbeats 4000000 in
theorem c3_step17 : c3S16.next = some c3S17 := by decide

set_option maxHeartbeats 4000000 in
theorem c3_step18 : c3S17.next = some c3S18 := by decide

set_option maxHeartbeats 4000000 in
theorem c3_step19 : c3S18.next = some c3S19 := by decide

set_option maxHeartbeats 4000000 in
theorem c3_step20 : c3S19.next = some c3S20 := by decide

set_option maxHeartbeats 4000000 in
theorem c3_step21 : c3S20.next = some c3S21 := by decide

set_option maxHeartbeats 4000000 in
theorem c3_step22 : c3S21.next = some c3S22 := by decide

set_option maxHeartbeats 4000000 in
theorem c3_step23 : c3S22.next = some c3S23 := by decide

set_option maxHeartbeats 4000000 in
theorem c3_step24 : c3S23.next = some c3S24 := by decide

set_option maxHeartbeats 4000000 in
theorem c3_step25 : c3S24.next = some c3S25 := by decide

set_option maxHeartbeats 4000000 in
theorem c3_step26 : c3S25.next = some c3S26 := by decide

set_option maxHeartbeats 4000000 in
theorem c3_step27 : c3S26.next = some c3S27 := by decide

set_option maxHeartbeats 4000000 in
theorem c3_step28 : c3S27.next = some c3S28 := by decide

set_option maxHeartbeats 4000000 in
theorem c3_step29 : c3S28.next = some c3S29 := by decide

set_option maxHeartbeats 4000000 in
theorem c3_step30 : c3S29.next = some c3S30 := by decide

set_option maxHeartbeats 4000000 in
theorem c3_step31 : c3S30.next = some c3S31 := by decide

set_option maxHeartbeats 4000000 in
theorem c3_step32 : c3S31.next = some c3S32 := by decide

set_option maxHeartbeats 4000000 in
theorem c3_step33 : c3S32.next = some c3S33 := by decide

set_option maxHeartbeats 4000000 in
theorem c3_step34 : c3S33.next = some c3S34 := by decide

set_option maxHeartbeats 4000000 in
theorem c3_step35 : c3S34.next = some c3S35 := by decide

set_option maxHeartbeats 4000000 in
theorem c3_step36 : c3S35.next = some c3S36 := by decide

set_option maxHeartbeats 4000000 in
theorem c3_step37 : c3S36.next = some c3S37 := by decide

set_option maxHeartbeats 4000000 in
theorem c3_step38 : c3S37.next = some c3S38 := by decide

set_option maxHeartbeats 4000000 in
theorem c3_step39 : c3S38.next = some c3S39 := by decide

set_option maxHeartbeats 4000000 in
theorem c3_step40 : c3S39.next = some c3S40 := by decide

set_option maxHeartbeats 4000000 in
theorem c3_step41 : c3S40.next = some c3S41 := by decide

set_option maxHeartbeats 4000000 in
theorem c3_step42 : c3S41.next = some c3S42 := by decide

set_option maxHeartbeats 4000000 in
theorem c3_step43 : c3S42.next = some c3S43 := by decide

set_option maxHeartbeats 4000000 in
theorem c3_step44 : c3S43.next = some c3S44 := by decide

set_option maxHeartbeats 4000000 in
theorem c3_step45 : c3S44.next = some c3S45 := by decide

set_option maxHeartbeats 4000000 in
theorem c3_step46 : c3S45.next = some c3S46 := by decide

set_option maxHeartbeats 4000000 in
theorem c3_step47 : c3S46.next = some c3S47 := by decide

set_option maxHeartbeats 4000000 in
theorem c3_step48 : c3S47.next = some c3S48 := by decide

set_option maxHeartbeats 4000000 in
theorem c3_step49 : c3S48.next = some c3S49 := by decide

set_option maxHeartbeats 4000000 in
theorem c3_step50 : c3S49.next = some c3S50 := by decide

set_option maxHeartbeats 4000000 in
theorem c3_step51 : c3S50.next = some c3S51 := by decide

set_option maxHeartbeats 4000000 in
theorem c3_step52 : c3S51.next = some c3S52 := by decide

set_option maxHeartbeats 4000000 in
theorem c3_step53 : c3S52.next = some c3S53 := by decide

set_option maxHeartbeats 4000000 in
theorem c3_step54 : c3S53.next = some c3S54 := by decide

theorem c3_nextN54 : Solver.nextN 54 c3S0 = some c3S54 :=
  (nextN_cons 53 c3S0 c3S1 c3_step1).trans ((nextN_cons 52 c3S1 c3S2 c3_step2).trans ((nextN_cons 51 c3S2 c3S3 c3_step3).trans ((nextN_cons 50 c3S3 c3S4 c3_step4).trans ((nextN_cons 49 c3S4 c3S5 c3_step5).trans ((nextN_cons 48 c3S5 c3S6 c3_step6).trans ((nextN_cons 47 c3S6 c3S7 c3_step7).trans ((nextN_cons 46 c3S7 c3S8 c3_step8).trans ((nextN_cons 45 c3S8 c3S9 c3_step9).trans ((nextN_cons 44 c3S9 c3S10 c3_step10).trans ((nextN_cons 43 c3S10 c3S11 c3_step11).trans ((nextN_cons 42 c3S11 c3S12 c3_step12).trans ((nextN_cons 41 c3S12 c3S13 c3_step13).trans ((nextN_cons 40 c3S13 c3S14 c3_step14).trans ((nextN_cons 39 c3S14 c3S15 c3_step15).trans ((nextN_cons 38 c3S15 c3S16 c3_step16).trans ((nextN_cons 37 c3S16 c3S17 c3_step17).trans ((nextN_cons 36 c3S17 c3S18 c3_step18).trans ((nextN_cons 35 c3S18 c3S19 c3_step19).trans ((nextN_cons 34 c3S19 c3S20 c3_step20).trans ((nextN_cons 33 c3S20 c3S21 c3_step21).trans ((nextN_cons 32 c3S21 c3S22 c3_step22).trans ((nextN_cons 31 c3S22 c3S23 c3_step23).trans ((nextN_cons 30 c3S23 c3S24 c3_step24).trans ((nextN_cons 29 c3S24 c3S25 c3_step25).trans ((nextN_cons 28 c3S25 c3S26 c3_step26).trans ((nextN_cons 27 c3S26 c3S27 c3_step27).trans ((nextN_cons 26 c3S27 c3S28 c3_step28).trans ((nextN_cons 25 c3S28 c3S29 c3_step29).trans ((nextN_cons 24 c3S29 c3S30 c3_step30).trans ((nextN_cons 23 c3S30 c3S31 c3_step31).trans ((nextN_cons 22 c3S31 c3S32 c3_step32).trans ((nextN_cons 21 c3S32 c3S33 c3_step33).trans ((nextN_cons 20 c3S33 c3S34 c3_step34).trans ((nextN_cons 19 c3S34 c3S35 c3_step35).trans ((nextN_cons 18 c3S35 c3S36 c3_step36).trans ((nextN_cons 17 c3S36 c3S37 c3_step37).trans ((nextN_cons 16 c3S37 c3S38 c3_step38).trans ((nextN_cons 15 c3S38 c3S39 c3_step39).trans ((nextN_cons 14 c3S39 c3S40 c3_step40).trans ((nextN_cons 13 c3S40 c3S41 c3_step41).trans ((nextN_cons 12 c3S41 c3S42 c3_step42).trans ((nextN_cons 11 c3S42 c3S43 c3_step43).trans ((nextN_cons 10 c3S43 c3S44 c3_step44).trans ((nextN_cons 9 c3S44 c3S45 c3_step45).trans ((nextN_cons 8 c3S45 c3S46 c3_step46).trans ((nextN_cons 7 c3S46 c3S47 c3_step47).trans ((nextN_cons 6 c3S47 c3S48 c3_step48).trans ((nextN_cons 5 c3S48 c3S49 c3_step49).trans ((nextN_cons 4 c3S49 c3S50 c3_step50).trans ((nextN_cons 3 c3S50 c3S51 c3_step51).trans ((nextN_cons 2 c3S51 c3S52 c3_step52).trans ((nextN_cons 1 c3S52 c3S53 c3_step53).trans ((nextN_cons 0 c3S53 c3S54 c3_step54).trans (rfl))))))))))))))))))))))))))))))))))))))))))))))))))))))

set_option maxHeartbeats 4000000 in
/-- C3: `Solver::solve` on the game built from the concrete 81-cell test board
terminates — the driver loop finishes after 54 calls to `next()`, so fuel 55
suffices — and returns a game whose row-major cell values are exactly the
expected solved board. -/
theorem c3_solve_concrete :
    ((Game.new c3Input).bind (Solver.solve 55)).bind Game.row_major_values
      = some c3Expected := by
  have hnew : Game.new c3Input = some c3S0.game := by decide
  have hsv : Solver.new c3S0.game = some c3S0 := by decide
  have hloop : Solver.solveLoop 55 c3S0 = some c3S54.game :=
    solveLoop_of_nextN 54 c3S0 c3S54 c3_nextN54 (by decide)
  rw [hnew, option_some_bind]
  unfold Solver.solve
  rw [hsv]
  dsimp only
  rw [hloop, option_some_bind]
  decide
